import Mathlib

/-!
# Producer_Consumer: a shallow embedding of the pipeline core

The C sources under `src/c` are embedded as pure functions over an explicit
state.  System calls the code relies on (`semget`, `semctl`, `semop`,
`semtimedop`, `shmget`, `shmat`, `dlopen`, `dlsym`, ...) are not part of the
repository; they are modelled after their Linux manual pages as functions on
a `Kernel` value, for one caller at a time (no other process runs during a
call).  Where the kernel keeps a record per process (the undo adjustments of
operations made with `SEM_UNDO`), the calling process is given by a number: 0
for the `isc` process, 1 for the consumer, 2 for the producer.  Log output
(`printf`, `fprintf` to the log files) is not modelled except where a function's
only effect is a diagnostic or where a property is about the lines written.
-/

namespace ProducerConsumer

/-! ## Constants of the C library and of `isc.h` -/

/-- Key value that makes `semget`/`shmget` always create a private object. -/
def IPC_PRIVATE : Int := 0
/-- Flag `IPC_CREAT` (octal 01000). -/
def IPC_CREAT : Nat := 0o1000
/-- Flag `IPC_EXCL` (octal 02000). -/
def IPC_EXCL : Nat := 0o2000
/-- Flag `IPC_NOWAIT` (octal 04000). -/
def IPC_NOWAIT : Nat := 0o4000
/-- Flag `SEM_UNDO` (0x1000). -/
def SEM_UNDO : Nat := 0x1000
/-- Largest value a System V semaphore can hold. -/
def SEMVMX : Nat := 32767
/-- Largest number of semaphores in one set. -/
def SEMMSL : Nat := 32000
/-- Largest undo adjustment the kernel records for a process and a
semaphore (`SEMAEM`); the smallest is `-SEMAEM - 1`. -/
def SEMAEM : Int := 32767

def ENOENT : Nat := 2
def EAGAIN : Nat := 11
def EFAULT : Nat := 14
def EEXIST : Nat := 17
def EINVAL : Nat := 22
def EFBIG : Nat := 27
def ERANGE : Nat := 34
def ETIMEDOUT : Nat := 110

/-- Macro `PROD_SHM_SIZE` of `isc.h`. -/
def PROD_SHM_SIZE : Nat := 512
/-- Macro `PROD_TEST_REGION_SIZE` of `isc.h`. -/
def PROD_TEST_REGION_SIZE : Nat := PROD_SHM_SIZE
/-- Macro `CONS_SHM_SIZE` of `isc.h`. -/
def CONS_SHM_SIZE : Nat := 512
/-- Macro `CONS_TEST_REGION_SIZE` of `isc.h`. -/
def CONS_TEST_REGION_SIZE : Nat := CONS_SHM_SIZE

/-! ## Kernel model: System V semaphore sets -/

/-- One semaphore set as the kernel keeps it: its identifier, the key it was
created under, the permission bits, the values of its semaphores, and the
undo adjustments: `semadj pid n` is what the kernel has recorded for process
`pid` and semaphore number `n` through operations made with `SEM_UNDO` (0 when it
has recorded nothing). -/
structure SemSet where
  semid : Nat
  key : Int
  mode : Nat
  semval : List Nat
  semadj : Nat → Nat → Int := fun _ _ => 0

/-- Address space of one attached shared memory segment: the byte at each
offset from the attach address. -/
abbrev Mem := Nat → UInt8

/-- One shared memory segment: identifier, key, requested size and bytes. -/
structure ShmSeg where
  shmid : Nat
  key : Int
  size : Nat
  bytes : Mem

/-- The state of the System V IPC objects, together with the `errno` left by
the most recent failing call. -/
structure Kernel where
  sems : List SemSet
  shms : List ShmSeg
  errno : Nat

/-- The kernel with no IPC object. -/
def Kernel.empty : Kernel := { sems := [], shms := [], errno := 0 }

/-- The semaphore set with identifier `semid`, if there is one. -/
def findSem (k : Kernel) (semid : Int) : Option SemSet :=
  k.sems.find? (fun s => (s.semid : Int) = semid)

/-- The semaphore set that a lookup by `key` finds, if there is one. A key
equal to `IPC_PRIVATE` never finds anything. -/
def findSemKey (k : Kernel) (key : Int) : Option SemSet :=
  if key = IPC_PRIVATE then none else k.sems.find? (fun s => s.key = key)

/-- The value of semaphore number `n` of set `semid`. -/
def semValue (k : Kernel) (semid : Int) (n : Nat) : Option Nat :=
  match findSem k semid with
  | none => none
  | some s => s.semval.get? n

/-- An identifier no set of the list carries. -/
def freshSemId : List SemSet → Nat
  | [] => 0
  | s :: rest => max (s.semid + 1) (freshSemId rest)

/-- Replace the first set carrying identifier `semid` by its image under `f`. -/
def updateSem (f : SemSet → SemSet) (semid : Int) : List SemSet → List SemSet
  | [] => []
  | s :: rest =>
    if (s.semid : Int) = semid then f s :: rest else s :: updateSem f semid rest

/-- Remove the first set carrying identifier `semid`. -/
def removeSem (semid : Int) : List SemSet → List SemSet
  | [] => []
  | s :: rest => if (s.semid : Int) = semid then rest else s :: removeSem semid rest

/-- Give semaphore number `n` of set `semid` the value `w`. -/
def setSemval (k : Kernel) (semid : Int) (n w : Nat) : Kernel :=
  { k with sems := updateSem (fun t => { t with semval := t.semval.set n w }) semid k.sems }

/-- The adjustment function of a set after process `pid` has had `a` recorded for
semaphore number `n`. -/
def recordSemadj (t : SemSet) (pid n : Nat) (a : Int) : Nat → Nat → Int :=
  fun p j => if p = pid ∧ j = n then a else t.semadj p j

/-- Record the undo adjustment `a` of process `pid` for semaphore number `n` of
set `semid`. -/
def setSemadj (k : Kernel) (semid : Int) (pid n : Nat) (a : Int) : Kernel :=
  { k with sems := updateSem (fun t => { t with semadj := recordSemadj t pid n a }) semid k.sems }

/-- The undo adjustment recorded for process `pid` and semaphore number `n` of set
`semid`. -/
def semAdj (k : Kernel) (semid : Int) (pid n : Nat) : Int :=
  match findSem k semid with
  | none => 0
  | some s => s.semadj pid n

/-- The undo adjustment of process `pid` lies in the range the kernel keeps it in. -/
def adjInRange (k : Kernel) (semid : Int) (pid : Nat) : Prop :=
  -SEMAEM - 1 ≤ semAdj k semid pid 0 ∧ semAdj k semid pid 0 ≤ SEMAEM

instance (k : Kernel) (semid : Int) (pid : Nat) : Decidable (adjInRange k semid pid) := by
  unfold adjInRange
  infer_instance

/-- Creation of a new set of `nsems` semaphores, all of value 0 (the kernel's
`newary`): it fails with `EINVAL` when `nsems` is 0 or exceeds `SEMMSL`. -/
def newary (k : Kernel) (key : Int) (nsems : Nat) (semflg : Nat) : Int × Kernel :=
  if nsems = 0 ∨ SEMMSL < nsems then (-1, { k with errno := EINVAL })
  else
    let id := freshSemId k.sems
    let s : SemSet := { semid := id, key := key, mode := semflg % 512, semval := List.replicate nsems 0 }
    ((id : Int), { k with sems := k.sems ++ [s] })

/-- System call `semget(key, nsems, semflg)`. A private key always creates; otherwise
an existing set for the key is returned (unless `IPC_CREAT | IPC_EXCL` is
given, or it has fewer than `nsems` semaphores), and a missing one is created
only under `IPC_CREAT`. Permission checks are not modelled. -/
def semget (k : Kernel) (key : Int) (nsems : Nat) (semflg : Nat) : Int × Kernel :=
  if key = IPC_PRIVATE then newary k key nsems semflg
  else
    match k.sems.find? (fun s => s.key = key) with
    | none =>
      if semflg &&& IPC_CREAT ≠ 0 then newary k key nsems semflg
      else (-1, { k with errno := ENOENT })
    | some s =>
      if semflg &&& IPC_CREAT ≠ 0 ∧ semflg &&& IPC_EXCL ≠ 0 then
        (-1, { k with errno := EEXIST })
      else if s.semval.length < nsems then (-1, { k with errno := EINVAL })
      else ((s.semid : Int), k)

/-- System call `semctl(semid, semnum, IPC_RMID, arg)`: removes the set; `semnum` and
`arg` are ignored. -/
def semctl_IPC_RMID (k : Kernel) (semid : Int) (_semnum : Nat) : Int × Kernel :=
  match findSem k semid with
  | none => (-1, { k with errno := EINVAL })
  | some _ => (0, { k with sems := removeSem semid k.sems })

/-- System call `semctl(semid, semnum, SETALL, arg)`: sets every semaphore of the set from
`array` and clears the undo adjustments of all processes for the set; `semnum` is
ignored. A value above `SEMVMX` gives `ERANGE`. An array shorter than the set,
which C would read past, is rejected with `EFAULT`. -/
def semctl_SETALL (k : Kernel) (semid : Int) (_semnum : Nat) (array : List Nat) :
    Int × Kernel :=
  match findSem k semid with
  | none => (-1, { k with errno := EINVAL })
  | some s =>
    if array.length < s.semval.length then (-1, { k with errno := EFAULT })
    else if (array.take s.semval.length).any (fun v => decide (SEMVMX < v)) then
      (-1, { k with errno := ERANGE })
    else
      let sems' :=
        updateSem
          (fun t => { t with semval := array.take t.semval.length, semadj := fun _ _ => 0 })
          semid k.sems
      (0, { k with sems := sems' })

/-- C `struct sembuf`: one semaphore operation. -/
structure Sembuf where
  sem_num : Nat
  sem_op : Int
  sem_flg : Nat
deriving DecidableEq, Repr

/-- What the kernel can do with one operation right now. -/
inductive SemOutcome where
  | done (k : Kernel)
  | fail (errno : Nat)
  | wouldBlock

/-- The end of an operation of process `pid` that changes the value of a
semaphore of set `s` to `w`. Under `SEM_UNDO` the kernel computes the new undo
adjustment `semadj - sem_op`; outside the range `-SEMAEM - 1 .. SEMAEM` the operation
fails with `ERANGE` and changes nothing, otherwise adjustment and value are
stored. Without `SEM_UNDO` only the value is stored. The adjustments act on the
values when the process exits, which is not modelled. -/
def commitSemop (k : Kernel) (semid : Int) (op : Sembuf) (pid : Nat) (s : SemSet) (w : Nat) :
    SemOutcome :=
  if op.sem_flg &&& SEM_UNDO ≠ 0 then
    if s.semadj pid op.sem_num - op.sem_op < -SEMAEM - 1 ∨
        SEMAEM < s.semadj pid op.sem_num - op.sem_op then .fail ERANGE
    else
      .done (setSemadj (setSemval k semid op.sem_num w) semid pid op.sem_num
        (s.semadj pid op.sem_num - op.sem_op))
  else .done (setSemval k semid op.sem_num w)

/-- One attempt of process `pid` at the single operation `op` on set `semid`: a
positive `sem_op` is added (`ERANGE` above `SEMVMX`), a negative one is subtracted
when the value is large enough and would block otherwise, zero waits for the
value 0. An operation that changes the value ends with `commitSemop`. The calling
process is 0, the `isc` process, when `pid` is not given. -/
def trySemop (k : Kernel) (semid : Int) (op : Sembuf) (pid : Nat := 0) : SemOutcome :=
  match findSem k semid with
  | none => .fail EINVAL
  | some s =>
    match s.semval.get? op.sem_num with
    | none => .fail EFBIG
    | some v =>
      if 0 < op.sem_op then
        if SEMVMX < v + op.sem_op.toNat then .fail ERANGE
        else commitSemop k semid op pid s (v + op.sem_op.toNat)
      else if op.sem_op < 0 then
        if op.sem_op.natAbs ≤ v then commitSemop k semid op pid s (v - op.sem_op.natAbs)
        else .wouldBlock
      else
        if v = 0 then .done k else .wouldBlock

/-- System call `semop(semid, sops, 1)` with one operation, made by process `pid`. The
result is `none` when the call blocks and nothing ever wakes it. -/
def semop (k : Kernel) (semid : Int) (op : Sembuf) (pid : Nat := 0) : Option (Int × Kernel) :=
  match trySemop k semid op pid with
  | .done k' => some (0, k')
  | .fail e => some (-1, { k with errno := e })
  | .wouldBlock =>
    if op.sem_flg &&& IPC_NOWAIT ≠ 0 then some (-1, { k with errno := EAGAIN }) else none

/-- System call `semtimedop(semid, sops, 1, timeout)` with one operation and a timeout of
`timeout_ns` nanoseconds, made by process `pid`: an operation that cannot proceed
fails with `EAGAIN` once the timeout has passed. -/
def semtimedop (k : Kernel) (semid : Int) (op : Sembuf) (_timeout_ns : Nat) (pid : Nat := 0) :
    Int × Kernel :=
  match trySemop k semid op pid with
  | .done k' => (0, k')
  | .fail e => (-1, { k with errno := e })
  | .wouldBlock => (-1, { k with errno := EAGAIN })

/-! ## `common.c`: the binary semaphore -/

/-- Source `binary_semaphore_allocation` of `common.c`. -/
def binary_semaphore_allocation (k : Kernel) (key : Int) (sem_flags : Nat) : Int × Kernel :=
  let r := semget k key 0 0
  if r.1 = -1 then semget r.2 key 1 sem_flags
  else r

/-- Source `binary_semaphore_deallocate` of `common.c`. -/
def binary_semaphore_deallocate (k : Kernel) (semid : Int) : Int × Kernel :=
  semctl_IPC_RMID k semid 1

/-- Source `binary_semaphore_initialize` of `common.c`: `values[0] = 1`, then `SETALL`. -/
def binary_semaphore_initialize (k : Kernel) (semid : Int) : Int × Kernel :=
  semctl_SETALL k semid 0 [1]

/-- The process numbers used for the three processes of the system: the `isc`
process (orchestrator and modules), the consumer and the producer. -/
def iscPid : Nat := 0
/-- The process number of the consumer process. -/
def consumerPid : Nat := 1
/-- The process number of the producer process. -/
def producerPid : Nat := 2

/-- Source `binary_semaphore_wait` of `common.c`, called in process `pid` (0 when not given):
decrement by 1 with `SEM_UNDO` and a timeout of 1 ms. -/
def binary_semaphore_wait (k : Kernel) (semid : Int) (pid : Nat := 0) : Int × Kernel :=
  semtimedop k semid { sem_num := 0, sem_op := -1, sem_flg := SEM_UNDO } (1 * 1000000) pid

/-- Source `binary_semaphore_post` of `common.c`, called in process `pid` (0 when not given):
increment by 1 with `SEM_UNDO`, through `semop`. -/
def binary_semaphore_post (k : Kernel) (semid : Int) (pid : Nat := 0) : Option (Int × Kernel) :=
  semop k semid { sem_num := 0, sem_op := 1, sem_flg := SEM_UNDO } pid

/-- The two operations a holder of a semaphore identifier performs on it. -/
inductive SemCall where
  | wait
  | post
deriving DecidableEq, Repr

/-- The kernel after one call made in process `pid`; `none` if the call never returns. -/
def semCall (k : Kernel) (semid : Int) (pid : Nat) : SemCall → Option Kernel
  | .wait => some (binary_semaphore_wait k semid pid).2
  | .post => (binary_semaphore_post k semid pid).map (fun r => r.2)

/-- The kernel after a sequence of calls, each given with the process that makes
it, performed from left to right. -/
def runSemCalls (k : Kernel) (semid : Int) : List (Nat × SemCall) → Option Kernel
  | [] => some k
  | c :: cs => (semCall k semid c.1 c.2).bind (fun k' => runSemCalls k' semid cs)

/-- A kernel holding one set (identifier 0, key 101) whose only semaphore has value `v`. -/
def kernelWithSem (v : Nat) : Kernel :=
  { sems := [{ semid := 0, key := 101, mode := 0o644, semval := [v] }], shms := [], errno := 0 }

/-- The segment with identifier `shmid`, if there is one. -/
def findShm (k : Kernel) (shmid : Int) : Option ShmSeg :=
  k.shms.find? (fun s => (s.shmid : Int) = shmid)

/-- An identifier no segment of the list carries. -/
def freshShmId : List ShmSeg → Nat
  | [] => 0
  | s :: rest => max (s.shmid + 1) (freshShmId rest)

/-- Replace the bytes of the first segment carrying identifier `shmid`. -/
def updateShm (f : Mem → Mem) (shmid : Int) : List ShmSeg → List ShmSeg
  | [] => []
  | s :: rest =>
    if (s.shmid : Int) = shmid then { s with bytes := f s.bytes } :: rest
    else s :: updateShm f shmid rest

/-- Creation of a new segment of `size` bytes, all zero. -/
def newseg (k : Kernel) (key : Int) (size : Nat) : Int × Kernel :=
  if size = 0 then (-1, { k with errno := EINVAL })
  else
    let id := freshShmId k.shms
    let s : ShmSeg := { shmid := id, key := key, size := size, bytes := fun _ => 0 }
    ((id : Int), { k with shms := k.shms ++ [s] })

/-- System call `shmget(key, size, shmflg)`, with the same lookup rules as `semget`; an
existing segment smaller than `size` gives `EINVAL`. -/
def shmget (k : Kernel) (key : Int) (size : Nat) (shmflg : Nat) : Int × Kernel :=
  if key = IPC_PRIVATE then newseg k key size
  else
    match k.shms.find? (fun s => s.key = key) with
    | none =>
      if shmflg &&& IPC_CREAT ≠ 0 then newseg k key size
      else (-1, { k with errno := ENOENT })
    | some s =>
      if shmflg &&& IPC_CREAT ≠ 0 ∧ shmflg &&& IPC_EXCL ≠ 0 then
        (-1, { k with errno := EEXIST })
      else if s.size < size then (-1, { k with errno := EINVAL })
      else ((s.shmid : Int), k)

/-- System call `shmat(shmid, NULL, 0)`. The address it returns is represented by the
identifier of the attached segment; `-1` is the failure value `(void * ) -1`. -/
def shmat (k : Kernel) (shmid : Int) : Int × Kernel :=
  match findShm k shmid with
  | none => (-1, { k with errno := EINVAL })
  | some s => ((s.shmid : Int), k)

/-- System call `shmdt(shmaddr)`: detach the segment attached at `shmaddr`. An address at which
nothing is attached, such as `NULL` when no segment exists, gives `EINVAL`. Attach
addresses being segment identifiers, the segment and its bytes are left as
they are. -/
def shmdt (k : Kernel) (shmaddr : Int) : Int × Kernel :=
  match findShm k shmaddr with
  | none => (-1, { k with errno := EINVAL })
  | some _ => (0, k)

/-- The bytes reachable through the attach address `p`, when `p` is one. -/
def readShm (k : Kernel) (p : Int) : Option Mem :=
  (findShm k p).map (fun s => s.bytes)

/-- C `memcpy(dst, src, n)`: the first `n` bytes of `src` land at offsets
`0 .. n-1` of `dst`, the other offsets keep their byte. -/
def memcpy (dst : Mem) (src : List UInt8) (n : Nat) : Mem :=
  fun i => if i < n then src.getD i 0 else dst i

/-- The first `n` bytes behind an address, as a list. -/
def readBytes (m : Mem) (n : Nat) : List UInt8 :=
  (List.range n).map m

/-! ## Process environment and fatal errors (`common.c`) -/

/-- What the code takes from its surroundings: the program name (global
`program_name`), the key `ftok` derives from a path (`-1` when the file is
missing) and the text `strerror` gives for an `errno`. -/
structure Env where
  program_name : String
  ftokKey : String → Char → Int
  strerror : Nat → String

/-- C library `ftok(path, proj_id)`. -/
def ftok (env : Env) (k : Kernel) (path : String) (proj_id : Char) : Int × Kernel :=
  let key := env.ftokKey path proj_id
  if key = -1 then (-1, { k with errno := ENOENT }) else (key, k)

/-- A terminated process: the status passed to `exit` and the line written
to `stderr`. -/
structure Halt where
  status : Nat
  stderr : String
deriving DecidableEq, Repr

/-- A computation that either returns a value or terminates the process. -/
abbrev Proc (α : Type) := Except Halt α

/-- Source `error` of `common.c`: print the diagnostic, then `exit (1)`. -/
def error (env : Env) (cause : String) (message : String) : Proc Unit :=
  Except.error
    { status := 1
      stderr := env.program_name ++ ": error: (" ++ cause ++ ") " ++ message ++ "\n" }

/-- Source `system_error` of `common.c`: `error (operation, strerror (errno))`. -/
def system_error (env : Env) (errno : Nat) (operation : String) : Proc Unit :=
  error env operation (env.strerror errno)

/-! ## `shmem_rec.c`: the receive-side shared-memory module -/

/-- The static variables of `shmem_rec.c`. The pointer `cons_shm` is the
attach address returned by `shmat`. -/
structure ShmemRec where
  cons_semkey : Int
  cons_semid : Int
  cons_shmkey : Int
  cons_shmid : Int
  cons_shm : Int
deriving DecidableEq, Repr

/-- Source `ipc_init` of `shmem_rec.c`; both callback arguments are unused. -/
def ShmemRec.ipc_init (env : Env) (m : ShmemRec) (k : Kernel) (_ipc_rec _ipc_xmit : Nat) :
    Proc (ShmemRec × Kernel) := do
  let r1 := ftok env k "/tmp/cons_shmem_key" 'R'
  let m := { m with cons_shmkey := r1.1 }
  if r1.1 = -1 then system_error env r1.2.errno "ipc_init - cons_shmkey ftok"
  let r2 := shmget r1.2 m.cons_shmkey CONS_SHM_SIZE (0o644 ||| IPC_CREAT)
  let m := { m with cons_shmid := r2.1 }
  if r2.1 = -1 then system_error env r2.2.errno "ipc_init - cons_shmid shmget"
  let r3 := shmat r2.2 m.cons_shmid
  let m := { m with cons_shm := r3.1 }
  if r3.1 = -1 then system_error env r3.2.errno "ipc_init - cons_shm shmat"
  let r4 := ftok env r3.2 "/tmp/cons_sem_key" 'R'
  let m := { m with cons_semkey := r4.1 }
  if r4.1 = -1 then system_error env r4.2.errno "ipc_init - cons_semkey ftok"
  let r5 := binary_semaphore_allocation r4.2 m.cons_semkey (0o644 ||| IPC_CREAT)
  let m := { m with cons_semid := r5.1 }
  if r5.1 = -1 then
    system_error env r5.2.errno "ipc_init - cons_semid binary_semaphore_allocation"
  let r6 := binary_semaphore_initialize r5.2 m.cons_semid
  if r6.1 = -1 then
    system_error env r6.2.errno "ipc_init - cons_semid binary_semaphore_initialize"
  return (m, r6.2)

/-- Source `ipc_xmit` of `shmem_rec.c`. -/
def ShmemRec.ipc_xmit (env : Env) (errno : Nat) (_buf : List UInt8) (_bufSize : Int) :
    Proc Nat := do
  system_error env errno "ipc_xmit - shmem_rec - Not implemented"
  return 0

/-- Source `ipc_rec` of `shmem_rec.c`: `memcpy` of `bufSize` bytes of `buf` to the
channel, then one post, whose result is ignored. There is no result (`none`)
where C gives none: a negative `bufSize` (a huge `size_t`), a `bufSize`
beyond the end of `buf`, a `cons_shm` that is no attach address, or a post
that never returns. -/
def ShmemRec.ipc_rec (m : ShmemRec) (k : Kernel) (buf : List UInt8) (bufSize : Int) :
    Option Kernel :=
  if bufSize < 0 ∨ (buf.length : Int) < bufSize then none
  else
    match findShm k m.cons_shm with
    | none => none
    | some _ =>
      let k1 := { k with shms := updateShm (fun d => memcpy d buf bufSize.toNat) m.cons_shm k.shms }
      match binary_semaphore_post k1 m.cons_semid with
      | none => none
      | some r => some r.2

/-- The statics of `shmem_rec.c` at program start (zero-initialised). -/
def ShmemRec.zero : ShmemRec :=
  { cons_semkey := 0, cons_semid := 0, cons_shmkey := 0, cons_shmid := 0, cons_shm := 0 }

/-- Source `ipc_cleanup` of `shmem_rec.c`: detach the channel; a failed `shmdt` ends the process
through `system_error`. The closing of the module's log file is not modelled. -/
def ShmemRec.ipc_cleanup (env : Env) (m : ShmemRec) (k : Kernel) : Proc Kernel := do
  let r := shmdt k m.cons_shm
  if r.1 = -1 then system_error env r.2.errno "ipc_cleanup - cons shmdt"
  return r.2

/-- Source `ipc_stop` of `shmem_rec.c`: nothing to stop. -/
def ShmemRec.ipc_stop (m : ShmemRec) : ShmemRec := m

/-- Source `ipc_set_param` of `shmem_rec.c`. -/
def ShmemRec.ipc_set_param (_prtcl : String) (_addr : Option String) (_port : Int) : Bool := true

/-- Source `ipc_start` of `shmem_rec.c`. -/
def ShmemRec.ipc_start : Bool := true

/-- Source `ipc_wait4Done` of `shmem_rec.c`. -/
def ShmemRec.ipc_wait4Done : Bool := true

/-! ## `consumer.c`: the peer that drains the receive-side channel -/

/-- The global variables of `consumer.c`, and the data it has logged as
received (one entry per successful wait). -/
structure Consumer where
  cons_semkey : Int
  cons_semid : Int
  cons_shmkey : Int
  cons_shmid : Int
  cons_shm : Int
  received : List (List UInt8)
deriving DecidableEq, Repr

/-- Source `ipc_init` of `consumer.c`. -/
def Consumer.ipc_init (env : Env) (c : Consumer) (k : Kernel) : Proc (Consumer × Kernel) := do
  let r1 := ftok env k "/tmp/cons_shmem_key" 'R'
  let c := { c with cons_shmkey := r1.1 }
  if r1.1 = -1 then system_error env r1.2.errno "consumer - cons_shmem_key ftok"
  let r2 := shmget r1.2 c.cons_shmkey CONS_SHM_SIZE (0o644 ||| IPC_CREAT)
  let c := { c with cons_shmid := r2.1 }
  if r2.1 = -1 then system_error env r2.2.errno "consumer - Create the segment shmem"
  let r3 := shmat r2.2 c.cons_shmid
  let c := { c with cons_shm := r3.1 }
  if r3.1 = -1 then system_error env r3.2.errno "consumer - Attach to the segment shmem"
  let r4 := ftok env r3.2 "/tmp/cons_sem_key" 'R'
  let c := { c with cons_semkey := r4.1 }
  if r4.1 = -1 then system_error env r4.2.errno "consumer - cons_sem_key ftok"
  let r5 := binary_semaphore_allocation r4.2 c.cons_semkey (0o644 ||| IPC_CREAT)
  let c := { c with cons_semid := r5.1 }
  if r5.1 = -1 then system_error env r5.2.errno "consumer - binary_semaphore_allocation"
  let r6 := binary_semaphore_initialize r5.2 c.cons_semid
  if r6.1 = -1 then system_error env r6.2.errno "consumer - binary_semaphore_initialize"
  return (c, r6.2)

/-- One pass of the `for ( ;; )` loop of `main` in `consumer.c`, after the
`sigusr1_count` test: wait on the semaphore; on success log the
`CONS_TEST_REGION_SIZE` bytes of the channel. The result is `none` when
`cons_shm` is no attach address. -/
def Consumer.loopBody (c : Consumer) (k : Kernel) : Option (Consumer × Kernel) :=
  let r := binary_semaphore_wait k c.cons_semid consumerPid
  if r.1 = -1 then some (c, r.2)
  else
    match readShm r.2 c.cons_shm with
    | none => none
    | some d =>
      some ({ c with received := c.received ++ [readBytes d CONS_TEST_REGION_SIZE] }, r.2)

/-- What the consumer logs at its next loop pass after two receive calls with
no wait in between: `ipc_rec (B1)`, `ipc_rec (B2)`, then one pass of the
consumer loop. -/
def observeAfterTwo (m : ShmemRec) (c : Consumer) (k : Kernel) (B1 B2 : List UInt8) :
    Option (List UInt8) :=
  (ShmemRec.ipc_rec m k B1 B1.length).bind fun k1 =>
  (ShmemRec.ipc_rec m k1 B2 B2.length).bind fun k2 =>
  (Consumer.loopBody c k2).bind fun r => r.1.received.getLast?

/-- The files `ftok` finds in the examples: the two key files of the
consumer side and the two of the producer side. -/
def demoEnv : Env :=
  { program_name := "isc"
    ftokKey := fun path _ =>
      if path = "/tmp/cons_shmem_key" then 100
      else if path = "/tmp/cons_sem_key" then 101
      else if path = "/tmp/prod_shmem_key" then 200
      else if path = "/tmp/prod_sem_key" then 201
      else -1
    strerror := fun _ => "error" }

/-- A kernel with one segment (identifier 0, key 100, all bytes zero) and one
semaphore set (identifier 0, key 101) whose semaphore has value `v`. -/
def kernelWithChannel (v : Nat) : Kernel :=
  { sems := [{ semid := 0, key := 101, mode := 0o644, semval := [v] }]
    shms := [{ shmid := 0, key := 100, size := 512, bytes := fun _ => 0 }]
    errno := 0 }

/-- The statics of `shmem_rec.c` once attached to the objects of `kernelWithChannel`. -/
def demoShmemRec : ShmemRec :=
  { cons_semkey := 101, cons_semid := 0, cons_shmkey := 100, cons_shmid := 0, cons_shm := 0 }

/-- The globals of `consumer.c` once attached to the objects of `kernelWithChannel`. -/
def demoConsumer : Consumer :=
  { cons_semkey := 101, cons_semid := 0, cons_shmkey := 100, cons_shmid := 0, cons_shm := 0,
    received := [] }

/-! ## `shmem_xmit.c`: the transmit-side shared-memory module -/

/-- The static variables of `shmem_xmit.c`. A function pointer is an address,
0 being `NULL`. -/
structure ShmemXmit where
  prod_semkey : Int
  prod_semid : Int
  prod_shmkey : Int
  prod_shmid : Int
  prod_shm : Int
  stop : Bool
  XmitProcActive : Bool
  xmitCallbackFunction : Nat
deriving DecidableEq, Repr

/-- The statics of `shmem_xmit.c` at program start (zero-initialised). -/
def ShmemXmit.zero : ShmemXmit :=
  { prod_semkey := 0, prod_semid := 0, prod_shmkey := 0, prod_shmid := 0, prod_shm := 0,
    stop := false, XmitProcActive := false, xmitCallbackFunction := 0 }

/-- Source `ipc_init` of `shmem_xmit.c`. -/
def ShmemXmit.ipc_init (env : Env) (m : ShmemXmit) (k : Kernel) (_ipc_rec ipc_xmit : Nat) :
    Proc (ShmemXmit × Kernel) := do
  let m ← if ipc_xmit ≠ 0 then pure { m with xmitCallbackFunction := ipc_xmit }
    else do
      system_error env k.errno "shmem_xmit - xmitCallbackFunction is NULL"
      pure m
  let m := { m with stop := false, XmitProcActive := false }
  let r1 := ftok env k "/tmp/prod_shmem_key" 'R'
  let m := { m with prod_shmkey := r1.1 }
  if r1.1 = -1 then system_error env r1.2.errno "shmem_xmit - prod_shmkey ftok"
  let r2 := shmget r1.2 m.prod_shmkey PROD_SHM_SIZE (0o644 ||| IPC_CREAT)
  let m := { m with prod_shmid := r2.1 }
  if r2.1 = -1 then system_error env r2.2.errno "shmem_xmit - prod_shmid shmget"
  let r3 := shmat r2.2 m.prod_shmid
  let m := { m with prod_shm := r3.1 }
  if r3.1 = -1 then system_error env r3.2.errno "shmem_xmit - prod_shm shmat"
  let r4 := ftok env r3.2 "/tmp/prod_sem_key" 'R'
  let m := { m with prod_semkey := r4.1 }
  if r4.1 = -1 then system_error env r4.2.errno "shmem_xmit - prod_semkey ftok"
  let r5 := binary_semaphore_allocation r4.2 m.prod_semkey (0o644 ||| IPC_CREAT)
  let m := { m with prod_semid := r5.1 }
  if r5.1 = -1 then
    system_error env r5.2.errno "shmem_xmit - prod_semid binary_semaphore_allocation"
  let r6 := binary_semaphore_initialize r5.2 m.prod_semid
  if r6.1 = -1 then
    system_error env r6.2.errno "shmem_xmit - xmit binary_semaphore_initialize"
  return (m, r6.2)

/-- Source `ipc_xmit` of `shmem_xmit.c`. -/
def ShmemXmit.ipc_xmit (env : Env) (errno : Nat) (_buf : List UInt8) (_bufSize : Int) :
    Proc Nat := do
  system_error env errno "shmem_xmit - ipc_xmit - Not implemented"
  return 0

/-- Source `ipc_rec` of `shmem_xmit.c`. -/
def ShmemXmit.ipc_rec (env : Env) (errno : Nat) (_buf : List UInt8) (_bufSize : Int) :
    Proc Unit :=
  system_error env errno "shmem_xmit - ipc_rec - Not implemented"

/-- Source `ipc_stop` of `shmem_xmit.c`. -/
def ShmemXmit.ipc_stop (m : ShmemXmit) : ShmemXmit := { m with stop := true }

/-- Source `ipc_set_param` of `shmem_xmit.c`. -/
def ShmemXmit.ipc_set_param (_prtcl : String) (_addr : Option String) (_port : Int) : Bool := true

/-- One invocation of a data callback: the function called, the bytes behind
the buffer argument and the length argument. -/
structure CallbackCall where
  fn : Nat
  buf : List UInt8
  bufSize : Int
deriving DecidableEq, Repr

/-- The body of the `while (!stop)` loop of `xmitProc` in `shmem_xmit.c`: one
wait; when it returns -1 nothing else happens, otherwise the callback is
called with the channel and `PROD_TEST_REGION_SIZE`. The value the callback
returns only selects a message and is not modelled. The result is `none` when
`prod_shm` is no attach address. -/
def ShmemXmit.xmitProcBody (m : ShmemXmit) (k : Kernel) : Option (List CallbackCall × Kernel) :=
  let r := binary_semaphore_wait k m.prod_semid
  if r.1 = -1 then some ([], r.2)
  else
    match readShm r.2 m.prod_shm with
    | none => none
    | some d =>
      some ([{ fn := m.xmitCallbackFunction, buf := readBytes d PROD_TEST_REGION_SIZE,
               bufSize := PROD_TEST_REGION_SIZE }], r.2)

/-- Every semaphore set of the kernel has at least one semaphore. -/
def Kernel.semsNonempty (k : Kernel) : Prop :=
  ∀ s ∈ k.sems, s.semval ≠ []

/-! ## `sckt_client.c` and `sckt_server.c`: the capability slots left unimplemented -/

/-- Source `ipc_rec` of `sckt_client.c`. -/
def ScktClient.ipc_rec (env : Env) (errno : Nat) (_buf : List UInt8) (_bufSize : Int) :
    Proc Unit :=
  system_error env errno "sckt_client - ipc_rec - Not implemented"

/-- Source `ipc_xmit` of `sckt_server.c`. -/
def ScktServer.ipc_xmit (env : Env) (errno : Nat) (_buf : List UInt8) (_bufSize : Int) :
    Proc Nat := do
  system_error env errno "sckt_server - ipc_xmit - Not implemented"
  return 0

/-- Source `ipc_rec` of `sckt_server.c`. -/
def ScktServer.ipc_rec (env : Env) (errno : Nat) (_buf : List UInt8) (_bufSize : Int) :
    Proc Unit :=
  system_error env errno "sckt_server - ipc_rec - Not implemented"

/-! ## `ipc.c`: the module loader -/

/-- The dynamic linker as `ipc.c` uses it: `dlopen (path, RTLD_NOW)` gives a
handle and `dlsym (handle, symbol)` an address, 0 standing for `NULL`. -/
structure Loader where
  dlopen : String → Nat
  dlsym : Nat → String → Nat

/-- C `struct ipc_module` of `isc.h`, function pointers being addresses. -/
structure ipc_module where
  handle : Nat
  name : String
  init_function : Nat
  cleanup_function : Nat
  xmit_function : Nat
  stop_function : Nat
  start_function : Nat
  wait4Done_function : Nat
  set_param_function : Nat
  rec_function : Nat
deriving DecidableEq, Repr

/-- What `ipc_open` and `ipc_close` do to the heap and to the dynamic linker. -/
inductive LoaderEvent where
  | xmalloc_path (size : Nat)
  | free_path
  | dlopen (path : String)
  | dlclose (handle : Nat)
  | xmalloc_module
  | xstrdup (s : String)
  | free_name
  | free_module
deriving DecidableEq, Repr

/-- The symbols `ipc_open` resolves, in the order it resolves them. -/
def requiredSymbols : List String :=
  ["ipc_init", "ipc_cleanup", "ipc_stop", "ipc_start", "ipc_wait4Done", "ipc_set_param",
    "ipc_xmit", "ipc_rec"]

/-- Source `ipc_open` of `ipc.c`: the module it returns (`none` for `NULL`) and what it
did on the way. `xmalloc` and `xstrdup` are taken to succeed (they abort the
process otherwise). -/
def ipc_open (ld : Loader) (module_dir : String) (module_name : String) :
    Option ipc_module × List LoaderEvent :=
  let module_path := module_dir ++ "/" ++ module_name
  let handle := ld.dlopen module_path
  let ev : List LoaderEvent :=
    [.xmalloc_path (module_dir.utf8ByteSize + module_name.utf8ByteSize + 2),
     .dlopen module_path, .free_path]
  if handle = 0 then (none, ev)
  else
    let ipc_init := ld.dlsym handle "ipc_init"
    if ipc_init = 0 then (none, ev ++ [.dlclose handle])
    else
      let ipc_cleanup := ld.dlsym handle "ipc_cleanup"
      if ipc_cleanup = 0 then (none, ev ++ [.dlclose handle])
      else
        let ipc_stop := ld.dlsym handle "ipc_stop"
        if ipc_stop = 0 then (none, ev ++ [.dlclose handle])
        else
          let ipc_start := ld.dlsym handle "ipc_start"
          if ipc_start = 0 then (none, ev ++ [.dlclose handle])
          else
            let ipc_wait4Done := ld.dlsym handle "ipc_wait4Done"
            if ipc_wait4Done = 0 then (none, ev ++ [.dlclose handle])
            else
              let ipc_set_param := ld.dlsym handle "ipc_set_param"
              if ipc_set_param = 0 then (none, ev ++ [.dlclose handle])
              else
                let ipc_xmit := ld.dlsym handle "ipc_xmit"
                if ipc_xmit = 0 then (none, ev ++ [.dlclose handle])
                else
                  let ipc_rec := ld.dlsym handle "ipc_rec"
                  if ipc_rec = 0 then (none, ev ++ [.dlclose handle])
                  else
                    (some
                      { handle := handle
                        name := module_name
                        init_function := ipc_init
                        cleanup_function := ipc_cleanup
                        stop_function := ipc_stop
                        start_function := ipc_start
                        wait4Done_function := ipc_wait4Done
                        set_param_function := ipc_set_param
                        xmit_function := ipc_xmit
                        rec_function := ipc_rec },
                     ev ++ [.xmalloc_module, .xstrdup module_name])

/-- Source `ipc_close` of `ipc.c`. -/
def ipc_close (module : ipc_module) : List LoaderEvent :=
  [.dlclose module.handle, .free_name, .free_module]

/-- A linker that knows one library, `/opt/isc/shmem_rec.so` (handle 5), which
exports every required symbol except those listed in `missing`. -/
def demoLoader (missing : List String) : Loader :=
  { dlopen := fun path => if path = "/opt/isc/shmem_rec.so" then 5 else 0
    dlsym := fun handle symbol =>
      if handle = 5 ∧ symbol ∈ requiredSymbols ∧ symbol ∉ missing then
        100 + requiredSymbols.indexOf symbol
      else 0 }

/-! ## `isc.c`: the pipeline orchestrator -/

/-- What the orchestrator does that is visible from outside `isc.c`: calls
into the loader and calls through the function pointers of a module. Each
call through a pointer carries the name of the module and the address called. -/
inductive IscEvent where
  | sigaction_SIGUSR1
  | atexit_cleanup
  | ipc_open (file : String)
  | init_function (module : String) (fn : Nat) (ipc_rec : Nat) (ipc_xmit : Nat)
  | set_param_function (module : String) (fn : Nat) (prtcl : String) (addr : String) (port : Int)
  | start_function (module : String) (fn : Nat)
  | wait4Done_function (module : String) (fn : Nat)
  | stop_function (module : String) (fn : Nat)
  | cleanup_function (module : String) (fn : Nat)
  | ipc_close (module : String)
deriving DecidableEq, Repr

/-- The code behind the function pointers of the loaded modules, as the
orchestrator sees it: what a call to the function at an address returns, or
the exit it makes (the modules end the process through `system_error`). The
`stop` functions only write a flag and are taken to return. -/
structure ModuleCode where
  init : Nat → Nat → Nat → Proc Unit
  set_param : Nat → String → String → Int → Proc Bool
  start : Nat → Proc Bool
  wait4Done : Nat → Proc Bool
  cleanup : Nat → Proc Unit

/-- The global variables of `isc.c` (`module_shmem`, `module_sckt`, `none` for
`NULL`), the `errno` of the thread, and the events so far. -/
structure Isc where
  module_shmem : Option ipc_module
  module_sckt : Option ipc_module
  errno : Nat
  trace : List IscEvent
deriving DecidableEq, Repr

/-- The globals of `isc.c` at program start. -/
def Isc.start : Isc := { module_shmem := none, module_sckt := none, errno := 0, trace := [] }

/-- The orchestrator while `isc_run` runs: the globals, the local variable
`ok`, and the exit the process has made, if any. -/
structure IscRun where
  g : Isc
  ok : Bool
  halted : Option Halt
deriving DecidableEq, Repr

/-- One C statement of the orchestrator. -/
abbrev Stmt := IscRun → IscRun

/-- Execute a statement, unless the process has ended. -/
def exec (r : IscRun) (s : Stmt) : IscRun :=
  if r.halted.isSome then r else s r

/-- Execute statements in sequence. -/
def block : List Stmt → Stmt
  | [], r => r
  | s :: rest, r => block rest (exec r s)

/-- Record an event. -/
def emit (e : IscEvent) : Stmt :=
  fun r => { r with g := { r.g with trace := r.g.trace ++ [e] } }

/-- Run code that may end the process and returns nothing. -/
def callVoid (p : Proc Unit) : Stmt :=
  fun r =>
    match p with
    | .ok _ => r
    | .error h => { r with halted := some h }

/-- Run code that may end the process, and continue with the boolean it returns. -/
def callBool (p : Proc Bool) (cont : Bool → Stmt) : Stmt :=
  fun r =>
    match p with
    | .ok b => cont b r
    | .error h => { r with halted := some h }

/-- Read the two module pointers. The code only does so after both loads
succeeded; a `NULL` pointer would end the process with a segmentation fault
(status 139). -/
def withModules (f : ipc_module → ipc_module → Stmt) : Stmt :=
  fun r =>
    match r.g.module_shmem, r.g.module_sckt with
    | some module_shmem, some module_sckt => f module_shmem module_sckt r
    | _, _ => { r with halted := some { status := 139, stderr := "Segmentation fault" } }

/-- String `ipc_name_shmem_rec` of `isc.c`. -/
def ipc_name_shmem_rec : String := "shmem_rec"
/-- String `ipc_name_shmem_xmit` of `isc.c`. -/
def ipc_name_shmem_xmit : String := "shmem_xmit"
/-- String `ipc_name_sckt_client` of `isc.c`. -/
def ipc_name_sckt_client : String := "sckt_client"
/-- String `ipc_name_sckt_server` of `isc.c`. -/
def ipc_name_sckt_server : String := "sckt_server"

/-- Source `load_ipc_module` of `isc.c`, followed by the assignment of its result to a
global: the file name is `ipcName` followed by `.so` (the four names the code
passes are far shorter than the 64-byte buffer, so `snprintf` cuts nothing);
a failed `ipc_open` ends the process through `system_error`. -/
def load_ipc_module (env : Env) (ld : Loader) (module_dir : String) (ipcName : String)
    (assign : ipc_module → Isc → Isc) : Stmt :=
  fun r =>
    let module_file_name := ipcName ++ ".so"
    let r := emit (.ipc_open module_file_name) r
    match (ipc_open ld module_dir module_file_name).1 with
    | none =>
      let buffer := "load_ipc_module - Failed to open IPC(" ++ module_file_name ++ ")."
      callVoid (system_error env r.g.errno buffer) r
    | some ipcMdl => { r with g := assign ipcMdl r.g }

/-- Assignment `module_shmem = ...` of `isc.c`. -/
def setModuleShmem (m : ipc_module) (g : Isc) : Isc := { g with module_shmem := some m }

/-- Assignment `module_sckt = ...` of `isc.c`. -/
def setModuleSckt (m : ipc_module) (g : Isc) : Isc := { g with module_sckt := some m }

/-- A call `( * m->init_function) (ipc_rec, ipc_xmit)`. -/
def callInit (code : ModuleCode) (m : ipc_module) (ipc_rec ipc_xmit : Nat) : Stmt :=
  block
    [emit (.init_function m.name m.init_function ipc_rec ipc_xmit),
     callVoid (code.init m.init_function ipc_rec ipc_xmit)]

/-- One `if (module) { ( * module->cleanup_function) (); ipc_close (module); }` of `cleanup`: the events
recorded and the exit the module's `cleanup_function` has made, if any. After such
an exit `ipc_close` is not reached. -/
def cleanupModule (code : ModuleCode) (module : Option ipc_module) (s : Isc) :
    Isc × Option Halt :=
  match module with
  | none => (s, none)
  | some m =>
    let s1 := { s with trace := s.trace ++ [IscEvent.cleanup_function m.name m.cleanup_function] }
    match code.cleanup m.cleanup_function with
    | .ok _ => ({ s1 with trace := s1.trace ++ [IscEvent.ipc_close m.name] }, none)
    | .error h => (s1, some h)

/-- Source `cleanup` of `isc.c`, the function registered with `atexit`: the socket module
first, then the shared-memory module. The result holds the globals with the
events recorded and the exit made inside a module's `cleanup_function`, if any; that
exit ends the process at once, so nothing after it is executed. -/
def cleanup (code : ModuleCode) (s : Isc) : Isc × Option Halt :=
  let r1 := cleanupModule code s.module_sckt s
  match r1.2 with
  | some _ => r1
  | none => cleanupModule code r1.1.module_shmem r1.1

/-- Source `sigHandler` of `isc.c`. -/
def sigHandler (s : Isc) : Isc :=
  let s1 :=
    match s.module_sckt with
    | some m => { s with trace := s.trace ++ [IscEvent.stop_function m.name m.stop_function] }
    | none => s
  match s1.module_shmem with
  | some m => { s1 with trace := s1.trace ++ [IscEvent.stop_function m.name m.stop_function] }
  | none => s1

/-- The two branches of `if (!is_client)` in `isc_run`: load the two modules of
the role and call their `init_function` with the callbacks. -/
def iscLoadAndInit (env : Env) (ld : Loader) (module_dir : String) (code : ModuleCode)
    (is_client : Int) : Stmt :=
  if is_client = 0 then
    block
      [load_ipc_module env ld module_dir ipc_name_shmem_rec setModuleShmem,
       load_ipc_module env ld module_dir ipc_name_sckt_server setModuleSckt,
       withModules fun module_shmem _ => callInit code module_shmem 0 0,
       withModules fun module_shmem module_sckt =>
         callInit code module_sckt module_shmem.rec_function 0]
  else
    block
      [load_ipc_module env ld module_dir ipc_name_shmem_xmit setModuleShmem,
       load_ipc_module env ld module_dir ipc_name_sckt_client setModuleSckt,
       withModules fun _ module_sckt => callInit code module_sckt 0 0,
       withModules fun module_shmem module_sckt =>
         callInit code module_shmem 0 module_sckt.xmit_function]

/-- Statement `if (( * module_sckt->set_param_function) (...) == false) ok = false;`. -/
def iscSetParam (code : ModuleCode) (net_prtcl : String) (dest_ip_addr : String)
    (dest_port : Int) : Stmt :=
  withModules fun _ module_sckt =>
    block
      [emit (.set_param_function module_sckt.name module_sckt.set_param_function net_prtcl
         dest_ip_addr dest_port),
       callBool (code.set_param module_sckt.set_param_function net_prtcl dest_ip_addr dest_port)
         fun b r => if b = false then { r with ok := false } else r]

/-- Statement `if (ok) { if (!( * m->start_function) ()) ok = false; }` for the module
`sel` picks (`module_shmem` first, `module_sckt` second). -/
def iscStart (code : ModuleCode) (sel : ipc_module → ipc_module → ipc_module) : Stmt :=
  fun r =>
    if r.ok then
      (withModules fun module_shmem module_sckt =>
        block
          [emit (.start_function (sel module_shmem module_sckt).name
             (sel module_shmem module_sckt).start_function),
           callBool (code.start (sel module_shmem module_sckt).start_function)
             fun b r => if !b then { r with ok := false } else r]) r
    else r

/-- Statement `if (ok) { if (!( * m->wait4Done_function) ()) { ok = false; system_error (msg); } }`
for the module `sel` picks. -/
def iscWait4Done (env : Env) (code : ModuleCode)
    (sel : ipc_module → ipc_module → ipc_module) (msg : String) : Stmt :=
  fun r =>
    if r.ok then
      (withModules fun module_shmem module_sckt =>
        block
          [emit (.wait4Done_function (sel module_shmem module_sckt).name
             (sel module_shmem module_sckt).wait4Done_function),
           callBool (code.wait4Done (sel module_shmem module_sckt).wait4Done_function)
             fun b r =>
               if !b then
                 block
                   [fun r => { r with ok := false },
                    fun r => callVoid (system_error env r.g.errno msg) r] r
               else r]) r
    else r

/-- Source `isc_run` of `isc.c`, statement by statement: `ok = true`, the signal
handler, `atexit (cleanup)`, loading and initialising by role, then the
network parameters, the two starts (shared memory, then socket) and the two
joins (socket, then shared memory). -/
def isc_run (env : Env) (ld : Loader) (module_dir : String) (code : ModuleCode)
    (net_prtcl : String) (dest_ip_addr : String) (dest_port : Int) (is_client : Int) : Stmt :=
  block
    [fun r => { r with ok := true },
     emit .sigaction_SIGUSR1,
     emit .atexit_cleanup,
     iscLoadAndInit env ld module_dir code is_client,
     iscSetParam code net_prtcl dest_ip_addr dest_port,
     iscStart code (fun module_shmem _ => module_shmem),
     iscStart code (fun _ module_sckt => module_sckt),
     iscWait4Done env code (fun _ module_sckt => module_sckt)
       "isc - Failed to wait for Socket transport!",
     iscWait4Done env code (fun module_shmem _ => module_shmem)
       "isc - Failed to wait for Shared Memory receiver!"]

/-- The run of `isc_run` from the globals at program start. -/
def iscRunFromStart (env : Env) (ld : Loader) (module_dir : String) (code : ModuleCode)
    (net_prtcl : String) (dest_ip_addr : String) (dest_port : Int) (is_client : Int) : IscRun :=
  isc_run env ld module_dir code net_prtcl dest_ip_addr dest_port is_client
    { g := Isc.start, ok := true, halted := none }

/-- The process from the call of `isc_run` in `main` to its end: `main` returns 0
after `isc_run` returns, an exit inside `isc_run` keeps its status, and in both
cases the function registered with `atexit` runs. When a module's `cleanup_function`
calls `exit` in turn, the process ends with the status of that call. The result
is the exit status and the final globals with all events. -/
def isc_process (env : Env) (ld : Loader) (module_dir : String) (code : ModuleCode)
    (net_prtcl : String) (dest_ip_addr : String) (dest_port : Int) (is_client : Int) :
    Nat × Isc :=
  let r := iscRunFromStart env ld module_dir code net_prtcl dest_ip_addr dest_port is_client
  let c := cleanup code r.g
  match c.2 with
  | some h => (h.status, c.1)
  | none =>
    match r.halted with
    | none => (0, c.1)
    | some h => (h.status, c.1)

/-- The events that load a module or call a module's `init_function`. -/
def IscEvent.isLoadOrInit : IscEvent → Bool
  | .ipc_open _ => true
  | .init_function _ _ _ _ => true
  | _ => false

/-- A statement keeps the loads and `init_function` calls recorded so far and adds none. -/
def keepsLoadsAndInits (s : Stmt) : Prop :=
  ∀ r, (s r).g.trace.filter IscEvent.isLoadOrInit = r.g.trace.filter IscEvent.isLoadOrInit

/-- A linker that knows the four modules under `/opt/isc` (handles 1 to 4);
symbol number `i` of `requiredSymbols` in the library of handle `h` has address
`100 * h + i`. -/
def demoLoaderAll : Loader :=
  { dlopen := fun path =>
      if path = "/opt/isc/shmem_rec.so" then 1
      else if path = "/opt/isc/shmem_xmit.so" then 2
      else if path = "/opt/isc/sckt_client.so" then 3
      else if path = "/opt/isc/sckt_server.so" then 4
      else 0
    dlsym := fun handle symbol =>
      if 1 ≤ handle ∧ handle ≤ 4 ∧ symbol ∈ requiredSymbols then
        100 * handle + requiredSymbols.indexOf symbol
      else 0 }

/-- Module code whose every call returns, the boolean ones with `true`. -/
def demoCode : ModuleCode :=
  { init := fun _ _ _ => pure ()
    set_param := fun _ _ _ _ => pure true
    start := fun _ => pure true
    wait4Done := fun _ => pure true
    cleanup := fun _ => pure () }

/-- Module code as `demoCode`, except that the `cleanup_function` of `shmem_rec.so` under `demoLoaderAll`
(address 101) is the code of `shmem_rec.c`, run on the statics at program start
in a kernel without segments: the module was loaded but never initialised. -/
def demoCodeCleanup : ModuleCode :=
  { demoCode with
    cleanup := fun fn =>
      if fn = 101 then (ShmemRec.ipc_cleanup demoEnv ShmemRec.zero Kernel.empty).map (fun _ => ())
      else pure () }

/-- The module `ipc_open` builds for `shmem_rec.so` under `demoLoaderAll`. -/
def demoModuleShmemRec : ipc_module :=
  { handle := 1, name := "shmem_rec.so", init_function := 100, cleanup_function := 101,
    xmit_function := 106, stop_function := 102, start_function := 103,
    wait4Done_function := 104, set_param_function := 105, rec_function := 107 }

/-- The module `ipc_open` builds for `sckt_server.so` under `demoLoaderAll`. -/
def demoModuleScktServer : ipc_module :=
  { handle := 4, name := "sckt_server.so", init_function := 400, cleanup_function := 401,
    xmit_function := 406, stop_function := 402, start_function := 403,
    wait4Done_function := 404, set_param_function := 405, rec_function := 407 }

/-- The calls of a module's `start_function`. -/
def IscEvent.isStart : IscEvent → Bool
  | .start_function _ _ => true
  | _ => false

/-- The calls of a module's `wait4Done_function`. -/
def IscEvent.isWait4Done : IscEvent → Bool
  | .wait4Done_function _ _ => true
  | _ => false

/-- The calls of a module's `init_function`. -/
def IscEvent.isInit : IscEvent → Bool
  | .init_function _ _ _ _ => true
  | _ => false

/-- The name of the module an event is a call into or a close of; `none` for
the other events. -/
def IscEvent.module? : IscEvent → Option String
  | .init_function m _ _ _ => some m
  | .set_param_function m _ _ _ _ => some m
  | .start_function m _ => some m
  | .wait4Done_function m _ => some m
  | .stop_function m _ => some m
  | .cleanup_function m _ => some m
  | .ipc_close m => some m
  | _ => none

/-- The run has ended the process or has cleared `ok`: no later `if (ok)`
statement of `isc_run` does anything. -/
def IscRun.inert (r : IscRun) : Prop :=
  r.halted.isSome = true ∨ r.ok = false

/-- A statement keeps the events selected by `p` recorded so far and adds none. -/
def keepsEvents (p : IscEvent → Bool) (s : Stmt) : Prop :=
  ∀ r, (s r).g.trace.filter p = r.g.trace.filter p

/-- The module `ipc_open` builds for `shmem_xmit.so` under `demoLoaderAll`. -/
def demoModuleShmemXmit : ipc_module :=
  { handle := 2, name := "shmem_xmit.so", init_function := 200, cleanup_function := 201,
    xmit_function := 206, stop_function := 202, start_function := 203,
    wait4Done_function := 204, set_param_function := 205, rec_function := 207 }

/-- The module `ipc_open` builds for `sckt_client.so` under `demoLoaderAll`. -/
def demoModuleScktClient : ipc_module :=
  { handle := 3, name := "sckt_client.so", init_function := 300, cleanup_function := 301,
    xmit_function := 306, stop_function := 302, start_function := 303,
    wait4Done_function := 304, set_param_function := 305, rec_function := 307 }

/-! ## `sckt_server.c` and `sckt_client.c`: statics, constructor, stop, parameters -/

def IPPROTO_TCP : Int := 6
def IPPROTO_UDP : Int := 17
def SOCK_STREAM : Int := 1
def AF_INET : Int := 2
def EINTR : Nat := 4
def ECONNRESET : Nat := 104
def EPOLLIN : Nat := 0x001
def EPOLLOUT : Nat := 0x004
def EPOLLRDHUP : Nat := 0x2000
/-- Macro `IOBUFFSIZE` of `sckt_server.c`. -/
def IOBUFFSIZE : Nat := 2048

/-- The static variables of `sckt_server.c`. -/
structure ScktServer where
  isListening : Bool
  Protocol : Int
  SocketType : Int
  ConnPort : Int
  AddrFamily : Int
  bListenerProcActive : Bool
  recCallbackFunctionType : Nat
deriving DecidableEq, Repr

/-- The statics of `sckt_server.c` at program start (zero-initialised). -/
def ScktServer.zero : ScktServer :=
  { isListening := false, Protocol := 0, SocketType := 0, ConnPort := 0, AddrFamily := 0,
    bListenerProcActive := false, recCallbackFunctionType := 0 }

/-- Source `ipc_init` of `sckt_server.c`. -/
def ScktServer.ipc_init (m : ScktServer) (ipc_rec _ipc_xmit : Nat) : ScktServer :=
  { m with recCallbackFunctionType := ipc_rec, isListening := false,
           bListenerProcActive := false }

/-- Source `ipc_stop` of `sckt_server.c`. -/
def ScktServer.ipc_stop (m : ScktServer) : ScktServer := { m with isListening := false }

/-- Source `ipc_set_param` of `sckt_server.c`: the value returned and the statics after
the call. -/
def ScktServer.ipc_set_param (m : ScktServer) (prtcl : String) (_addr : Option String)
    (port : Int) : Bool × ScktServer :=
  let rval := true
  let (rval, m) :=
    if prtcl = "tcp" then (rval, { m with Protocol := IPPROTO_TCP })
    else if prtcl = "udp" then (rval, { m with Protocol := IPPROTO_UDP })
    else (false, m)
  let m :=
    if rval then { m with SocketType := SOCK_STREAM, ConnPort := port, AddrFamily := AF_INET }
    else m
  (rval, m)

/-- The static variables of `sckt_client.c`; `ServerAddr` is `none` for `NULL`. -/
structure ScktClient where
  Connected : Bool
  Protocol : Int
  ServerAddr : Option String
  ConnPort : Int
  AddrFamily : Int
  client_sockfd : Int
  ClientProcActive : Bool
  recCallbackFunctionType : Nat
deriving DecidableEq, Repr

/-- The statics of `sckt_client.c` at program start. -/
def ScktClient.zero : ScktClient :=
  { Connected := false, Protocol := 0, ServerAddr := none, ConnPort := 0, AddrFamily := 0,
    client_sockfd := 0, ClientProcActive := false, recCallbackFunctionType := 0 }

/-- Source `ipc_init` of `sckt_client.c`. -/
def ScktClient.ipc_init (m : ScktClient) (ipc_rec _ipc_xmit : Nat) : ScktClient :=
  { m with recCallbackFunctionType := ipc_rec, client_sockfd := 0, Connected := false,
           ClientProcActive := false }

/-- Source `ipc_stop` of `sckt_client.c`. -/
def ScktClient.ipc_stop (m : ScktClient) : ScktClient := { m with Connected := false }

/-- Source `ipc_set_param` of `sckt_client.c`: the value returned and the statics after
the call. -/
def ScktClient.ipc_set_param (m : ScktClient) (prtcl : String) (addr : Option String)
    (port : Int) : Bool × ScktClient :=
  let rval := true
  let (rval, m) :=
    match addr with
    | some a => (rval, { m with ServerAddr := some a })
    | none => (false, m)
  let (rval, m) :=
    if prtcl = "tcp" then (rval, { m with Protocol := IPPROTO_TCP })
    else if prtcl = "udp" then (rval, { m with Protocol := IPPROTO_UDP })
    else (false, m)
  let m := if rval then { m with ConnPort := port, AddrFamily := AF_INET } else m
  (rval, m)

/-- Module code as `demoCode`, except that the `set_param_function` of the two socket
modules of `demoLoaderAll` (addresses 305 and 405) is the code of
`sckt_client.c` and of `sckt_server.c`, run on the statics left by `ipc_init`. -/
def demoCodeSetParam : ModuleCode :=
  { demoCode with
    set_param := fun fn prtcl addr port =>
      if fn = 405 then
        pure (ScktServer.ipc_set_param (ScktServer.ipc_init ScktServer.zero 107 0) prtcl
          (some addr) port).1
      else if fn = 305 then
        pure (ScktClient.ipc_set_param (ScktClient.ipc_init ScktClient.zero 0 0) prtcl
          (some addr) port).1
      else pure true }

/-- Module code as `demoCode`, except that every `set_param_function` returns `false`. -/
def demoCodeRejecting : ModuleCode :=
  { demoCode with set_param := fun _ _ _ _ => pure false }

/-! ## `shmem_xmit.c`: the worker loop and its thread -/

/-- Source `xmitProc` of `shmem_xmit.c`: `while (!stop)` around `xmitProcBody`. The other
threads and processes act through `others`: `others n` is applied to the
statics and the kernel after the `n`-th loop test has let the worker in and
before its wait (a stop request, a producer post). The result holds the
callback invocations in order; it is `none` when `fuel` loop tests do not
suffice or the body has no result. -/
def ShmemXmit.xmitProc (others : Nat → ShmemXmit × Kernel → ShmemXmit × Kernel) :
    Nat → Nat → ShmemXmit → Kernel → Option (List CallbackCall × ShmemXmit × Kernel)
  | 0, _, _, _ => none
  | fuel + 1, n, m, k =>
    if m.stop then some ([], m, k)
    else
      let mk := others n (m, k)
      match ShmemXmit.xmitProcBody mk.1 mk.2 with
      | none => none
      | some (calls, k1) =>
        match ShmemXmit.xmitProc others fuel (n + 1) mk.1 k1 with
        | none => none
        | some (calls', m2, k2) => some (calls ++ calls', m2, k2)

/-- Source `xmitThread` of `shmem_xmit.c`: set `XmitProcActive`, run `xmitProc`, clear it. -/
def ShmemXmit.xmitThread (others : Nat → ShmemXmit × Kernel → ShmemXmit × Kernel)
    (fuel : Nat) (m : ShmemXmit) (k : Kernel) :
    Option (List CallbackCall × ShmemXmit × Kernel) :=
  match ShmemXmit.xmitProc others fuel 0 { m with XmitProcActive := true } k with
  | none => none
  | some (calls, m1, k1) => some (calls, { m1 with XmitProcActive := false }, k1)

/-- Source `ipc_start` of `shmem_xmit.c`, given what `pthread_create` returns, for a call
whose poll of `XmitProcActive` sees the flag set. On success the new thread runs
`xmitThread` and the function polls `XmitProcActive` until that thread has set it; it
then returns `true`. It writes none of the statics. The poll itself is
`ShmemXmit.ipc_start_polling`: a worker that leaves its loop at once sets and clears the flag
before the poll reads it, and the real function then does not return. -/
def ShmemXmit.ipc_start (env : Env) (errno : Nat) (pthread_create : Int) (m : ShmemXmit) :
    Proc (Bool × ShmemXmit) := do
  if pthread_create ≠ 0 then
    system_error env errno "shmem_xmit - error creating xmit thread, aborting"
  return (true, m)

/-- Other threads and processes in the examples: the producer posts once
before the worker's first wait, and `ipc_stop` is called during the third pass. -/
def demoOthersXmit (semid : Int) : Nat → ShmemXmit × Kernel → ShmemXmit × Kernel :=
  fun n mk =>
    if n = 0 then
      match binary_semaphore_post mk.2 semid producerPid with
      | some r => (mk.1, r.2)
      | none => mk
    else if n = 2 then (ShmemXmit.ipc_stop mk.1, mk.2)
    else mk

/-! ## `sckt_server.c`: the listener worker -/

/-- C `struct epoll_event`, reduced to the two fields the code reads. -/
structure EpollEvent where
  events : Nat
  fd : Int
deriving DecidableEq, Repr

/-- What a `read` finds on a socket: bytes (none at end of stream) or an error. -/
inductive ReadResult where
  | data (bytes : List UInt8)
  | error (errno : Nat)
deriving DecidableEq, Repr

/-- System call `read (fd, buf, count)`: at most `count` of the available bytes. -/
def sysRead (avail : ReadResult) (count : Nat) : ReadResult :=
  match avail with
  | .data bytes => .data (bytes.take count)
  | .error e => .error e

/-- The network as the listener meets it: the batch of events the `n`-th
`epoll_wait` returns (empty on timeout or error, where the `for` loop has nothing
to do), the descriptor the `n`-th `accept` returns, and what the `n`-th `read`
finds on the descriptor it is given. -/
structure ListenerNet where
  epoll_wait : Nat → List EpollEvent
  accept : Nat → Int
  read : Nat → Int → ReadResult

/-- What the listener does that is visible outside it. -/
inductive ListenerEvent where
  | accepted (connfd : Int)
  | epoll_add (fd : Int)
  | epoll_mod (fd : Int)
  | read (fd : Int)
  | closed (fd : Int)
  | callback (call : CallbackCall)
deriving DecidableEq, Repr

/-- The statics of `sckt_server.c`, the locals of `scktListenerProc` (`listenfd`, the
loop index `i`, `nfds`, the `events` array), the numbers of system calls made so
far, what the listener has done, and the exit it has made, if any. -/
structure Listener where
  m : ScktServer
  listenfd : Int
  i : Nat
  nfds : Nat
  events : List EpollEvent
  waits : Nat
  accepts : Nat
  reads : Nat
  log : List ListenerEvent
  halted : Option Halt
deriving DecidableEq, Repr

/-- The body of `for (i = 0; i < nfds; ++i)` in `scktListenerProc`, without the `++i`:
a new connection on `listenfd`, a read on a data socket, or the `EPOLLOUT`
branch. After a read of `n > 0` bytes the logging loop `for (i = 0; i < n; i++)`
leaves `i = n` before the callback is called with the buffer and `n`. -/
def handleEvent (net : ListenerNet) (s : Listener) : Listener :=
  match s.events.get? s.i with
  | none => s
  | some ev =>
    if ev.fd = s.listenfd then
      let connfd := net.accept s.accepts
      let s := { s with accepts := s.accepts + 1 }
      if connfd < 0 then
        { s with halted := some { status := 1, stderr := "sckt_server - connfd<0" } }
      else { s with log := s.log ++ [.accepted connfd, .epoll_add connfd] }
    else if ev.events &&& EPOLLIN ≠ 0 then
      if ev.fd < 0 then s
      else
        let r := sysRead (net.read s.reads ev.fd) IOBUFFSIZE
        let s := { s with reads := s.reads + 1, log := s.log ++ [.read ev.fd] }
        match r with
        | .error e =>
          if e = ECONNRESET then
            { s with log := s.log ++ [.closed ev.fd],
                     events := s.events.set s.i { ev with fd := -1 } }
          else s
        | .data bytes =>
          if bytes.length = 0 then
            { s with log := s.log ++ [.closed ev.fd],
                     events := s.events.set s.i { ev with fd := -1 } }
          else
            { s with i := bytes.length,
                     log := s.log ++ [.callback
                       { fn := s.m.recCallbackFunctionType, buf := bytes,
                         bufSize := bytes.length }] }
    else if ev.events &&& EPOLLOUT ≠ 0 then { s with log := s.log ++ [.epoll_mod ev.fd] }
    else s

/-- The loop `for (...; i < nfds; ++i)` of `scktListenerProc` from the current `i`. The result is
`none` when `fuel` tests of `i < nfds` do not suffice. -/
def forEvents (net : ListenerNet) : Nat → Listener → Option Listener
  | 0, _ => none
  | fuel + 1, s =>
    if s.halted.isSome then some s
    else if s.i < s.nfds then
      let s1 := handleEvent net s
      forEvents net fuel { s1 with i := s1.i + 1 }
    else some s

/-- The loop `while (isListening)` of `scktListenerProc`. The other threads act through
`others`: `others n` is applied to the statics after the `n`-th loop test has
let the worker in (a stop request). The result is `none` when `fuel` does not
suffice for the loop tests or for the `for` loop of a batch. -/
def listenerLoop (net : ListenerNet) (others : Nat → ScktServer → ScktServer) :
    Nat → Nat → Listener → Option Listener
  | 0, _, _ => none
  | fuel + 1, n, s =>
    if s.halted.isSome then some s
    else if !s.m.isListening then some s
    else
      let batch := net.epoll_wait s.waits
      let s1 := { s with m := others n s.m, nfds := batch.length, events := batch,
                         waits := s.waits + 1, i := 0 }
      match forEvents net fuel s1 with
      | none => none
      | some s2 => listenerLoop net others fuel (n + 1) s2

/-- Source `scktListenerProc` of `sckt_server.c`. The set-up calls (`epoll_create`, `socket`,
`fcntl`, `epoll_ctl`, `bind`, `listen`) are taken to succeed and give the
listening socket `listenfd`; then `isListening = true`, the loop, and the close
of the listening socket. -/
def scktListenerProc (net : ListenerNet) (others : Nat → ScktServer → ScktServer)
    (fuel : Nat) (listenfd : Int) (m : ScktServer) : Option Listener :=
  let s0 : Listener :=
    { m := { m with isListening := true }, listenfd := listenfd, i := 0, nfds := 0,
      events := [], waits := 0, accepts := 0, reads := 0,
      log := [.epoll_add listenfd], halted := none }
  match listenerLoop net others fuel 0 s0 with
  | none => none
  | some s => if s.halted.isSome then some s else some { s with log := s.log ++ [.closed listenfd] }

/-- Source `scktListenerThread` of `sckt_server.c`. -/
def scktListenerThread (net : ListenerNet) (others : Nat → ScktServer → ScktServer)
    (fuel : Nat) (listenfd : Int) (m : ScktServer) : Option Listener :=
  match scktListenerProc net others fuel listenfd { m with bListenerProcActive := true } with
  | none => none
  | some s =>
    if s.halted.isSome then some s
    else some { s with m := { s.m with isListening := false, bListenerProcActive := false } }

/-- A network in which the first `epoll_wait` reports three readable data sockets
(descriptors 5, 6, 7) and every `read` finds one byte. -/
def demoNetOneByte : ListenerNet :=
  { epoll_wait := fun n =>
      if n = 0 then [⟨EPOLLIN, 5⟩, ⟨EPOLLIN, 6⟩, ⟨EPOLLIN, 7⟩] else []
    accept := fun _ => -1
    read := fun _ _ => .data [0x41] }

/-- A network in which the first `epoll_wait` reports a new connection on the
listening socket 3 (accepted as 5), the second a readable socket 5 holding
four bytes, the third socket 5 at end of stream. -/
def demoNet : ListenerNet :=
  { epoll_wait := fun n =>
      if n = 0 then [⟨EPOLLIN, 3⟩]
      else if n = 1 then [⟨EPOLLIN, 5⟩]
      else if n = 2 then [⟨EPOLLIN, 5⟩]
      else []
    accept := fun _ => 5
    read := fun n _ => if n = 0 then .data [1, 2, 3, 4] else .data [] }

/-- A stop request during the listener's `n`-th pass. -/
def stopListenerAt (n : Nat) : Nat → ScktServer → ScktServer :=
  fun j m => if j = n then ScktServer.ipc_stop m else m

/-! ## `sckt_client.c`: transmit capability and data loop -/

/-- Source `ipc_xmit` of `sckt_client.c`; `send` is what `send (client_sockfd, buf, bufSize, 0)`
returns and the `errno` it leaves. -/
def ScktClient.ipc_xmit (env : Env) (m : ScktClient) (send : Int × Nat)
    (_buf : List UInt8) (_bufSize : Int) : Proc Nat :=
  if !m.Connected || m.client_sockfd ≤ 0 then pure 0
  else
    let numWritten := send.1
    if numWritten ≤ 0 then do
      if numWritten = -1 ∧ send.2 ≠ EINTR then
        system_error env send.2 "sckt_client - ipc_xmit - socket write error, aborting send"
        return 0
      system_error env send.2
        "sckt_client - ipc_xmit - socket write error, num of written is less than zero"
      return 0
    else pure numWritten.toNat

/-- What `ipc_xmit` of `sckt_client.c` does that is visible outside it: a line written to
the main log (given without its time stamp), the call `send (fd, buf, len, 0)`, and
the line `sent = n bytes`. -/
inductive XmitEvent where
  | log (line : String)
  | send (fd : Int) (buf : List UInt8) (len : Int)
  | log_sent (totBytesWritten : Nat)
deriving DecidableEq, Repr

/-- The lines `ipc_xmit` of `sckt_client.c` writes to the main log and the call of `send` it
makes, in order, for the same arguments as `ScktClient.ipc_xmit`: the entry line; then
either the line of the not-connected guard, or the call of `send` followed, when
`send` returned more than 0, by the line with the number of bytes sent, and
otherwise by the line that `error` of `common.c` writes to the main log before it
ends the process. -/
def ScktClient.ipc_xmit_events (env : Env) (m : ScktClient) (send : Int × Nat) (buf : List UInt8)
    (bufSize : Int) : List XmitEvent :=
  if !m.Connected || m.client_sockfd ≤ 0 then
    [.log "INFO - sckt_client - ipc_xmit",
     .log "INFO - sckt_client - ipc_xmit - Client Not Connected!"]
  else if send.1 ≤ 0 then
    if send.1 = -1 ∧ send.2 ≠ EINTR then
      [.log "INFO - sckt_client - ipc_xmit", .send m.client_sockfd buf bufSize,
       .log ("ERROR - sckt_client - ipc_xmit - socket write error, aborting send - " ++
         env.strerror send.2)]
    else
      [.log "INFO - sckt_client - ipc_xmit", .send m.client_sockfd buf bufSize,
       .log ("ERROR - sckt_client - ipc_xmit - socket write error, num of written is less than zero - "
         ++ env.strerror send.2)]
  else
    [.log "INFO - sckt_client - ipc_xmit", .send m.client_sockfd buf bufSize,
     .log_sent send.1.toNat]

/-- What one `epoll_wait` of the client's data loop gives: the value returned,
the `errno` left, and the `events` word written to `processableEvents[0]` when an
event is returned. -/
structure ClientWait where
  cnt : Int
  errno : Nat
  events0 : Nat
deriving DecidableEq, Repr

/-- The statics of `sckt_client.c`, the `events` word in `processableEvents[0]` and the
number of `epoll_wait` calls made in the data loop. -/
structure ClientLoop where
  m : ScktClient
  events0 : Nat
  waits : Nat
deriving DecidableEq, Repr

/-- The body of `while (Connected)` in `scktClientProc`: an `epoll_wait` failure other
than `EINTR`, or a returned event with `EPOLLRDHUP`, clears `Connected`; the
other branches only print. -/
def clientLoopBody (net : Nat → ClientWait) (s : ClientLoop) : ClientLoop :=
  let w := net s.waits
  let ev0 := if 0 < w.cnt then w.events0 else s.events0
  let s := { s with waits := s.waits + 1, events0 := ev0 }
  if w.cnt = -1 ∧ w.errno ≠ EINTR then { s with m := { s.m with Connected := false } }
  else if w.cnt ≠ 0 then
    if ev0 &&& EPOLLRDHUP ≠ 0 then { s with m := { s.m with Connected := false } }
    else s
  else s

/-- The loop `while (Connected)` of `scktClientProc`; `others n` is applied to the
statics after the `n`-th loop test has let the worker in (a stop request).
The result is `none` when `fuel` loop tests do not suffice. -/
def clientDataLoop (net : Nat → ClientWait) (others : Nat → ScktClient → ScktClient) :
    Nat → Nat → ClientLoop → Option ClientLoop
  | 0, _, _ => none
  | fuel + 1, n, s =>
    if !s.m.Connected then some s
    else clientDataLoop net others fuel (n + 1) (clientLoopBody net { s with m := others n s.m })

/-- The segment of `kernelWithChannel`. -/
def demoSegment : ShmSeg := { shmid := 0, key := 100, size := 512, bytes := fun _ => 0 }

/-- The statics of `shmem_xmit.c` once attached to the objects of `kernelWithChannel`,
with the callback at address 306. -/
def demoShmemXmit : ShmemXmit :=
  { prod_semkey := 101, prod_semid := 0, prod_shmkey := 100, prod_shmid := 0, prod_shm := 0,
    stop := false, XmitProcActive := true, xmitCallbackFunction := 306 }

/-- A listener on socket 3 holding a batch of one readable data socket (5), with
the callback at address 107. -/
def demoListener : Listener :=
  { m := { ScktServer.ipc_init ScktServer.zero 107 0 with isListening := true },
    listenfd := 3, i := 0, nfds := 1, events := [⟨EPOLLIN, 5⟩], waits := 2, accepts := 1,
    reads := 0, log := [], halted := none }

/-- The statics of `sckt_client.c` of a connected client on socket 4. -/
def demoScktClientConnected : ScktClient :=
  { ScktClient.zero with Connected := true, client_sockfd := 4, ServerAddr := some "127.0.0.1",
                         Protocol := IPPROTO_TCP, ConnPort := 8080, AddrFamily := AF_INET,
                         ClientProcActive := true }

/-- The callback invocations of a worker run, as pairs of the function called
and the length passed. -/
def callSummary (r : Option (List CallbackCall × ShmemXmit × Kernel)) :
    Option (List (Nat × Int)) :=
  r.map (fun x => x.1.map (fun c => (c.fn, c.bufSize)))

/-! ## The start functions and the thread they create -/

/-- Loop `while (!active) { usleep (100); }` at the end of the three `ipc_start` functions
that create a thread. The created thread executes its first statement, which
sets the flag, once the caller has made `delay` tests of the loop (`delay = 0`:
before the first test). The Boolean tells whether the created thread has
executed that statement. The result is `none` when `fuel` tests do not suffice. -/
def waitForThread {σ : Type} (active : σ → Bool) (setActive : σ → σ) :
    Nat → Nat → σ × Bool → Option (σ × Bool)
  | 0, _, _ => none
  | fuel + 1, delay, mr =>
    let now := if !mr.2 && delay = 0 then (setActive mr.1, true) else mr
    if active now.1 then some now
    else waitForThread active setActive fuel (delay - 1) now

/-- What a start function leaves: the value it returns, the statics, and
whether the thread it created has executed its first statement. -/
structure Started (σ : Type) where
  rval : Bool
  m : σ
  workerRan : Bool

/-- Source `ipc_start` of `shmem_xmit.c` with the schedule of the created thread made
explicit: `pthread_create` is what the call of that name returns, `delay` is the
number of tests of `XmitProcActive` the caller makes before the created thread
executes `XmitProcActive = true`, the first statement of `xmitThread`. -/
def ShmemXmit.ipc_start_polling (env : Env) (errno : Nat) (pthread_create : Int)
    (fuel delay : Nat) (m : ShmemXmit) : Option (Proc (Started ShmemXmit)) :=
  if pthread_create ≠ 0 then
    some (do
      system_error env errno "shmem_xmit - error creating xmit thread, aborting"
      return { rval := true, m := m, workerRan := false })
  else
    (waitForThread (fun m : ShmemXmit => m.XmitProcActive)
        (fun m => { m with XmitProcActive := true }) fuel delay (m, false)).map
      fun r => pure { rval := true, m := r.1, workerRan := r.2 }

/-- Source `ipc_start` of `sckt_client.c` with the schedule of the created thread made
explicit, as for `shmem_xmit.c`; the flag polled is `ClientProcActive`. -/
def ScktClient.ipc_start_polling (env : Env) (errno : Nat) (pthread_create : Int)
    (fuel delay : Nat) (m : ScktClient) : Option (Proc (Started ScktClient)) :=
  if pthread_create ≠ 0 then
    some (do
      system_error env errno "sckt_client - error creating client thread, aborting"
      return { rval := false, m := { m with Connected := false }, workerRan := false })
  else
    (waitForThread (fun m : ScktClient => m.ClientProcActive)
        (fun m => { m with ClientProcActive := true }) fuel delay (m, false)).map
      fun r => pure { rval := true, m := r.1, workerRan := r.2 }

/-- The two assignments `bListenerProcActive = true; isListening = true;` that `ipc_start` of
`sckt_server.c` makes before it calls `pthread_create`. -/
def ScktServer.beforeCreate (m : ScktServer) : ScktServer :=
  { m with bListenerProcActive := true, isListening := true }

/-- Source `ipc_start` of `sckt_server.c` with the schedule of the created thread made
explicit, as for `shmem_xmit.c`; the flag polled is `bListenerProcActive` and the value
returned is `isListening`. Of the created thread only its first statement,
`bListenerProcActive = true`, is part of this function: the thread is taken not to have
left `scktListenerProc` before `ipc_start` returns. -/
def ScktServer.ipc_start_polling (env : Env) (errno : Nat) (pthread_create : Int)
    (fuel delay : Nat) (m : ScktServer) : Option (Proc (Started ScktServer)) :=
  let m := ScktServer.beforeCreate m
  if pthread_create ≠ 0 then
    some (do
      system_error env errno
        "ipc_start - scktStartListener: error creating listener thread, aborting"
      return { rval := false, m := { m with isListening := false }, workerRan := false })
  else
    (waitForThread (fun m : ScktServer => m.bListenerProcActive)
        (fun m => { m with bListenerProcActive := true }) fuel delay (m, false)).map
      fun r => pure { rval := r.1.isListening, m := r.1, workerRan := r.2 }

/-! ## Fixtures: a full read buffer, an uneven batch -/

/-- The byte `0x41`, `n` times. -/
def demoBytes (n : Nat) : List UInt8 := List.replicate n 0x41

/-- A network in which every `read` finds 3000 bytes `0x41` waiting, more than the
read buffer of `scktListenerProc` holds. -/
def demoNetFull : ListenerNet :=
  { epoll_wait := fun _ => [⟨EPOLLIN, 5⟩]
    accept := fun _ => 5
    read := fun _ _ => .data (demoBytes 3000) }

/-- A network in which the first `epoll_wait` reports three readable data sockets
(descriptors 5, 6, 7); the first `read` finds one byte, the second one byte, the
third three bytes. -/
def demoNetUneven : ListenerNet :=
  { epoll_wait := fun n =>
      if n = 0 then [⟨EPOLLIN, 5⟩, ⟨EPOLLIN, 6⟩, ⟨EPOLLIN, 7⟩] else []
    accept := fun _ => -1
    read := fun n _ => if n < 2 then .data [0x41] else .data [0x41, 0x42, 0x43] }

/-- A network in which the first `epoll_wait` reports three readable data sockets
(descriptors 5, 6, 7) and the later ones report nothing. Socket 5 holds one
byte, socket 6 holds two bytes, socket 7 holds one byte at the second `read` of
the listener and three bytes afterwards. -/
def demoNetPending : ListenerNet :=
  { epoll_wait := fun n =>
      if n = 0 then [⟨EPOLLIN, 5⟩, ⟨EPOLLIN, 6⟩, ⟨EPOLLIN, 7⟩] else []
    accept := fun _ => -1
    read := fun n fd =>
      if fd = 5 then .data [0x41]
      else if fd = 6 then .data [0x42, 0x43]
      else if n = 1 then .data [0x44]
      else .data [0x45, 0x46, 0x47] }

/-- The listener on socket 3 at the start of the `for` loop over a batch. -/
def listenerAtBatch (batch : List EpollEvent) : Listener :=
  { m := { ScktServer.ipc_init ScktServer.zero 107 0 with isListening := true },
    listenfd := 3, i := 0, nfds := batch.length, events := batch, waits := 1, accepts := 0,
    reads := 0, log := [], halted := none }

/-- The descriptors the listener has read from, in order. -/
def readsOf : List ListenerEvent → List Int
  | [] => []
  | .read fd :: rest => fd :: readsOf rest
  | _ :: rest => readsOf rest

/-! ## `producer.c`: the peer that fills the transmit-side channel -/

/-- Macro `BUFFER_INIT1` of `producer.c`. -/
def BUFFER_INIT1 : Nat := 0x01
/-- Macro `BUFFER_INIT2` of `producer.c`. -/
def BUFFER_INIT2 : Nat := 0x02

/-- C library `strncpy (dst, src, n)`: the bytes of `src` before its first zero byte, at
most `n` of them, land at the start of `dst`, followed by zero bytes up to
offset `n`; the offsets from `n` on keep their byte. -/
def strncpy (dst : Mem) (src : List UInt8) (n : Nat) : Mem :=
  let len := (src.takeWhile (fun b => b ≠ 0)).length
  fun i => if i < n then (if i < len then src.getD i 0 else 0) else dst i

/-- The global variables of `producer.c`; `prod_test_buff` is the content of the
allocated test buffer (empty while the pointer is `NULL`). -/
structure Producer where
  prod_semkey : Int
  prod_semid : Int
  prod_shmkey : Int
  prod_shmid : Int
  prod_shm : Int
  prod_test_buff : List UInt8
deriving DecidableEq, Repr

/-- The globals of `producer.c` at program start. -/
def Producer.zero : Producer :=
  { prod_semkey := 0, prod_semid := 0, prod_shmkey := 0, prod_shmid := 0, prod_shm := 0,
    prod_test_buff := [] }

/-- Source `ipc_init` of `producer.c`. -/
def Producer.ipc_init (env : Env) (p : Producer) (k : Kernel) : Proc (Producer × Kernel) := do
  let r1 := ftok env k "/tmp/prod_shmem_key" 'R'
  let p := { p with prod_shmkey := r1.1 }
  if r1.1 = -1 then system_error env r1.2.errno "producer - prod_shmkey ftok"
  let r2 := shmget r1.2 p.prod_shmkey PROD_SHM_SIZE (0o644 ||| IPC_CREAT)
  let p := { p with prod_shmid := r2.1 }
  if r2.1 = -1 then system_error env r2.2.errno "producer - shmem create the segment"
  let r3 := shmat r2.2 p.prod_shmid
  let p := { p with prod_shm := r3.1 }
  if r3.1 = -1 then system_error env r3.2.errno "producer - shmem attach to the segment"
  let r4 := ftok env r3.2 "/tmp/prod_sem_key" 'R'
  let p := { p with prod_semkey := r4.1 }
  if r4.1 = -1 then system_error env r4.2.errno "producer - prod_sem_key ftok"
  let r5 := binary_semaphore_allocation r4.2 p.prod_semkey (0o644 ||| IPC_CREAT)
  let p := { p with prod_semid := r5.1 }
  if r5.1 = -1 then system_error env r5.2.errno "producer - binary_semaphore_allocation"
  let r6 := binary_semaphore_initialize r5.2 p.prod_semid
  if r6.1 = -1 then
    system_error env r6.2.errno "producer - binary_semaphore_initialize: prod_semid"
  return (p, r6.2)

/-- The test buffer after the two statements of `main` that fill it:
`prod_test_buff[i] = BUFFER_INIT1 + i` for `i < PROD_TEST_REGION_SIZE - 1` (the assignment to a
`uint8_t` keeps the low eight bits), and a zero as last byte. -/
def Producer.pattern : List UInt8 :=
  (List.range (PROD_TEST_REGION_SIZE - 1)).map (fun i => UInt8.ofNat (BUFFER_INIT1 + i)) ++ [0]

/-- The statements of the only pass of `for (j = 0; j < 1; j++)` in `main` that touch the
channel: `strncpy (prod_shm, prod_test_buff, PROD_SHM_SIZE)`, then one post, whose result is
ignored. The rest of the pass logs, changes the test buffer for a next pass
and sleeps. The result is `none` when `prod_shm` is no attach address or the post
does not return. -/
def Producer.xmit (p : Producer) (k : Kernel) : Option Kernel :=
  match findShm k p.prod_shm with
  | none => none
  | some _ =>
    let k1 :=
      { k with shms := updateShm (fun d => strncpy d p.prod_test_buff PROD_SHM_SIZE) p.prod_shm k.shms }
    (binary_semaphore_post k1 p.prod_semid producerPid).map (fun r => r.2)

/-- Source `main` of `producer.c`, from `ipc_init` to the post: the globals and the kernel
it leaves. `malloc` is taken to succeed. -/
def Producer.main (env : Env) (k : Kernel) : Proc (Option (Producer × Kernel)) := do
  let (p, k1) ← Producer.ipc_init env Producer.zero k
  let p := { p with prod_test_buff := Producer.pattern }
  return (Producer.xmit p k1).map (fun k2 => (p, k2))

/-- The 512 bytes of the channel after `main` of `producer.c` has posted. -/
def Producer.channelAfterMain (env : Env) (k : Kernel) : Option (List UInt8) :=
  match Producer.main env k with
  | .ok (some (p, k2)) => (readShm k2 p.prod_shm).map (fun d => readBytes d PROD_SHM_SIZE)
  | _ => none

/-! ## `sckt_client.c`: the connect block of the worker -/

def ECONNREFUSED : Nat := 111
def EINPROGRESS : Nat := 115
def EPIPE : Nat := 32

/-- Conversion of an `int` to `unsigned int` (32 bits), as in the assignment
`numEvents = epoll_wait (...)` to the variable declared `unsigned int numEvents`. -/
def toUnsignedInt (x : Int) : Nat := (x % 4294967296).toNat

/-- What the system calls of the connect block return: the descriptor from
`socket`, the value of `inet_pton`, the value of `errno` that `perror` reads and the
value that `exit (errno)` reads after `perror` has run (both count only when `inet_pton`
returned 0), the value of `connect` and the `errno` it leaves, the
values of `epoll_create`, `epoll_ctl` and `epoll_wait`, and the value of `getsockopt` with the socket
error it writes to `retVal` when it succeeds. -/
structure ConnectNet where
  socket : Int
  inet_pton : Int
  perror_errno : Nat
  exit_errno : Nat
  connect : Int × Nat
  epoll_create : Int
  epoll_ctl : Int
  epoll_wait : Int
  getsockopt : Int × Int
deriving DecidableEq, Repr

/-- What the connect block does that is visible outside it: the system calls
it makes after `connect` and the lines it writes to the main log. -/
inductive ConnectEvent where
  | epoll_create
  | epoll_ctl
  | epoll_wait
  | getsockopt
  | log (line : String)
deriving DecidableEq, Repr

/-- The connect block of `scktClientProc` in `sckt_client.c`, from `socket` to `Connected = true`.
`errno` is the value before the block. The block ends the process with
`exit (errno)` when `inet_pton` returns 0, after `perror (ServerAddr)`: the status is the low
eight bits of the `errno` that `socket`, `inet_pton` and `perror` have left, which need not
be the value before the block. It ends the process with `exit (2)` after a failure
of `epoll_create` or `epoll_ctl` and in the branch `numEvents < 0`; otherwise it returns the
statics and what it did. -/
def ScktClient.connectBlock (env : Env) (net : ConnectNet) (errno : Nat) (m : ScktClient) :
    Proc (ScktClient × List ConnectEvent) :=
  let m := { m with client_sockfd := net.socket }
  if net.inet_pton = 0 then
    Except.error
      { status := net.exit_errno % 256
        stderr := m.ServerAddr.getD "" ++ ": " ++ env.strerror net.perror_errno ++ "\n" }
  else
    let result := net.connect.1
    let errno := if result = 0 then errno else net.connect.2
    if result = 0 then
      Except.ok ({ m with Connected := true },
        [.log "INFO - sckt_client - socket is ready for IO"])
    else if errno = EINPROGRESS then
      if net.epoll_create = -1 then
        Except.error { status := 2, stderr := "" }
      else if net.epoll_ctl = -1 then
        Except.error { status := 2, stderr := "" }
      else
        let numEvents : Nat := toUnsignedInt net.epoll_wait
        if (numEvents : Int) < 0 then
          Except.error { status := 2, stderr := "" }
        else
          let retVal : Int := if net.getsockopt.1 < 0 then -1 else net.getsockopt.2
          let l1 : List ConnectEvent :=
            if net.getsockopt.1 < 0 then [.log "ERROR - sckt_client - fail somehow, close socket"]
            else []
          let l2 : List ConnectEvent :=
            if retVal ≠ 0 then [.log "ERROR - sckt_client - connect did not go through"] else []
          Except.ok ({ m with Connected := true },
            [.epoll_create, .epoll_ctl, .epoll_wait, .getsockopt] ++ l1 ++ l2)
    else
      Except.ok ({ m with Connected := true },
        [.log
          "ERROR - sckt_client - connect did not go through for other non-recoverable reasons"])

/-- A connection attempt that is refused at once: `connect` returns -1 with `ECONNREFUSED`. -/
def demoConnectRefused : ConnectNet :=
  { socket := 4, inet_pton := 1, perror_errno := 0, exit_errno := 0,
    connect := (-1, ECONNREFUSED), epoll_create := 5, epoll_ctl := 0,
    epoll_wait := 1, getsockopt := (0, 0) }

/-- A connection attempt in progress that then fails: `connect` returns -1 with
`EINPROGRESS`, the wait reports one event and the socket error read is `ECONNREFUSED`. -/
def demoConnectFailsLater : ConnectNet :=
  { socket := 4, inet_pton := 1, perror_errno := 0, exit_errno := 0,
    connect := (-1, EINPROGRESS), epoll_create := 5, epoll_ctl := 0,
    epoll_wait := 1, getsockopt := (0, 111) }

/-- A connection attempt in progress during which `epoll_wait` fails: it returns -1;
`getsockopt` then gives the value and socket error `g`. -/
def demoConnectWaitFails (socket : Int) (g : Int × Int) : ConnectNet :=
  { socket := socket, inet_pton := 1, perror_errno := 0, exit_errno := 0,
    connect := (-1, EINPROGRESS), epoll_create := 5,
    epoll_ctl := 0, epoll_wait := -1, getsockopt := g }

/-! ## Fixtures: a module directory with one file absent -/

/-- The linker `demoLoaderAll` with the file `missing` absent from `/opt/isc`. -/
def demoLoaderWithout (missing : String) : Loader :=
  { dlopen := fun path => if path = "/opt/isc/" ++ missing then 0 else demoLoaderAll.dlopen path
    dlsym := demoLoaderAll.dlsym }

/-! ## `sckt_server.c` and `sckt_client.c`: the event arrays -/

/-- Constant `EPOLL_MAXEVENTS` of `sckt_server.c`. -/
def EPOLL_MAXEVENTS : Nat := 128
/-- Constant `MAXEVENTS` of `sckt_client.c`. -/
def MAXEVENTS : Nat := 128
/-- Macro `MAX_EPOLL_EVENTS` of `sckt_client.c`. -/
def MAX_EPOLL_EVENTS : Nat := 64

/-- Number of elements of the array `events` of `scktListenerProc`, declared `events[20]`. -/
def ScktServer.events_capacity : Nat := 20

/-- Number of elements of the array `processableEvents` of the client block of
`scktClientProc`, declared `processableEvents[MAX_EPOLL_EVENTS]`. -/
def ScktClient.processableEvents_capacity : Nat := MAX_EPOLL_EVENTS

/-- System call `epoll_wait (epfd, events, maxevents, timeout)` when the descriptors of `ready` have
events pending: it writes at most `maxevents` of them to `events[0]`, `events[1]`, ... and
returns their number. -/
def epoll_wait (ready : List EpollEvent) (maxevents : Nat) : List EpollEvent :=
  ready.take maxevents

/-- The call `nfds = epoll_wait (epfd, events, EPOLL_MAXEVENTS, EPOLL_TIMEOUT)` of `scktListenerProc`. -/
def ScktServer.epoll_wait_call (ready : List EpollEvent) : List EpollEvent :=
  epoll_wait ready EPOLL_MAXEVENTS

/-- Twenty-one connected data sockets (descriptors 5 to 25), all readable. -/
def demoReady21 : List EpollEvent :=
  (List.range 21).map (fun j => { events := EPOLLIN, fd := (j : Int) + 5 })

/-- A network whose every `epoll_wait` is the call of `scktListenerProc` with `demoReady21` pending,
every `read` finding the end of the stream (the peers have closed). -/
def demoNet21 : ListenerNet :=
  { epoll_wait := fun _ => ScktServer.epoll_wait_call demoReady21
    accept := fun _ => -1
    read := fun _ _ => .data [] }

/-! # Verification -/

/-! ## Facts about the kernel model -/

theorem find_updateSem (f : SemSet → SemSet) (hf : ∀ t, (f t).semid = t.semid) (semid : Int)
    (l : List SemSet) :
    (updateSem f semid l).find? (fun s => (s.semid : Int) = semid)
      = (l.find? (fun s => (s.semid : Int) = semid)).map f := by
  induction l with
  | nil => rfl
  | cons s rest ih =>
    by_cases h : (s.semid : Int) = semid
    · simp [updateSem, h, List.find?, hf]
    · simp [updateSem, h, List.find?, ih]

theorem semValue_setSemval (k : Kernel) (semid : Int) (n w v : Nat)
    (h : semValue k semid n = some v) :
    semValue (setSemval k semid n w) semid n = some w := by
  unfold semValue findSem setSemval at *
  simp only []
  rw [find_updateSem (fun t => { t with semval := t.semval.set n w }) (fun _ => rfl)]
  cases hs : k.sems.find? (fun s => (s.semid : Int) = semid) with
  | none => simp [hs] at h
  | some s =>
    simp only [hs] at h
    have hlt : n < s.semval.length := by
      rcases List.get?_eq_some.mp h with ⟨hl, _⟩
      exact hl
    simp [hlt]

theorem semValue_setSemadj (k : Kernel) (semid : Int) (pid n : Nat) (a : Int) (j : Nat) :
    semValue (setSemadj k semid pid n a) semid j = semValue k semid j := by
  unfold semValue findSem setSemadj
  simp only []
  rw [find_updateSem (fun t => { t with semadj := recordSemadj t pid n a }) (fun _ => rfl)]
  cases k.sems.find? (fun s => (s.semid : Int) = semid) <;> rfl

theorem semAdj_setSemval (k : Kernel) (semid : Int) (n w p j : Nat) :
    semAdj (setSemval k semid n w) semid p j = semAdj k semid p j := by
  unfold semAdj findSem setSemval
  simp only []
  rw [find_updateSem (fun t => { t with semval := t.semval.set n w }) (fun _ => rfl)]
  cases k.sems.find? (fun s => (s.semid : Int) = semid) <;> rfl

theorem semAdj_setSemadj_same (k : Kernel) (semid : Int) (pid n v : Nat) (a : Int)
    (h : semValue k semid 0 = some v) :
    semAdj (setSemadj k semid pid n a) semid pid n = a := by
  unfold semValue findSem at h
  unfold semAdj findSem setSemadj
  simp only []
  rw [find_updateSem (fun t => { t with semadj := recordSemadj t pid n a }) (fun _ => rfl)]
  cases hs : k.sems.find? (fun s => (s.semid : Int) = semid) with
  | none => simp [hs] at h
  | some s => simp [recordSemadj]

theorem semAdj_setSemadj_other (k : Kernel) (semid : Int) (pid n p j : Nat) (a : Int)
    (h : p ≠ pid) :
    semAdj (setSemadj k semid pid n a) semid p j = semAdj k semid p j := by
  unfold semAdj findSem setSemadj
  simp only []
  rw [find_updateSem (fun t => { t with semadj := recordSemadj t pid n a }) (fun _ => rfl)]
  cases hs : k.sems.find? (fun s => (s.semid : Int) = semid) with
  | none => rfl
  | some s => simp [recordSemadj, h]

theorem semAdj_errno (k : Kernel) (e : Nat) (semid : Int) (p j : Nat) :
    semAdj { k with errno := e } semid p j = semAdj k semid p j := rfl

/-- A wait computed: it needs a positive value and room in the undo adjustment
of the calling process. -/
theorem binary_semaphore_wait_eq (k : Kernel) (semid : Int) (v : Nat) (pid : Nat)
    (h : semValue k semid 0 = some v) :
    binary_semaphore_wait k semid pid =
      if 1 ≤ v then
        if semAdj k semid pid 0 + 1 < -SEMAEM - 1 ∨ SEMAEM < semAdj k semid pid 0 + 1 then
          (-1, { k with errno := ERANGE })
        else
          (0, setSemadj (setSemval k semid 0 (v - 1)) semid pid 0 (semAdj k semid pid 0 + 1))
      else (-1, { k with errno := EAGAIN }) := by
  unfold semValue at h
  unfold binary_semaphore_wait semtimedop trySemop commitSemop semAdj
  cases hs : findSem k semid with
  | none => simp [hs] at h
  | some s =>
    simp only [hs] at h
    simp only [h]
    by_cases hv : 1 ≤ v
    · simp [hv, SEM_UNDO]
      split_ifs <;> rfl
    · simp [hv]

/-- A post computed: it needs a value below `SEMVMX` and room in the undo
adjustment of the calling process. -/
theorem binary_semaphore_post_eq (k : Kernel) (semid : Int) (v : Nat) (pid : Nat)
    (h : semValue k semid 0 = some v) :
    binary_semaphore_post k semid pid =
      if SEMVMX < v + 1 then some (-1, { k with errno := ERANGE })
      else if semAdj k semid pid 0 - 1 < -SEMAEM - 1 ∨ SEMAEM < semAdj k semid pid 0 - 1 then
        some (-1, { k with errno := ERANGE })
      else
        some (0, setSemadj (setSemval k semid 0 (v + 1)) semid pid 0 (semAdj k semid pid 0 - 1)) := by
  unfold semValue at h
  unfold binary_semaphore_post semop trySemop commitSemop semAdj
  cases hs : findSem k semid with
  | none => simp [hs] at h
  | some s =>
    simp only [hs] at h
    simp only [h]
    by_cases hv : SEMVMX < v + 1
    · simp [hv]
    · simp [hv, SEM_UNDO]
      split_ifs <;> rfl

/-! ## The binary semaphore: values reachable from `binary_semaphore_initialize` -/

theorem semValue_errno (k : Kernel) (e : Nat) (semid : Int) (n : Nat) :
    semValue { k with errno := e } semid n = semValue k semid n := rfl

theorem binary_semaphore_initialize_value (k : Kernel) (semid : Int) (v0 : Nat)
    (hex : semValue k semid 0 = some v0)
    (hinit : ( binary_semaphore_initialize k semid).1 = 0) :
    semValue ( binary_semaphore_initialize k semid).2 semid 0 = some 1 := by
  unfold semValue at hex
  unfold binary_semaphore_initialize semctl_SETALL at *
  cases hs : findSem k semid with
  | none => simp [hs] at hex
  | some s =>
    simp only [hs] at hex hinit ⊢
    have hlt : 0 < s.semval.length := by
      rcases List.get?_eq_some.mp hex with ⟨hl, _⟩
      exact hl
    by_cases h1 : [1].length < s.semval.length
    · rw [if_pos h1] at hinit
      simp at hinit
    · have hlen : s.semval.length = 1 := by
        simp at h1; omega
      rw [if_neg h1] at hinit ⊢
      simp only [hlen] at hinit ⊢
      simp [SEMVMX] at hinit ⊢
      unfold semValue findSem
      simp only []
      rw [find_updateSem
        (fun t => { t with semval := List.take t.semval.length [1], semadj := fun _ _ => 0 })
        (fun _ => rfl)]
      unfold findSem at hs
      simp [hs, hlen]

/-- A successful `binary_semaphore_initialize` clears the undo adjustment of every process. -/
theorem binary_semaphore_initialize_semAdj (k : Kernel) (semid : Int)
    (hinit : ( binary_semaphore_initialize k semid).1 = 0) (pid n : Nat) :
    semAdj ( binary_semaphore_initialize k semid).2 semid pid n = 0 := by
  unfold binary_semaphore_initialize semctl_SETALL at *
  cases hs : findSem k semid with
  | none => simp [hs] at hinit
  | some s =>
    simp only [hs] at hinit ⊢
    split_ifs at hinit ⊢ with h1 h2
    · simp at hinit
    · simp at hinit
    · unfold semAdj findSem
      simp only []
      rw [find_updateSem
        (fun t => { t with semval := List.take t.semval.length [1], semadj := fun _ _ => 0 })
        (fun _ => rfl)]
      unfold findSem at hs
      simp [hs]

/-- What one wait leaves: value and adjustments, case by case. -/
theorem binary_semaphore_wait_cases (k : Kernel) (semid : Int) (v pid : Nat)
    (h : semValue k semid 0 = some v) :
    (binary_semaphore_wait k semid pid).2.shms = k.shms ∧
    (∀ p, p ≠ pid →
      semAdj (binary_semaphore_wait k semid pid).2 semid p 0 = semAdj k semid p 0) ∧
    (((binary_semaphore_wait k semid pid).1 = 0 ∧ 1 ≤ v ∧ semAdj k semid pid 0 + 1 ≤ SEMAEM ∧
        -SEMAEM - 1 ≤ semAdj k semid pid 0 + 1 ∧
        semValue (binary_semaphore_wait k semid pid).2 semid 0 = some (v - 1) ∧
        semAdj (binary_semaphore_wait k semid pid).2 semid pid 0 = semAdj k semid pid 0 + 1) ∨
     ((binary_semaphore_wait k semid pid).1 = -1 ∧
        semValue (binary_semaphore_wait k semid pid).2 semid 0 = some v ∧
        semAdj (binary_semaphore_wait k semid pid).2 semid pid 0 = semAdj k semid pid 0)) := by
  rw [binary_semaphore_wait_eq k semid v pid h]
  by_cases hv : 1 ≤ v
  · rw [if_pos hv]
    by_cases ha : semAdj k semid pid 0 + 1 < -SEMAEM - 1 ∨ SEMAEM < semAdj k semid pid 0 + 1
    · rw [if_pos ha]
      exact ⟨rfl, fun _ _ => rfl, Or.inr ⟨rfl, h, rfl⟩⟩
    · rw [if_neg ha]
      have hv1 : semValue (setSemval k semid 0 (v - 1)) semid 0 = some (v - 1) :=
        semValue_setSemval k semid 0 (v - 1) v h
      refine ⟨rfl, ?_, Or.inl ⟨rfl, hv, ?_, ?_, ?_, ?_⟩⟩
      · intro p hp
        rw [semAdj_setSemadj_other _ _ _ _ _ _ _ hp, semAdj_setSemval]
      · push_neg at ha; exact ha.2
      · push_neg at ha; exact ha.1
      · rw [semValue_setSemadj]; exact hv1
      · exact semAdj_setSemadj_same _ _ _ _ _ _ hv1
  · rw [if_neg hv]
    exact ⟨rfl, fun _ _ => rfl, Or.inr ⟨rfl, h, rfl⟩⟩

/-- What one post leaves: value and adjustments, case by case. -/
theorem binary_semaphore_post_cases (k : Kernel) (semid : Int) (v pid : Nat)
    (h : semValue k semid 0 = some v) :
    ∃ r k2, binary_semaphore_post k semid pid = some (r, k2) ∧ k2.shms = k.shms ∧
    (∀ p, p ≠ pid → semAdj k2 semid p 0 = semAdj k semid p 0) ∧
    ((r = 0 ∧ v + 1 ≤ SEMVMX ∧ -SEMAEM - 1 ≤ semAdj k semid pid 0 - 1 ∧
        semAdj k semid pid 0 - 1 ≤ SEMAEM ∧
        semValue k2 semid 0 = some (v + 1) ∧ semAdj k2 semid pid 0 = semAdj k semid pid 0 - 1) ∨
     (r = -1 ∧ k2.errno = ERANGE ∧
        (SEMVMX < v + 1 ∨ semAdj k semid pid 0 - 1 < -SEMAEM - 1 ∨
          SEMAEM < semAdj k semid pid 0 - 1) ∧
        semValue k2 semid 0 = some v ∧ semAdj k2 semid pid 0 = semAdj k semid pid 0)) := by
  rw [binary_semaphore_post_eq k semid v pid h]
  by_cases hv : SEMVMX < v + 1
  · rw [if_pos hv]
    exact ⟨_, _, rfl, rfl, fun _ _ => rfl, Or.inr ⟨rfl, rfl, Or.inl hv, h, rfl⟩⟩
  · rw [if_neg hv]
    by_cases ha : semAdj k semid pid 0 - 1 < -SEMAEM - 1 ∨ SEMAEM < semAdj k semid pid 0 - 1
    · rw [if_pos ha]
      exact ⟨_, _, rfl, rfl, fun _ _ => rfl, Or.inr ⟨rfl, rfl, Or.inr ha, h, rfl⟩⟩
    · rw [if_neg ha]
      have hv1 : semValue (setSemval k semid 0 (v + 1)) semid 0 = some (v + 1) :=
        semValue_setSemval k semid 0 (v + 1) v h
      push_neg at ha
      refine ⟨_, _, rfl, rfl, ?_, Or.inl ⟨rfl, by omega, ha.1, ha.2, ?_, ?_⟩⟩
      · intro p hp
        rw [semAdj_setSemadj_other _ _ _ _ _ _ _ hp, semAdj_setSemval]
      · rw [semValue_setSemadj]; exact hv1
      · exact semAdj_setSemadj_same _ _ _ _ _ _ hv1

/-- Every sequence of waits and posts runs to completion and keeps the value
at most `SEMVMX` and every undo adjustment in its range. -/
theorem runSemCalls_bounded (semid : Int) (calls : List (Nat × SemCall)) :
    ∀ (k : Kernel) (v : Nat), semValue k semid 0 = some v → v ≤ SEMVMX →
      (∀ p, adjInRange k semid p) →
      ∃ k' v', runSemCalls k semid calls = some k' ∧ semValue k' semid 0 = some v' ∧
        v' ≤ SEMVMX ∧ ∀ p, adjInRange k' semid p := by
  induction calls with
  | nil => intro k v h hv ha; exact ⟨k, v, rfl, h, hv, ha⟩
  | cons c cs ih =>
    intro k v h hv ha
    obtain ⟨pid, call⟩ := c
    cases call with
    | wait =>
      simp only [runSemCalls, semCall, Option.some_bind]
      obtain ⟨_, hoth, hc⟩ := binary_semaphore_wait_cases k semid v pid h
      have hadj : ∀ p, adjInRange (binary_semaphore_wait k semid pid).2 semid p := by
        intro p
        by_cases hp : p = pid
        · subst hp
          rcases hc with ⟨_, _, h1, h2, _, h3⟩ | ⟨_, _, h3⟩
          · unfold adjInRange; rw [h3]; exact ⟨h2, h1⟩
          · unfold adjInRange; rw [h3]; exact ha p
        · unfold adjInRange; rw [hoth p hp]; exact ha p
      rcases hc with ⟨_, _, _, _, h2, _⟩ | ⟨_, h2, _⟩
      · exact ih _ (v - 1) h2 (by omega) hadj
      · exact ih _ v h2 hv hadj
    | post =>
      simp only [runSemCalls, semCall]
      obtain ⟨r, k2, hk2, _, hoth, hc⟩ := binary_semaphore_post_cases k semid v pid h
      rw [hk2]
      simp only [Option.map_some', Option.some_bind]
      have hadj : ∀ p, adjInRange k2 semid p := by
        intro p
        by_cases hp : p = pid
        · subst hp
          rcases hc with ⟨_, _, h1, h2, _, h3⟩ | ⟨_, _, _, _, h3⟩
          · unfold adjInRange; rw [h3]; exact ⟨h1, h2⟩
          · unfold adjInRange; rw [h3]; exact ha p
        · unfold adjInRange; rw [hoth p hp]; exact ha p
      rcases hc with ⟨_, h1, _, _, h2, _⟩ | ⟨_, _, _, h2, _⟩
      · exact ih _ (v + 1) h2 h1 hadj
      · exact ih _ v h2 hv hadj

/-- C7 (as amended): a successful `binary_semaphore_initialize` sets the value to 1 and
clears the undo adjustments; from there every sequence of waits and posts,
by whatever processes, runs to completion and keeps the value between 0 and
`SEMVMX` and every undo adjustment in its range. The value is not clamped to 1:
in every such state a post on a value below `SEMVMX` by a process whose undo
adjustment is above `-SEMAEM - 1` returns 0 and adds exactly 1, and a post on the
value `SEMVMX`, or by a process whose undo adjustment is `-SEMAEM - 1`, returns -1 with
`errno = ERANGE` and leaves the value. -/
theorem C7_value_stays_within_SEMVMX (k : Kernel) (semid : Int) (v0 : Nat)
    (hex : semValue k semid 0 = some v0)
    (hinit : ( binary_semaphore_initialize k semid).1 = 0) (calls : List (Nat × SemCall)) :
    semValue ( binary_semaphore_initialize k semid).2 semid 0 = some 1 ∧
    (∀ pid, semAdj ( binary_semaphore_initialize k semid).2 semid pid 0 = 0) ∧
    (∃ k' v, runSemCalls ( binary_semaphore_initialize k semid).2 semid calls = some k' ∧
      semValue k' semid 0 = some v ∧ v ≤ SEMVMX ∧ (∀ p, adjInRange k' semid p) ∧
      ∀ pid : Nat,
        (v < SEMVMX ∧ -SEMAEM - 1 < semAdj k' semid pid 0 →
          ∃ k2, binary_semaphore_post k' semid pid = some (0, k2) ∧
            semValue k2 semid 0 = some (v + 1)) ∧
        (v = SEMVMX ∨ semAdj k' semid pid 0 = -SEMAEM - 1 →
          ∃ k2, binary_semaphore_post k' semid pid = some (-1, k2) ∧ k2.errno = ERANGE ∧
            semValue k2 semid 0 = some v)) := by
  have h1 := binary_semaphore_initialize_value k semid v0 hex hinit
  have h0 : ∀ pid, semAdj ( binary_semaphore_initialize k semid).2 semid pid 0 = 0 :=
    fun pid => binary_semaphore_initialize_semAdj k semid hinit pid 0
  refine ⟨h1, h0, ?_⟩
  obtain ⟨k', v, hrun, hv, hle, hadj⟩ := runSemCalls_bounded semid calls _ 1 h1 (by decide)
    (fun p => by unfold adjInRange; rw [h0 p]; decide)
  refine ⟨k', v, hrun, hv, hle, hadj, ?_⟩
  intro pid
  obtain ⟨r, k2, hk2, _, _, hc⟩ := binary_semaphore_post_cases k' semid v pid hv
  have hr := hadj pid
  unfold adjInRange at hr
  constructor
  · rintro ⟨hlt, hgt⟩
    rcases hc with ⟨hr0, _, _, _, h2, _⟩ | ⟨_, _, hbad, _, _⟩
    · subst hr0; exact ⟨k2, hk2, h2⟩
    · exfalso
      rcases hbad with hb | hb | hb
      · omega
      · omega
      · omega
  · intro hcase
    rcases hc with ⟨_, hle1, hge, _, _, _⟩ | ⟨hr1, he, _, h2, _⟩
    · exfalso
      rcases hcase with hb | hb
      · omega
      · omega
    · subst hr1; exact ⟨k2, hk2, he, h2⟩

theorem C7_value_stays_within_SEMVMX_witness :
    semValue (kernelWithSem 0) 0 0 = some 0 ∧
    ( binary_semaphore_initialize (kernelWithSem 0) 0).1 = 0 ∧
    semValue ( binary_semaphore_initialize (kernelWithSem 0) 0).2 0 0 = some 1 ∧
    (∀ pid, semAdj ( binary_semaphore_initialize (kernelWithSem 0) 0).2 0 pid 0 = 0) ∧
    (∃ k' v, runSemCalls ( binary_semaphore_initialize (kernelWithSem 0) 0).2 0
        [(iscPid, SemCall.post), (consumerPid, SemCall.wait), (consumerPid, SemCall.wait),
         (consumerPid, SemCall.wait)] = some k' ∧
      semValue k' 0 0 = some v ∧ v ≤ SEMVMX ∧ (∀ p, adjInRange k' 0 p) ∧
      ∀ pid : Nat,
        (v < SEMVMX ∧ -SEMAEM - 1 < semAdj k' 0 pid 0 →
          ∃ k2, binary_semaphore_post k' 0 pid = some (0, k2) ∧
            semValue k2 0 0 = some (v + 1)) ∧
        (v = SEMVMX ∨ semAdj k' 0 pid 0 = -SEMAEM - 1 →
          ∃ k2, binary_semaphore_post k' 0 pid = some (-1, k2) ∧ k2.errno = ERANGE ∧
            semValue k2 0 0 = some v)) :=
  ⟨by decide, by decide,
   C7_value_stays_within_SEMVMX (kernelWithSem 0) 0 0 (by decide) (by decide) _⟩

/-- C7 (counterexample): one post after `binary_semaphore_initialize` leaves the value 2,
which is outside {0,1}. -/
theorem C7_post_after_initialize_gives_two :
    ( binary_semaphore_initialize (kernelWithSem 0) 0).1 = 0 ∧
    ((runSemCalls ( binary_semaphore_initialize (kernelWithSem 0) 0).2 0
        [(iscPid, SemCall.post)]).bind
      (fun k' => semValue k' 0 0)) = some 2 := by
  decide

theorem binary_semaphore_initialize_shms (k : Kernel) (semid : Int) :
    ( binary_semaphore_initialize k semid).2.shms = k.shms := by
  unfold binary_semaphore_initialize semctl_SETALL
  split
  · rfl
  · split_ifs <;> rfl

/-! ## The binary semaphore: `binary_semaphore_wait` -/

theorem runSemCalls_cons (k : Kernel) (semid : Int) (c : Nat × SemCall)
    (cs : List (Nat × SemCall)) :
    runSemCalls k semid (c :: cs) =
      (semCall k semid c.1 c.2).bind (fun k' => runSemCalls k' semid cs) := rfl

theorem semget_lookup_found (k : Kernel) (key : Int) (s : SemSet)
    (h : findSemKey k key = some s) : semget k key 0 0 = ((s.semid : Int), k) := by
  unfold findSemKey at h
  unfold semget
  by_cases hk : key = IPC_PRIVATE
  · simp [hk] at h
  · simp only [hk, if_false] at h ⊢
    simp [h]

theorem semget_lookup_missing (k : Kernel) (key : Int) (hkey : key ≠ IPC_PRIVATE)
    (h : findSemKey k key = none) : semget k key 0 0 = (-1, { k with errno := ENOENT }) := by
  unfold findSemKey at h
  unfold semget
  simp only [hkey, if_false] at h ⊢
  simp [h]

theorem binary_semaphore_allocation_found (k : Kernel) (key : Int) (flags : Nat) (s : SemSet)
    (h : findSemKey k key = some s) :
    binary_semaphore_allocation k key flags = ((s.semid : Int), k) := by
  unfold binary_semaphore_allocation
  rw [semget_lookup_found k key s h]
  have : ((s.semid : Int)) ≠ -1 := by omega
  simp [this]

theorem binary_semaphore_allocation_missing (k : Kernel) (key : Int) (flags : Nat)
    (hkey : key ≠ IPC_PRIVATE) (h : findSemKey k key = none) :
    binary_semaphore_allocation k key flags =
      if flags &&& IPC_CREAT ≠ 0 then
        ((freshSemId k.sems : Int),
          { sems := k.sems ++
              [{ semid := freshSemId k.sems, key := key, mode := flags % 512, semval := [0] }]
            shms := k.shms
            errno := ENOENT })
      else (-1, { k with errno := ENOENT }) := by
  unfold binary_semaphore_allocation
  rw [semget_lookup_missing k key hkey h]
  unfold findSemKey at h
  simp only [hkey, if_false] at h
  simp only [if_true]
  unfold semget
  simp only [hkey, if_false, h]
  by_cases hc : flags &&& IPC_CREAT ≠ 0
  · simp [hc, newary, SEMMSL]
  · simp [hc]

theorem findSemKey_errno (k : Kernel) (e : Nat) (key : Int) :
    findSemKey { k with errno := e } key = findSemKey k key := rfl

theorem binary_semaphore_allocation_again (k : Kernel) (key : Int) (f1 f2 : Nat)
    (hkey : key ≠ IPC_PRIVATE) (hok : (binary_semaphore_allocation k key f1).1 ≠ -1) :
    binary_semaphore_allocation (binary_semaphore_allocation k key f1).2 key f2
      = binary_semaphore_allocation k key f1 := by
  cases h : findSemKey k key with
  | some s =>
    rw [binary_semaphore_allocation_found k key f1 s h]
    exact binary_semaphore_allocation_found k key f2 s h
  | none =>
    rw [binary_semaphore_allocation_missing k key f1 hkey h] at hok ⊢
    by_cases hc : f1 &&& IPC_CREAT ≠ 0
    · rw [if_pos hc]
      exact binary_semaphore_allocation_found _ key f2
        { semid := freshSemId k.sems, key := key, mode := f1 % 512, semval := [0] }
        (by
          unfold findSemKey at h ⊢
          simp only [hkey, if_false] at h ⊢
          simp [List.find?_append, h])
    · rw [if_neg hc] at hok
      simp at hok

/-- C10 (as amended): for every key other than `IPC_PRIVATE`, an allocation
that finds a set for the key returns its identifier and leaves the kernel as
it was; an allocation that succeeded is repeated by the next allocation with
the same key (same identifier, nothing new); and when no set exists, one set
of one semaphore with the permission bits of the flags is created if the
flags hold `IPC_CREAT`, and the call fails with -1 otherwise. -/
theorem C10_allocation_idempotent (k : Kernel) (key : Int) (f1 f2 : Nat)
    (hkey : key ≠ IPC_PRIVATE) :
    (∀ s, findSemKey k key = some s →
      binary_semaphore_allocation k key f1 = ((s.semid : Int), k)) ∧
    ((binary_semaphore_allocation k key f1).1 ≠ -1 →
      binary_semaphore_allocation (binary_semaphore_allocation k key f1).2 key f2
        = binary_semaphore_allocation k key f1) ∧
    (findSemKey k key = none →
      binary_semaphore_allocation k key f1 =
        if f1 &&& IPC_CREAT ≠ 0 then
          ((freshSemId k.sems : Int),
            { sems := k.sems ++
                [{ semid := freshSemId k.sems, key := key, mode := f1 % 512, semval := [0] }]
              shms := k.shms
              errno := ENOENT })
        else (-1, { k with errno := ENOENT })) :=
  ⟨fun s h => binary_semaphore_allocation_found k key f1 s h,
   binary_semaphore_allocation_again k key f1 f2 hkey,
   binary_semaphore_allocation_missing k key f1 hkey⟩

theorem C10_allocation_idempotent_witness :
    (101 : Int) ≠ IPC_PRIVATE ∧
    (binary_semaphore_allocation Kernel.empty 101 (0o644 ||| IPC_CREAT)).1 = 0 ∧
    ((∀ s, findSemKey Kernel.empty 101 = some s →
      binary_semaphore_allocation Kernel.empty 101 (0o644 ||| IPC_CREAT)
        = ((s.semid : Int), Kernel.empty)) ∧
    ((binary_semaphore_allocation Kernel.empty 101 (0o644 ||| IPC_CREAT)).1 ≠ -1 →
      binary_semaphore_allocation
          (binary_semaphore_allocation Kernel.empty 101 (0o644 ||| IPC_CREAT)).2 101
          (0o644 ||| IPC_CREAT)
        = binary_semaphore_allocation Kernel.empty 101 (0o644 ||| IPC_CREAT)) ∧
    (findSemKey Kernel.empty 101 = none →
      binary_semaphore_allocation Kernel.empty 101 (0o644 ||| IPC_CREAT) =
        if (0o644 ||| IPC_CREAT) &&& IPC_CREAT ≠ 0 then
          ((freshSemId Kernel.empty.sems : Int),
            { sems := Kernel.empty.sems ++
                [{ semid := freshSemId Kernel.empty.sems, key := 101,
                   mode := (0o644 ||| IPC_CREAT) % 512, semval := [0] }]
              shms := Kernel.empty.shms
              errno := ENOENT })
        else (-1, { Kernel.empty with errno := ENOENT }))) :=
  ⟨by decide, by decide,
   C10_allocation_idempotent Kernel.empty 101 (0o644 ||| IPC_CREAT) (0o644 ||| IPC_CREAT)
     (by decide)⟩

/-- C10 (counterexample): with the key `IPC_PRIVATE` two consecutive
allocations both succeed and return different identifiers (0, then 1), the
second one creating a second set although the first set exists. -/
theorem C10_private_key_allocates_twice :
    (binary_semaphore_allocation Kernel.empty IPC_PRIVATE (0o644 ||| IPC_CREAT)).1 = 0 ∧
    (binary_semaphore_allocation
      (binary_semaphore_allocation Kernel.empty IPC_PRIVATE (0o644 ||| IPC_CREAT)).2
      IPC_PRIVATE (0o644 ||| IPC_CREAT)).1 = 1 ∧
    (binary_semaphore_allocation
      (binary_semaphore_allocation Kernel.empty IPC_PRIVATE (0o644 ||| IPC_CREAT)).2
      IPC_PRIVATE (0o644 ||| IPC_CREAT)).2.sems.length = 2 := by
  decide

/-! ## The receive-side channel: `ipc_rec` of `shmem_rec.c` and the consumer -/

theorem find_updateShm (f : Mem → Mem) (p : Int) (l : List ShmSeg) :
    (updateShm f p l).find? (fun s => (s.shmid : Int) = p)
      = (l.find? (fun s => (s.shmid : Int) = p)).map (fun s => { s with bytes := f s.bytes }) := by
  induction l with
  | nil => rfl
  | cons s rest ih =>
    by_cases h : (s.shmid : Int) = p
    · simp [updateShm, h, List.find?]
    · simp [updateShm, h, List.find?, ih]

theorem readBytes_length (d : Mem) (n : Nat) : (readBytes d n).length = n := by
  simp [readBytes]

theorem readBytes_getElem? (d : Mem) (n i : Nat) (h : i < n) :
    (readBytes d n)[i]? = some (d i) := by
  simp [readBytes, List.getElem?_range h]

theorem readBytes_memcpy_take (d : Mem) (B : List UInt8) (n : Nat) (h : B.length ≤ n) :
    (readBytes (memcpy d B B.length) n).take B.length = B := by
  apply List.ext_getElem?
  intro i
  by_cases hi : i < B.length
  · rw [List.getElem?_take_of_lt hi, readBytes_getElem? _ _ _ (by omega)]
    simp [memcpy, hi, List.getD_eq_getElem?_getD, List.getElem?_eq_getElem hi]
  · have h1 : (List.take B.length (readBytes (memcpy d B B.length) n)).length ≤ i := by
      simp [readBytes_length]; omega
    rw [List.getElem?_eq_none h1, List.getElem?_eq_none (by omega)]

theorem findShm_congr (k k' : Kernel) (p : Int) (h : k'.shms = k.shms) :
    findShm k' p = findShm k p := by
  unfold findShm
  rw [h]

/-- What `ipc_rec` leaves behind when the channel is attached and its
semaphore exists: the bytes are in the channel, and the post of the `isc`
process has either succeeded or failed with `ERANGE` (value at `SEMVMX`, or no room
in the undo adjustment), which `ipc_rec` ignores. -/
theorem ipc_rec_spec (m : ShmemRec) (k : Kernel) (B : List UInt8) (v : Nat) (seg : ShmSeg)
    (hsem : semValue k m.cons_semid 0 = some v) (hshm : findShm k m.cons_shm = some seg) :
    ∃ k2, ShmemRec.ipc_rec m k B B.length = some k2 ∧
      ((∀ p, p ≠ iscPid → semAdj k2 m.cons_semid p 0 = semAdj k m.cons_semid p 0) ∧
       ((v + 1 ≤ SEMVMX ∧ -SEMAEM - 1 ≤ semAdj k m.cons_semid iscPid 0 - 1 ∧
          semAdj k m.cons_semid iscPid 0 - 1 ≤ SEMAEM ∧
          semValue k2 m.cons_semid 0 = some (v + 1) ∧
          semAdj k2 m.cons_semid iscPid 0 = semAdj k m.cons_semid iscPid 0 - 1) ∨
        ((SEMVMX < v + 1 ∨ semAdj k m.cons_semid iscPid 0 - 1 < -SEMAEM - 1 ∨
            SEMAEM < semAdj k m.cons_semid iscPid 0 - 1) ∧
          semValue k2 m.cons_semid 0 = some v ∧
          semAdj k2 m.cons_semid iscPid 0 = semAdj k m.cons_semid iscPid 0))) ∧
      findShm k2 m.cons_shm = some { seg with bytes := memcpy seg.bytes B B.length } := by
  have hk1 : findShm
      { k with shms := updateShm (fun d => memcpy d B B.length) m.cons_shm k.shms } m.cons_shm
      = some { seg with bytes := memcpy seg.bytes B B.length } := by
    unfold findShm at hshm ⊢
    simp only []
    rw [find_updateShm, hshm]
    rfl
  have hs1 : semValue
      { k with shms := updateShm (fun d => memcpy d B B.length) m.cons_shm k.shms }
      m.cons_semid 0 = some v := hsem
  obtain ⟨r, k2, hk2, hs2, ho, hc⟩ := binary_semaphore_post_cases _ m.cons_semid v iscPid hs1
  refine ⟨k2, ?_, ⟨ho, ?_⟩, ?_⟩
  · unfold ShmemRec.ipc_rec
    simp only [hshm, Int.toNat_ofNat]
    rw [if_neg (by omega)]
    have hk2' : binary_semaphore_post
        { k with shms := updateShm (fun d => memcpy d B B.length) m.cons_shm k.shms }
        m.cons_semid = some (r, k2) := hk2
    rw [hk2']
  · rcases hc with ⟨_, h1, h2, h3, h4, h5⟩ | ⟨_, _, h1, h2, h3⟩
    · exact Or.inl ⟨h1, h2, h3, h4, h5⟩
    · exact Or.inr ⟨h1, h2, h3⟩
  · rw [← hk1]
    exact findShm_congr _ _ _ hs2

/-- One pass of the consumer loop on a channel that is attached and whose
semaphore is positive, the consumer having room in its undo adjustment: the
wait succeeds and the 512 channel bytes are logged. -/
theorem loopBody_positive (c : Consumer) (k : Kernel) (v : Nat) (seg : ShmSeg)
    (hsem : semValue k c.cons_semid 0 = some v) (hv : 1 ≤ v)
    (hlo : -SEMAEM - 1 ≤ semAdj k c.cons_semid consumerPid 0 + 1)
    (hhi : semAdj k c.cons_semid consumerPid 0 + 1 ≤ SEMAEM)
    (hshm : findShm k c.cons_shm = some seg) :
    (binary_semaphore_wait k c.cons_semid consumerPid).1 = 0 ∧
    Consumer.loopBody c k =
      some ({ c with received := c.received ++ [readBytes seg.bytes CONS_TEST_REGION_SIZE] },
        (binary_semaphore_wait k c.cons_semid consumerPid).2) := by
  have hn : ¬ (semAdj k c.cons_semid consumerPid 0 + 1 < -SEMAEM - 1 ∨
      SEMAEM < semAdj k c.cons_semid consumerPid 0 + 1) := by
    push_neg; exact ⟨hlo, hhi⟩
  have hw := binary_semaphore_wait_eq k c.cons_semid v consumerPid hsem
  rw [if_pos hv, if_neg hn] at hw
  have hr : readShm (binary_semaphore_wait k c.cons_semid consumerPid).2 c.cons_shm
      = some seg.bytes := by
    unfold readShm
    rw [findShm_congr k _ _ (binary_semaphore_wait_cases k c.cons_semid v consumerPid hsem).1,
      hshm]
    rfl
  have h0 : (binary_semaphore_wait k c.cons_semid consumerPid).1 ≠ -1 := by
    rw [hw]; simp
  refine ⟨by rw [hw], ?_⟩
  unfold Consumer.loopBody
  simp only []
  rw [if_neg h0, hr]

theorem memcpy_memcpy_of_le (d : Mem) (B1 B2 : List UInt8) (h : B1.length ≤ B2.length) :
    memcpy (memcpy d B1 B1.length) B2 B2.length = memcpy d B2 B2.length := by
  funext i
  unfold memcpy
  by_cases h2 : i < B2.length
  · simp [h2]
  · have h1 : ¬ i < B1.length := by omega
    simp [h2, h1]

/-- The consumer's observation after two receive calls, computed, when the
`isc` process has room for a post in its undo adjustment and the consumer has
room for a wait in its own. -/
theorem observeAfterTwo_eq (m : ShmemRec) (c : Consumer) (k : Kernel) (B1 B2 : List UInt8)
    (v : Nat) (seg : ShmSeg)
    (hsem : semValue k m.cons_semid 0 = some v) (hshm : findShm k m.cons_shm = some seg)
    (hpsem : c.cons_semid = m.cons_semid) (hpshm : c.cons_shm = m.cons_shm)
    (hisc : -SEMAEM - 1 < semAdj k m.cons_semid iscPid 0 ∧ semAdj k m.cons_semid iscPid 0 ≤ SEMAEM)
    (hcons : -SEMAEM - 1 ≤ semAdj k m.cons_semid consumerPid 0 ∧
      semAdj k m.cons_semid consumerPid 0 < SEMAEM) :
    observeAfterTwo m c k B1 B2 =
      some (readBytes (memcpy (memcpy seg.bytes B1 B1.length) B2 B2.length)
        CONS_TEST_REGION_SIZE) := by
  have hne : consumerPid ≠ iscPid := by decide
  obtain ⟨k1, hk1, ⟨ho1, hc1⟩, hs1⟩ := ipc_rec_spec m k B1 v seg hsem hshm
  obtain ⟨v1, hv1, hpos1⟩ : ∃ v1, semValue k1 m.cons_semid 0 = some v1 ∧ 1 ≤ v1 := by
    rcases hc1 with ⟨_, _, _, h, _⟩ | ⟨hbad, h, _⟩
    · exact ⟨v + 1, h, by omega⟩
    · refine ⟨v, h, ?_⟩
      unfold SEMVMX at hbad
      rcases hbad with hb | hb | hb <;> omega
  obtain ⟨k2, hk2, ⟨ho2, hc2⟩, hs2⟩ := ipc_rec_spec m k1 B2 v1 _ hv1 hs1
  obtain ⟨v2, hv2, hpos2⟩ : ∃ v2, semValue k2 m.cons_semid 0 = some v2 ∧ 1 ≤ v2 := by
    rcases hc2 with ⟨_, _, _, h, _⟩ | ⟨_, h, _⟩
    · exact ⟨v1 + 1, h, by omega⟩
    · exact ⟨v1, h, hpos1⟩
  have hadj : semAdj k2 m.cons_semid consumerPid 0 = semAdj k m.cons_semid consumerPid 0 := by
    rw [ho2 consumerPid hne, ho1 consumerPid hne]
  unfold observeAfterTwo
  rw [hk1, Option.some_bind, hk2, Option.some_bind]
  rw [← hpsem] at hv2 hadj
  rw [← hpshm] at hs2
  rw [(loopBody_positive c k2 v2 _ hv2 hpos2 (by rw [hadj, hpsem]; omega)
    (by rw [hadj, hpsem]; omega) hs2).2]
  simp

/-- C2 (as amended): after `ipc_rec (B1)` then `ipc_rec (B2)` with no wait in
between, the 512 bytes the peer logs after one wait begin with `B2`; the
bytes of `B1` at offsets from `|B2|` on are still there; and when `B1` is no
longer than `B2` the whole observation is the same whatever `B1` was. The wait
is one that succeeds: the `isc` process has room for a post in its undo
adjustment and the peer has room for a wait in its own. -/
theorem C2_second_write_overwrites_prefix (m : ShmemRec) (c : Consumer) (k : Kernel)
    (B1 B2 : List UInt8) (v : Nat)
    (hlen : B2.length ≤ CONS_SHM_SIZE)
    (hsem : semValue k m.cons_semid 0 = some v)
    (hshm : (findShm k m.cons_shm).isSome = true)
    (hpsem : c.cons_semid = m.cons_semid) (hpshm : c.cons_shm = m.cons_shm)
    (hisc : -SEMAEM - 1 < semAdj k m.cons_semid iscPid 0 ∧ semAdj k m.cons_semid iscPid 0 ≤ SEMAEM)
    (hcons : -SEMAEM - 1 ≤ semAdj k m.cons_semid consumerPid 0 ∧
      semAdj k m.cons_semid consumerPid 0 < SEMAEM) :
    ∃ bytes, observeAfterTwo m c k B1 B2 = some bytes ∧
      bytes.length = CONS_TEST_REGION_SIZE ∧
      bytes.take B2.length = B2 ∧
      (∀ i, B2.length ≤ i → i < B1.length → i < CONS_TEST_REGION_SIZE →
        bytes[i]? = B1[i]?) ∧
      (B1.length ≤ B2.length → ∀ B1' : List UInt8, B1'.length ≤ B2.length →
        observeAfterTwo m c k B1' B2 = some bytes) := by
  obtain ⟨seg, hseg⟩ := Option.isSome_iff_exists.mp hshm
  refine ⟨_, observeAfterTwo_eq m c k B1 B2 v seg hsem hseg hpsem hpshm hisc hcons,
    readBytes_length _ _, readBytes_memcpy_take _ B2 _ hlen, ?_, ?_⟩
  · intro i h2 h1 h512
    rw [readBytes_getElem? _ _ _ h512]
    have : ¬ i < B2.length := by omega
    simp [memcpy, this, h1, List.getD_eq_getElem?_getD, List.getElem?_eq_getElem h1]
  · intro h12 B1' h12'
    rw [observeAfterTwo_eq m c k B1' B2 v seg hsem hseg hpsem hpshm hisc hcons,
      memcpy_memcpy_of_le _ B1' B2 h12', memcpy_memcpy_of_le _ B1 B2 h12]

theorem C2_second_write_overwrites_prefix_witness :
    [(9 : UInt8), 8].length ≤ CONS_SHM_SIZE ∧
    semValue (kernelWithChannel 0) demoShmemRec.cons_semid 0 = some 0 ∧
    ∃ bytes, observeAfterTwo demoShmemRec demoConsumer (kernelWithChannel 0) [1, 2, 3] [9, 8]
        = some bytes ∧
      bytes.length = CONS_TEST_REGION_SIZE ∧
      bytes.take [(9 : UInt8), 8].length = [9, 8] ∧
      (∀ i, [(9 : UInt8), 8].length ≤ i → i < [(1 : UInt8), 2, 3].length →
        i < CONS_TEST_REGION_SIZE → bytes[i]? = [(1 : UInt8), 2, 3][i]?) ∧
      ([(1 : UInt8), 2, 3].length ≤ [(9 : UInt8), 8].length →
        ∀ B1' : List UInt8, B1'.length ≤ [(9 : UInt8), 8].length →
        observeAfterTwo demoShmemRec demoConsumer (kernelWithChannel 0) B1' [9, 8]
          = some bytes) :=
  ⟨by decide, by decide,
   C2_second_write_overwrites_prefix demoShmemRec demoConsumer (kernelWithChannel 0)
     [1, 2, 3] [9, 8] 0 (by decide) (by decide) (by decide) rfl rfl
     ⟨by decide, by decide⟩ ⟨by decide, by decide⟩⟩

set_option maxRecDepth 20000 in
/-- C2 (counterexample): with `B2 = [9]` written after a two-byte `B1`, the
byte at offset 1 that the peer logs after one wait is the second byte of
`B1`: 2 for `B1 = [1, 2]` and 3 for `B1 = [1, 3]`. The observation depends
on `B1`. -/
theorem C2_shorter_second_write_keeps_first :
    (observeAfterTwo demoShmemRec demoConsumer (kernelWithChannel 0) [1, 2] [9]).map
        (fun bytes => bytes.take 3) = some [9, 2, 0] ∧
    (observeAfterTwo demoShmemRec demoConsumer (kernelWithChannel 0) [1, 3] [9]).map
        (fun bytes => bytes.take 3) = some [9, 3, 0] := by
  constructor <;> rfl

/-! ## The transmit-side module: `ipc_init` and the first passes of `xmitProc` -/

theorem semValue_of_mem (k : Kernel) (semid : Int) (t : SemSet) (ht : t ∈ k.sems)
    (hid : (t.semid : Int) = semid) (hne : ∀ s ∈ k.sems, s.semval ≠ []) :
    ∃ v, semValue k semid 0 = some v := by
  unfold semValue findSem
  cases hf : k.sems.find? (fun s => (s.semid : Int) = semid) with
  | none =>
    have := List.find?_eq_none.mp hf t ht
    simp [hid] at this
  | some s =>
    have hs : s ∈ k.sems := List.mem_of_find?_eq_some hf
    have := hne s hs
    cases hv : s.semval with
    | nil => exact absurd hv this
    | cons a rest => exact ⟨a, by simp [hv]⟩

theorem newary_shms (k : Kernel) (key : Int) (n f : Nat) : (newary k key n f).2.shms = k.shms := by
  unfold newary
  split_ifs <;> rfl

theorem semget_shms (k : Kernel) (key : Int) (n f : Nat) : (semget k key n f).2.shms = k.shms := by
  unfold semget
  by_cases hk : key = IPC_PRIVATE
  · rw [if_pos hk]; exact newary_shms k key n f
  · rw [if_neg hk]
    cases k.sems.find? (fun s => s.key = key) with
    | none =>
      simp only []
      split_ifs
      · exact newary_shms k key n f
      · rfl
    | some s =>
      simp only []
      split_ifs <;> rfl

theorem binary_semaphore_allocation_shms (k : Kernel) (key : Int) (f : Nat) :
    (binary_semaphore_allocation k key f).2.shms = k.shms := by
  unfold binary_semaphore_allocation
  simp only []
  split_ifs
  · rw [semget_shms, semget_shms]
  · rw [semget_shms]

theorem binary_semaphore_initialize_ret (k : Kernel) (semid : Int) :
    ( binary_semaphore_initialize k semid).1 = 0 ∨ ( binary_semaphore_initialize k semid).1 = -1 := by
  unfold binary_semaphore_initialize semctl_SETALL
  split
  · right; rfl
  · split_ifs
    · right; rfl
    · right; rfl
    · left; rfl

theorem semget_sem_exists (k : Kernel) (key : Int) (n f : Nat) (hn : n ≤ 1)
    (hwf : k.semsNonempty) (hok : (semget k key n f).1 ≠ -1) :
    (semget k key n f).2.semsNonempty ∧
    ∃ t ∈ (semget k key n f).2.sems, (t.semid : Int) = (semget k key n f).1 := by
  have hnew : (newary k key n f).1 ≠ -1 → (newary k key n f).2.semsNonempty ∧
      ∃ t ∈ (newary k key n f).2.sems, (t.semid : Int) = (newary k key n f).1 := by
    unfold newary
    split_ifs with h0
    · intro h; exact absurd rfl h
    · intro _
      have hn1 : n = 1 := by
        have : n ≠ 0 := fun h => h0 (Or.inl h)
        omega
      subst hn1
      refine ⟨?_, ⟨_, List.mem_append_right _ (List.mem_singleton_self _), rfl⟩⟩
      intro s hs
      rcases List.mem_append.mp hs with h | h
      · exact hwf s h
      · rw [List.mem_singleton.mp h]; simp
  unfold semget at hok ⊢
  by_cases hk : key = IPC_PRIVATE
  · rw [if_pos hk] at hok ⊢
    exact hnew hok
  · rw [if_neg hk] at hok ⊢
    cases hs : k.sems.find? (fun s => s.key = key) with
    | none =>
      simp only [hs] at hok ⊢
      by_cases hc : f &&& IPC_CREAT ≠ 0
      · rw [if_pos hc] at hok ⊢
        exact hnew hok
      · rw [if_neg hc] at hok
        exact absurd rfl hok
    | some s =>
      simp only [hs] at hok ⊢
      by_cases hc : f &&& IPC_CREAT ≠ 0 ∧ f &&& IPC_EXCL ≠ 0
      · rw [if_pos hc] at hok
        exact absurd rfl hok
      · rw [if_neg hc] at hok ⊢
        by_cases hl : s.semval.length < n
        · rw [if_pos hl] at hok
          exact absurd rfl hok
        · rw [if_neg hl]
          exact ⟨hwf, s, List.mem_of_find?_eq_some hs, rfl⟩

theorem semget_lookup_semsNonempty (k : Kernel) (key : Int) (hwf : k.semsNonempty) :
    (semget k key 0 0).2.semsNonempty := by
  have hs : (semget k key 0 0).2.sems = k.sems := by
    unfold semget
    by_cases hk : key = IPC_PRIVATE
    · rw [if_pos hk]; rfl
    · rw [if_neg hk]
      cases k.sems.find? (fun s => s.key = key) with
      | none => rfl
      | some s => simp
  intro s h
  rw [hs] at h
  exact hwf s h

theorem binary_semaphore_allocation_sem_exists (k : Kernel) (key : Int) (f : Nat)
    (hwf : k.semsNonempty) (hok : (binary_semaphore_allocation k key f).1 ≠ -1) :
    ∃ v, semValue (binary_semaphore_allocation k key f).2
      (binary_semaphore_allocation k key f).1 0 = some v := by
  unfold binary_semaphore_allocation at hok ⊢
  simp only [] at hok ⊢
  split_ifs at hok ⊢ with h1
  · have hwf1 : (semget k key 0 0).2.semsNonempty := semget_lookup_semsNonempty k key hwf
    obtain ⟨hne, t, ht, hid⟩ := semget_sem_exists _ key 1 f (le_refl 1) hwf1 hok
    exact semValue_of_mem _ _ t ht hid hne
  · obtain ⟨hne, t, ht, hid⟩ := semget_sem_exists k key 0 0 (by omega) hwf h1
    exact semValue_of_mem _ _ t ht hid hne

theorem ftok_shms (env : Env) (k : Kernel) (p : String) (c : Char) :
    (ftok env k p c).2.shms = k.shms := by
  unfold ftok
  simp only []
  split_ifs <;> rfl

theorem ftok_sems (env : Env) (k : Kernel) (p : String) (c : Char) :
    (ftok env k p c).2.sems = k.sems := by
  unfold ftok
  simp only []
  split_ifs <;> rfl

theorem shmget_sems (k : Kernel) (key : Int) (n f : Nat) : (shmget k key n f).2.sems = k.sems := by
  have hnew : (newseg k key n).2.sems = k.sems := by
    unfold newseg
    split_ifs <;> rfl
  unfold shmget
  by_cases hk : key = IPC_PRIVATE
  · rw [if_pos hk]; exact hnew
  · rw [if_neg hk]
    cases k.shms.find? (fun s => s.key = key) with
    | none =>
      simp only []
      split_ifs
      · exact hnew
      · rfl
    | some s =>
      simp only []
      split_ifs <;> rfl

theorem shmat_sems (k : Kernel) (shmid : Int) : (shmat k shmid).2.sems = k.sems := by
  unfold shmat
  cases findShm k shmid <;> rfl

theorem shmat_attached (k : Kernel) (shmid : Int) (h : (shmat k shmid).1 ≠ -1) :
    ∃ seg, findShm (shmat k shmid).2 (shmat k shmid).1 = some seg := by
  unfold shmat at h ⊢
  cases hf : findShm k shmid with
  | none => simp [hf] at h
  | some s =>
    simp only []
    have hid : (s.shmid : Int) = shmid := by
      have := List.find?_some hf
      simpa using this
    rw [hid]
    exact ⟨s, hf⟩

/-- What a successful `ipc_init` of `shmem_xmit.c` establishes: the callback
is stored, the channel is attached, the semaphore has value 1 and no process
has an undo adjustment for it. -/
theorem ShmemXmit.ipc_init_ok (env : Env) (m0 m : ShmemXmit) (k0 k : Kernel) (rcb xcb : Nat)
    (hwf : k0.semsNonempty)
    (h : ShmemXmit.ipc_init env m0 k0 rcb xcb = Except.ok (m, k)) :
    m.xmitCallbackFunction = xcb ∧ semValue k m.prod_semid 0 = some 1 ∧
      (∀ pid, semAdj k m.prod_semid pid 0 = 0) ∧
      ∃ seg, findShm k m.prod_shm = some seg := by
  unfold ShmemXmit.ipc_init at h
  simp only [system_error, error, bind, Except.bind, pure, Except.pure] at h
  split at h
  · generalize hr1 : ftok env k0 "/tmp/prod_shmem_key" 'R' = r1 at h
    generalize hr2 : shmget r1.2 r1.1 PROD_SHM_SIZE (420 ||| IPC_CREAT) = r2 at h
    generalize hr3 : shmat r2.2 r2.1 = r3 at h
    generalize hr4 : ftok env r3.2 "/tmp/prod_sem_key" 'R' = r4 at h
    generalize hr5 : binary_semaphore_allocation r4.2 r4.1 (420 ||| IPC_CREAT) = r5 at h
    generalize hr6 : binary_semaphore_initialize r5.2 r5.1 = r6 at h
    split_ifs at h with c1 c2 c3 c4 c5 c6
    injection h with h
    injection h with hm hk
    subst hm hk
    have s1 : r1.2.sems = k0.sems := by rw [← hr1]; exact ftok_sems _ _ _ _
    have s2 : r2.2.sems = k0.sems := by rw [← hr2, shmget_sems]; exact s1
    have s3 : r3.2.sems = k0.sems := by rw [← hr3, shmat_sems]; exact s2
    have s4 : r4.2.sems = k0.sems := by rw [← hr4, ftok_sems]; exact s3
    have hwf4 : r4.2.semsNonempty := by
      intro s hs; rw [s4] at hs; exact hwf s hs
    obtain ⟨v0, hv0⟩ : ∃ v, semValue r5.2 r5.1 0 = some v := by
      rw [← hr5]
      exact binary_semaphore_allocation_sem_exists r4.2 r4.1 _ hwf4 (by rw [hr5]; exact c5)
    have h60 : ( binary_semaphore_initialize r5.2 r5.1).1 = 0 := by
      rcases binary_semaphore_initialize_ret r5.2 r5.1 with h0 | h0
      · exact h0
      · rw [hr6] at h0; exact absurd h0 c6
    have hval := binary_semaphore_initialize_value r5.2 r5.1 v0 hv0 h60
    rw [hr6] at hval
    obtain ⟨seg, hseg⟩ := shmat_attached r2.2 r2.1 (by rw [hr3]; exact c3)
    rw [hr3] at hseg
    have hadj : ∀ pid, semAdj r6.2 r5.1 pid 0 = 0 := by
      intro pid
      have := binary_semaphore_initialize_semAdj r5.2 r5.1 h60 pid 0
      rw [hr6] at this
      exact this
    refine ⟨rfl, hval, hadj, seg, ?_⟩
    show findShm r6.2 r3.1 = some seg
    rw [← hseg]
    apply findShm_congr
    rw [← hr6, binary_semaphore_initialize_shms, ← hr5, binary_semaphore_allocation_shms,
      ← hr4, ftok_shms]
  · simp at h

/-- C9 (as amended): after a successful `ipc_init` of `shmem_xmit.c` with no
post since, the semaphore has value 1, so the first `binary_semaphore_wait` returns 0
and the first pass of the transmit worker invokes the callback once, with the
512 bytes that the attached channel holds and the length 512; the next wait,
still with no post, returns -1 with `errno = EAGAIN` and the second pass invokes no
callback. -/
theorem C9_first_wait_succeeds_then_times_out (env : Env) (m0 m : ShmemXmit) (k0 k : Kernel)
    (rcb xcb : Nat) (hwf : k0.semsNonempty)
    (h : ShmemXmit.ipc_init env m0 k0 rcb xcb = Except.ok (m, k)) :
    (binary_semaphore_wait k m.prod_semid).1 = 0 ∧
    ∃ seg k1, findShm k m.prod_shm = some seg ∧
      ShmemXmit.xmitProcBody m k =
        some ([{ fn := xcb, buf := readBytes seg.bytes PROD_TEST_REGION_SIZE,
                 bufSize := PROD_TEST_REGION_SIZE }], k1) ∧
      (readBytes seg.bytes PROD_TEST_REGION_SIZE).length = PROD_TEST_REGION_SIZE ∧
      (binary_semaphore_wait k1 m.prod_semid).1 = -1 ∧
      (binary_semaphore_wait k1 m.prod_semid).2.errno = EAGAIN ∧
      ∃ k2, ShmemXmit.xmitProcBody m k1 = some ([], k2) := by
  obtain ⟨hcb, hval, hadj, seg, hseg⟩ := ShmemXmit.ipc_init_ok env m0 m k0 k rcb xcb hwf h
  have hw := binary_semaphore_wait_eq k m.prod_semid 1 0 hval
  rw [if_pos (le_refl 1), hadj 0, if_neg (by decide)] at hw
  have hval0 : semValue (setSemval k m.prod_semid 0 0) m.prod_semid 0 = some 0 :=
    semValue_setSemval k _ 0 0 1 hval
  have hval1 : semValue (binary_semaphore_wait k m.prod_semid).2 m.prod_semid 0 = some 0 := by
    rw [hw]
    show semValue (setSemadj (setSemval k m.prod_semid 0 (1 - 1)) m.prod_semid 0 0 (0 + 1))
      m.prod_semid 0 = some 0
    rw [semValue_setSemadj]
    exact hval0
  have hw1 := binary_semaphore_wait_eq (binary_semaphore_wait k m.prod_semid).2 m.prod_semid 0 0
    hval1
  rw [if_neg (by decide)] at hw1
  have hr : readShm (binary_semaphore_wait k m.prod_semid).2 m.prod_shm = some seg.bytes := by
    unfold readShm
    rw [findShm_congr k _ _ (binary_semaphore_wait_cases k m.prod_semid 1 0 hval).1, hseg]
    rfl
  have h0 : (binary_semaphore_wait k m.prod_semid).1 = 0 := by rw [hw]
  have hb1 : ShmemXmit.xmitProcBody m (binary_semaphore_wait k m.prod_semid).2 =
      some ([], (binary_semaphore_wait (binary_semaphore_wait k m.prod_semid).2 m.prod_semid).2) := by
    unfold ShmemXmit.xmitProcBody
    simp only []
    rw [if_pos (by rw [hw1])]
  refine ⟨h0, seg, (binary_semaphore_wait k m.prod_semid).2, hseg, ?_, readBytes_length _ _,
    by rw [hw1], by rw [hw1], _, hb1⟩
  unfold ShmemXmit.xmitProcBody
  simp only []
  rw [if_neg (by rw [h0]; decide), hr, hcb]

theorem C9_first_wait_succeeds_then_times_out_witness :
    ∃ m k, ShmemXmit.ipc_init demoEnv ShmemXmit.zero Kernel.empty 0 77 = Except.ok (m, k) ∧
      (binary_semaphore_wait k m.prod_semid).1 = 0 ∧
      ∃ seg k1, findShm k m.prod_shm = some seg ∧
        ShmemXmit.xmitProcBody m k =
          some ([{ fn := 77, buf := readBytes seg.bytes PROD_TEST_REGION_SIZE,
                   bufSize := PROD_TEST_REGION_SIZE }], k1) ∧
        (readBytes seg.bytes PROD_TEST_REGION_SIZE).length = PROD_TEST_REGION_SIZE ∧
        (binary_semaphore_wait k1 m.prod_semid).1 = -1 ∧
        (binary_semaphore_wait k1 m.prod_semid).2.errno = EAGAIN ∧
        ∃ k2, ShmemXmit.xmitProcBody m k1 = some ([], k2) :=
  ⟨_, _, rfl,
   C9_first_wait_succeeds_then_times_out demoEnv ShmemXmit.zero _ Kernel.empty _ 0 77
     (by intro s hs; cases hs) rfl⟩

/-- C9 (counterexample): on the semaphore that `ipc_init` of `shmem_xmit.c` has
just allocated and initialised in an empty kernel, with no post performed,
`binary_semaphore_wait` returns 0, not -1, and the first pass of the transmit
worker invokes the callback (address 77) with length 512. -/
theorem C9_wait_right_after_init_succeeds :
    (match ShmemXmit.ipc_init demoEnv ShmemXmit.zero Kernel.empty 0 77 with
      | Except.ok (m, k) =>
        some ((binary_semaphore_wait k m.prod_semid).1,
          (ShmemXmit.xmitProcBody m k).map (fun r => r.1.map (fun c => (c.fn, c.bufSize))))
      | Except.error _ => none)
      = some (0, some [(77, 512)]) := by
  rfl

/-! ## Unimplemented capability slots -/

/-- C6: each of the six unimplemented capability slots, for every buffer and
length, terminates the process through `system_error`: exit status 1 and a
diagnostic naming the slot; none returns a value. -/
theorem C6_unimplemented_slots_exit_with_status_1 (env : Env) (errno : Nat)
    (buf : List UInt8) (bufSize : Int) :
    ShmemXmit.ipc_xmit env errno buf bufSize = Except.error
      { status := 1
        stderr := env.program_name ++ ": error: (shmem_xmit - ipc_xmit - Not implemented) "
          ++ env.strerror errno ++ "\n" } ∧
    ShmemXmit.ipc_rec env errno buf bufSize = Except.error
      { status := 1
        stderr := env.program_name ++ ": error: (shmem_xmit - ipc_rec - Not implemented) "
          ++ env.strerror errno ++ "\n" } ∧
    ShmemRec.ipc_xmit env errno buf bufSize = Except.error
      { status := 1
        stderr := env.program_name ++ ": error: (ipc_xmit - shmem_rec - Not implemented) "
          ++ env.strerror errno ++ "\n" } ∧
    ScktClient.ipc_rec env errno buf bufSize = Except.error
      { status := 1
        stderr := env.program_name ++ ": error: (sckt_client - ipc_rec - Not implemented) "
          ++ env.strerror errno ++ "\n" } ∧
    ScktServer.ipc_xmit env errno buf bufSize = Except.error
      { status := 1
        stderr := env.program_name ++ ": error: (sckt_server - ipc_xmit - Not implemented) "
          ++ env.strerror errno ++ "\n" } ∧
    ScktServer.ipc_rec env errno buf bufSize = Except.error
      { status := 1
        stderr := env.program_name ++ ": error: (sckt_server - ipc_rec - Not implemented) "
          ++ env.strerror errno ++ "\n" } := by
  refine ⟨?_, ?_, ?_, ?_, ?_, ?_⟩ <;>
    simp [ShmemXmit.ipc_xmit, ShmemXmit.ipc_rec, ShmemRec.ipc_xmit, ScktClient.ipc_rec,
      ScktServer.ipc_xmit, ScktServer.ipc_rec, system_error, error, bind, Except.bind,
      String.append_assoc]

/-! ## The orchestrator: loads and callback wiring of `isc_run` -/

theorem keeps_exec (s : Stmt) (h : keepsLoadsAndInits s) (r : IscRun) :
    (exec r s).g.trace.filter IscEvent.isLoadOrInit = r.g.trace.filter IscEvent.isLoadOrInit := by
  unfold exec
  split_ifs
  · rfl
  · exact h r

theorem keeps_block (l : List Stmt) (h : ∀ s ∈ l, keepsLoadsAndInits s) :
    keepsLoadsAndInits (block l) := by
  induction l with
  | nil => intro r; rfl
  | cons s rest ih =>
    intro r
    show (block rest (exec r s)).g.trace.filter _ = _
    rw [ih (fun t ht => h t (List.mem_cons_of_mem _ ht)) (exec r s)]
    exact keeps_exec s (h s (List.mem_cons_self _ _)) r

theorem keeps_emit (e : IscEvent) (h : e.isLoadOrInit = false) : keepsLoadsAndInits (emit e) := by
  intro r
  simp [emit, List.filter_append, h]

theorem keeps_callVoid (p : Proc Unit) : keepsLoadsAndInits (callVoid p) := by
  intro r
  unfold callVoid
  cases p <;> rfl

theorem keeps_callBool (p : Proc Bool) (cont : Bool → Stmt)
    (h : ∀ b, keepsLoadsAndInits (cont b)) : keepsLoadsAndInits (callBool p cont) := by
  intro r
  unfold callBool
  cases p with
  | error e => rfl
  | ok b => exact h b r

theorem keeps_withModules (f : ipc_module → ipc_module → Stmt)
    (h : ∀ a b, keepsLoadsAndInits (f a b)) : keepsLoadsAndInits (withModules f) := by
  intro r
  unfold withModules
  split
  · exact h _ _ r
  · rfl

theorem keeps_ifOk (s : Stmt) (h : keepsLoadsAndInits s) :
    keepsLoadsAndInits (fun r => if r.ok then s r else r) := by
  intro r
  show (if r.ok then s r else r).g.trace.filter _ = _
  split_ifs
  · exact h r
  · rfl

theorem keeps_iscSetParam (code : ModuleCode) (prtcl addr : String) (port : Int) :
    keepsLoadsAndInits (iscSetParam code prtcl addr port) := by
  unfold iscSetParam
  apply keeps_withModules
  intro _ mk
  apply keeps_block
  intro s hs
  simp only [List.mem_cons, List.mem_singleton, List.not_mem_nil, or_false] at hs
  rcases hs with rfl | rfl
  · exact keeps_emit _ rfl
  · apply keeps_callBool
    intro b r
    cases b <;> rfl

theorem keeps_iscStart (code : ModuleCode) (sel : ipc_module → ipc_module → ipc_module) :
    keepsLoadsAndInits (iscStart code sel) := by
  unfold iscStart
  apply keeps_ifOk
  apply keeps_withModules
  intro ms mk
  apply keeps_block
  intro s hs
  simp only [List.mem_cons, List.mem_singleton, List.not_mem_nil, or_false] at hs
  rcases hs with rfl | rfl
  · exact keeps_emit _ rfl
  · apply keeps_callBool
    intro b r
    cases b <;> rfl

theorem keeps_iscWait4Done (env : Env) (code : ModuleCode)
    (sel : ipc_module → ipc_module → ipc_module) (msg : String) :
    keepsLoadsAndInits (iscWait4Done env code sel msg) := by
  unfold iscWait4Done
  apply keeps_ifOk
  apply keeps_withModules
  intro ms mk
  apply keeps_block
  intro s hs
  simp only [List.mem_cons, List.mem_singleton, List.not_mem_nil, or_false] at hs
  rcases hs with rfl | rfl
  · exact keeps_emit _ rfl
  · apply keeps_callBool
    intro b
    cases b
    · show keepsLoadsAndInits (block _)
      apply keeps_block
      intro s hs
      simp only [List.mem_cons, List.mem_singleton, List.not_mem_nil, or_false] at hs
      rcases hs with rfl | rfl
      · intro r; rfl
      · intro r; exact keeps_callVoid _ r
    · intro r; rfl

theorem isc_run_split (env : Env) (ld : Loader) (dir : String) (code : ModuleCode)
    (prtcl addr : String) (port : Int) (is_client : Int) (r : IscRun) :
    isc_run env ld dir code prtcl addr port is_client r =
      block
        [iscSetParam code prtcl addr port,
         iscStart code (fun module_shmem _ => module_shmem),
         iscStart code (fun _ module_sckt => module_sckt),
         iscWait4Done env code (fun _ module_sckt => module_sckt)
           "isc - Failed to wait for Socket transport!",
         iscWait4Done env code (fun module_shmem _ => module_shmem)
           "isc - Failed to wait for Shared Memory receiver!"]
        (exec (exec (exec (exec r (fun r => { r with ok := true })) (emit .sigaction_SIGUSR1))
          (emit .atexit_cleanup)) (iscLoadAndInit env ld dir code is_client)) := rfl

theorem isc_run_loads_and_inits (env : Env) (ld : Loader) (dir : String) (code : ModuleCode)
    (prtcl addr : String) (port : Int) (is_client : Int) (r : IscRun) :
    (isc_run env ld dir code prtcl addr port is_client r).g.trace.filter IscEvent.isLoadOrInit
      = (exec (exec (exec (exec r (fun r => { r with ok := true })) (emit .sigaction_SIGUSR1))
          (emit .atexit_cleanup)) (iscLoadAndInit env ld dir code is_client)).g.trace.filter
          IscEvent.isLoadOrInit := by
  rw [isc_run_split]
  apply keeps_block
  intro s hs
  simp only [List.mem_cons, List.mem_singleton, List.not_mem_nil, or_false] at hs
  rcases hs with rfl | rfl | rfl | rfl | rfl
  · exact keeps_iscSetParam _ _ _ _
  · exact keeps_iscStart _ _
  · exact keeps_iscStart _ _
  · exact keeps_iscWait4Done _ _ _ _
  · exact keeps_iscWait4Done _ _ _ _

/-- C5: when both loads succeed and the `init_function` calls return, the loads
and `init_function` calls of `isc_run` are exactly these, in this order. Server
role: `shmem_rec.so`, `sckt_server.so`, init of the shared-memory module
with no callback, init of the socket module with the shared-memory module's
`rec_function` as `ipc_rec`. Client role: `shmem_xmit.so`, `sckt_client.so`,
init of the socket module with no callback, init of the shared-memory module
with the socket module's `xmit_function` as `ipc_xmit`. -/
theorem C5_role_fixes_modules_and_wiring (env : Env) (ld : Loader) (dir : String)
    (code : ModuleCode) (prtcl addr : String) (port : Int) (is_client : Int)
    (module_shmem module_sckt : ipc_module)
    (hshmem : (ipc_open ld dir (if is_client = 0 then "shmem_rec.so" else "shmem_xmit.so")).1
      = some module_shmem)
    (hsckt : (ipc_open ld dir (if is_client = 0 then "sckt_server.so" else "sckt_client.so")).1
      = some module_sckt)
    (hinit : ∀ fn a b, code.init fn a b = Except.ok ()) :
    (iscRunFromStart env ld dir code prtcl addr port is_client).g.trace.filter
        IscEvent.isLoadOrInit =
      if is_client = 0 then
        [IscEvent.ipc_open "shmem_rec.so", IscEvent.ipc_open "sckt_server.so",
         IscEvent.init_function module_shmem.name module_shmem.init_function 0 0,
         IscEvent.init_function module_sckt.name module_sckt.init_function
           module_shmem.rec_function 0]
      else
        [IscEvent.ipc_open "shmem_xmit.so", IscEvent.ipc_open "sckt_client.so",
         IscEvent.init_function module_sckt.name module_sckt.init_function 0 0,
         IscEvent.init_function module_shmem.name module_shmem.init_function 0
           module_sckt.xmit_function] := by
  unfold iscRunFromStart
  rw [isc_run_loads_and_inits]
  by_cases hc : is_client = 0
  · simp only [hc, if_true] at hshmem hsckt ⊢
    have e1 : ipc_name_shmem_rec ++ ".so" = "shmem_rec.so" := by decide
    have e2 : ipc_name_sckt_server ++ ".so" = "sckt_server.so" := by decide
    simp [iscLoadAndInit, block, exec, emit, load_ipc_module, withModules, callInit, callVoid,
      e1, e2, hshmem, hsckt, hinit, Isc.start, setModuleShmem, setModuleSckt,
      IscEvent.isLoadOrInit, List.filter]
  · simp only [hc, if_false] at hshmem hsckt ⊢
    have e1 : ipc_name_shmem_xmit ++ ".so" = "shmem_xmit.so" := by decide
    have e2 : ipc_name_sckt_client ++ ".so" = "sckt_client.so" := by decide
    simp [iscLoadAndInit, block, exec, emit, load_ipc_module, withModules, callInit, callVoid,
      hc, e1, e2, hshmem, hsckt, hinit, Isc.start, setModuleShmem, setModuleSckt,
      IscEvent.isLoadOrInit, List.filter]

theorem C5_role_fixes_modules_and_wiring_witness :
    (ipc_open demoLoaderAll "/opt/isc" "shmem_rec.so").1 = some demoModuleShmemRec ∧
    (ipc_open demoLoaderAll "/opt/isc" "sckt_server.so").1 = some demoModuleScktServer ∧
    (iscRunFromStart demoEnv demoLoaderAll "/opt/isc" demoCode "tcp" "127.0.0.1" 8080
        0).g.trace.filter IscEvent.isLoadOrInit =
      [IscEvent.ipc_open "shmem_rec.so", IscEvent.ipc_open "sckt_server.so",
       IscEvent.init_function "shmem_rec.so" 100 0 0,
       IscEvent.init_function "sckt_server.so" 400 107 0] :=
  ⟨by decide, by decide,
   C5_role_fixes_modules_and_wiring demoEnv demoLoaderAll "/opt/isc" demoCode "tcp"
     "127.0.0.1" 8080 0 demoModuleShmemRec demoModuleScktServer (by decide) (by decide)
     (fun _ _ _ => rfl)⟩

/-! ## The loader: `ipc_open` -/

/-- C3: when the library opens but one of the eight required symbols does not
resolve, `ipc_open` returns `NULL`, and all it has done is: allocate and free the
path, open the library and close it once. No module object is allocated. -/
theorem C3_missing_symbol_fails_atomically (ld : Loader) (module_dir module_name : String)
    (hopen : ld.dlopen (module_dir ++ "/" ++ module_name) ≠ 0)
    (hmiss : ∃ s ∈ requiredSymbols,
      ld.dlsym (ld.dlopen (module_dir ++ "/" ++ module_name)) s = 0) :
    ipc_open ld module_dir module_name =
      (none,
        [LoaderEvent.xmalloc_path (module_dir.utf8ByteSize + module_name.utf8ByteSize + 2),
         LoaderEvent.dlopen (module_dir ++ "/" ++ module_name),
         LoaderEvent.free_path,
         LoaderEvent.dlclose (ld.dlopen (module_dir ++ "/" ++ module_name))]) ∧
    (ipc_open ld module_dir module_name).2.count
      (LoaderEvent.dlclose (ld.dlopen (module_dir ++ "/" ++ module_name))) = 1 ∧
    LoaderEvent.xmalloc_module ∉ (ipc_open ld module_dir module_name).2 := by
  have key : ipc_open ld module_dir module_name =
      (none,
        [LoaderEvent.xmalloc_path (module_dir.utf8ByteSize + module_name.utf8ByteSize + 2),
         LoaderEvent.dlopen (module_dir ++ "/" ++ module_name),
         LoaderEvent.free_path,
         LoaderEvent.dlclose (ld.dlopen (module_dir ++ "/" ++ module_name))]) := by
    unfold ipc_open
    simp only []
    rw [if_neg hopen]
    split_ifs with h1 h2 h3 h4 h5 h6 h7 h8 <;> try rfl
    exfalso
    obtain ⟨s, hs, h0⟩ := hmiss
    simp only [requiredSymbols, List.mem_cons, List.mem_singleton, List.not_mem_nil,
      or_false] at hs
    rcases hs with rfl | rfl | rfl | rfl | rfl | rfl | rfl | rfl <;> contradiction
  rw [key]
  refine ⟨rfl, ?_, ?_⟩
  · simp [List.count_cons]
  · simp

theorem C3_missing_symbol_fails_atomically_witness :
    (demoLoader ["ipc_stop"]).dlopen ("/opt/isc" ++ "/" ++ "shmem_rec.so") ≠ 0 ∧
    ipc_open (demoLoader ["ipc_stop"]) "/opt/isc" "shmem_rec.so" =
      (none,
        [LoaderEvent.xmalloc_path ("/opt/isc".utf8ByteSize + "shmem_rec.so".utf8ByteSize + 2),
         LoaderEvent.dlopen ("/opt/isc" ++ "/" ++ "shmem_rec.so"),
         LoaderEvent.free_path,
         LoaderEvent.dlclose ((demoLoader ["ipc_stop"]).dlopen
           ("/opt/isc" ++ "/" ++ "shmem_rec.so"))]) ∧
    (ipc_open (demoLoader ["ipc_stop"]) "/opt/isc" "shmem_rec.so").2.count
      (LoaderEvent.dlclose ((demoLoader ["ipc_stop"]).dlopen
        ("/opt/isc" ++ "/" ++ "shmem_rec.so"))) = 1 ∧
    LoaderEvent.xmalloc_module ∉ (ipc_open (demoLoader ["ipc_stop"]) "/opt/isc" "shmem_rec.so").2 :=
  ⟨by decide,
   C3_missing_symbol_fails_atomically (demoLoader ["ipc_stop"]) "/opt/isc" "shmem_rec.so"
     (by decide) ⟨"ipc_stop", by decide, by decide⟩⟩

/-- C4: when the library opens and all eight required symbols resolve, `ipc_open`
returns a module whose handle is the opened library, whose name is the
requested name, and whose every slot holds the non-null address of the
symbol of its own name. -/
theorem C4_successful_load_is_complete (ld : Loader) (module_dir module_name : String)
    (hopen : ld.dlopen (module_dir ++ "/" ++ module_name) ≠ 0)
    (hall : ∀ s ∈ requiredSymbols,
      ld.dlsym (ld.dlopen (module_dir ++ "/" ++ module_name)) s ≠ 0) :
    ∃ m, (ipc_open ld module_dir module_name).1 = some m ∧
      m.handle = ld.dlopen (module_dir ++ "/" ++ module_name) ∧
      m.name = module_name ∧
      m.init_function = ld.dlsym m.handle "ipc_init" ∧ m.init_function ≠ 0 ∧
      m.cleanup_function = ld.dlsym m.handle "ipc_cleanup" ∧ m.cleanup_function ≠ 0 ∧
      m.stop_function = ld.dlsym m.handle "ipc_stop" ∧ m.stop_function ≠ 0 ∧
      m.start_function = ld.dlsym m.handle "ipc_start" ∧ m.start_function ≠ 0 ∧
      m.wait4Done_function = ld.dlsym m.handle "ipc_wait4Done" ∧ m.wait4Done_function ≠ 0 ∧
      m.set_param_function = ld.dlsym m.handle "ipc_set_param" ∧ m.set_param_function ≠ 0 ∧
      m.xmit_function = ld.dlsym m.handle "ipc_xmit" ∧ m.xmit_function ≠ 0 ∧
      m.rec_function = ld.dlsym m.handle "ipc_rec" ∧ m.rec_function ≠ 0 := by
  have h1 := hall "ipc_init" (by decide)
  have h2 := hall "ipc_cleanup" (by decide)
  have h3 := hall "ipc_stop" (by decide)
  have h4 := hall "ipc_start" (by decide)
  have h5 := hall "ipc_wait4Done" (by decide)
  have h6 := hall "ipc_set_param" (by decide)
  have h7 := hall "ipc_xmit" (by decide)
  have h8 := hall "ipc_rec" (by decide)
  unfold ipc_open
  simp only []
  rw [if_neg hopen, if_neg h1, if_neg h2, if_neg h3, if_neg h4, if_neg h5, if_neg h6, if_neg h7,
    if_neg h8]
  exact ⟨_, rfl, rfl, rfl, rfl, h1, rfl, h2, rfl, h3, rfl, h4, rfl, h5, rfl, h6, rfl, h7, rfl, h8⟩

theorem C4_successful_load_is_complete_witness :
    demoLoaderAll.dlopen ("/opt/isc" ++ "/" ++ "sckt_server.so") ≠ 0 ∧
    ∃ m, (ipc_open demoLoaderAll "/opt/isc" "sckt_server.so").1 = some m ∧
      m.handle = demoLoaderAll.dlopen ("/opt/isc" ++ "/" ++ "sckt_server.so") ∧
      m.name = "sckt_server.so" ∧
      m.init_function = demoLoaderAll.dlsym m.handle "ipc_init" ∧ m.init_function ≠ 0 ∧
      m.cleanup_function = demoLoaderAll.dlsym m.handle "ipc_cleanup" ∧ m.cleanup_function ≠ 0 ∧
      m.stop_function = demoLoaderAll.dlsym m.handle "ipc_stop" ∧ m.stop_function ≠ 0 ∧
      m.start_function = demoLoaderAll.dlsym m.handle "ipc_start" ∧ m.start_function ≠ 0 ∧
      m.wait4Done_function = demoLoaderAll.dlsym m.handle "ipc_wait4Done" ∧
      m.wait4Done_function ≠ 0 ∧
      m.set_param_function = demoLoaderAll.dlsym m.handle "ipc_set_param" ∧
      m.set_param_function ≠ 0 ∧
      m.xmit_function = demoLoaderAll.dlsym m.handle "ipc_xmit" ∧ m.xmit_function ≠ 0 ∧
      m.rec_function = demoLoaderAll.dlsym m.handle "ipc_rec" ∧ m.rec_function ≠ 0 :=
  ⟨by decide,
   C4_successful_load_is_complete demoLoaderAll "/opt/isc" "sckt_server.so" (by decide)
     (by decide)⟩

/-! ## The orchestrator: order of starts and joins, configuration failure, teardown -/

theorem keepsEvents_exec (p : IscEvent → Bool) (s : Stmt) (h : keepsEvents p s) (r : IscRun) :
    (exec r s).g.trace.filter p = r.g.trace.filter p := by
  unfold exec
  split_ifs
  · rfl
  · exact h r

theorem keepsEvents_block (p : IscEvent → Bool) (l : List Stmt)
    (h : ∀ s ∈ l, keepsEvents p s) : keepsEvents p (block l) := by
  induction l with
  | nil => intro r; rfl
  | cons s rest ih =>
    intro r
    show (block rest (exec r s)).g.trace.filter _ = _
    rw [ih (fun t ht => h t (List.mem_cons_of_mem _ ht)) (exec r s)]
    exact keepsEvents_exec p s (h s (List.mem_cons_self _ _)) r

theorem keepsEvents_emit (p : IscEvent → Bool) (e : IscEvent) (h : p e = false) :
    keepsEvents p (emit e) := by
  intro r
  simp [emit, List.filter_append, h]

theorem keepsEvents_callVoid (p : IscEvent → Bool) (q : Proc Unit) :
    keepsEvents p (callVoid q) := by
  intro r
  unfold callVoid
  cases q <;> rfl

theorem keepsEvents_withModules (p : IscEvent → Bool) (f : ipc_module → ipc_module → Stmt)
    (h : ∀ a b, keepsEvents p (f a b)) : keepsEvents p (withModules f) := by
  intro r
  unfold withModules
  split
  · exact h _ _ r
  · rfl

theorem keepsEvents_load (p : IscEvent → Bool) (hp : ∀ f, p (IscEvent.ipc_open f) = false)
    (env : Env) (ld : Loader) (dir name : String) (assign : ipc_module → Isc → Isc)
    (hassign : ∀ m g, (assign m g).trace = g.trace) :
    keepsEvents p (load_ipc_module env ld dir name assign) := by
  intro r
  unfold load_ipc_module
  simp only []
  cases (ipc_open ld dir (name ++ ".so")).1 with
  | none =>
    simp only []
    rw [keepsEvents_callVoid p _ _]
    exact keepsEvents_emit p _ (hp _) r
  | some m =>
    simp only [hassign]
    exact keepsEvents_emit p _ (hp _) r

theorem keepsEvents_callInit (p : IscEvent → Bool)
    (hp : ∀ m f a b, p (IscEvent.init_function m f a b) = false)
    (code : ModuleCode) (m : ipc_module) (a b : Nat) : keepsEvents p (callInit code m a b) := by
  unfold callInit
  apply keepsEvents_block
  intro s hs
  simp only [List.mem_cons, List.mem_singleton, List.not_mem_nil, or_false] at hs
  rcases hs with rfl | rfl
  · exact keepsEvents_emit p _ (hp _ _ _ _)
  · exact keepsEvents_callVoid p _

theorem keepsEvents_iscLoadAndInit (p : IscEvent → Bool)
    (hopen : ∀ f, p (IscEvent.ipc_open f) = false)
    (hinit : ∀ m f a b, p (IscEvent.init_function m f a b) = false)
    (env : Env) (ld : Loader) (dir : String) (code : ModuleCode) (is_client : Int) :
    keepsEvents p (iscLoadAndInit env ld dir code is_client) := by
  unfold iscLoadAndInit
  split_ifs
  all_goals
    apply keepsEvents_block
    intro s hs
    simp only [List.mem_cons, List.mem_singleton, List.not_mem_nil, or_false] at hs
    rcases hs with rfl | rfl | rfl | rfl
    · exact keepsEvents_load p hopen _ _ _ _ _ (fun _ _ => rfl)
    · exact keepsEvents_load p hopen _ _ _ _ _ (fun _ _ => rfl)
    · exact keepsEvents_withModules p _ (fun _ _ => keepsEvents_callInit p hinit _ _ _ _)
    · exact keepsEvents_withModules p _ (fun _ _ => keepsEvents_callInit p hinit _ _ _ _)

/-- After the `set_param_function` statement with a call that returns `false`, the
run is inert, and the statement has recorded only the `set_param_function` call. -/
theorem iscSetParam_false (p : IscEvent → Bool)
    (hp : ∀ m f a b c, p (IscEvent.set_param_function m f a b c) = false)
    (code : ModuleCode) (prtcl addr : String) (port : Int)
    (h : ∀ fn, code.set_param fn prtcl addr port = Except.ok false) (r : IscRun) :
    (exec r (iscSetParam code prtcl addr port)).inert ∧
    (exec r (iscSetParam code prtcl addr port)).g.trace.filter p = r.g.trace.filter p := by
  unfold exec
  by_cases hh : r.halted.isSome = true
  · rw [if_pos hh]
    exact ⟨Or.inl hh, rfl⟩
  · rw [if_neg hh]
    unfold iscSetParam withModules
    split
    · simp [block, exec, emit, callBool, h, hh, IscRun.inert, List.filter_append, hp]
    · exact ⟨Or.inl rfl, rfl⟩

theorem exec_iscStart_inert (code : ModuleCode) (sel : ipc_module → ipc_module → ipc_module)
    (r : IscRun) (h : r.inert) : exec r (iscStart code sel) = r := by
  unfold exec
  split_ifs with hh
  · rfl
  · rcases h with h | h
    · exact absurd h hh
    · simp [iscStart, h]

theorem exec_iscWait4Done_inert (env : Env) (code : ModuleCode)
    (sel : ipc_module → ipc_module → ipc_module) (msg : String)
    (r : IscRun) (h : r.inert) : exec r (iscWait4Done env code sel msg) = r := by
  unfold exec
  split_ifs with hh
  · rfl
  · rcases h with h | h
    · exact absurd h hh
    · simp [iscWait4Done, h]

/-- C11: for both roles and whatever the loads and the `init_function` calls do,
when the socket module's `set_param_function` returns `false`, `isc_run` records no
call of a `start_function` and no call of a `wait4Done_function`. -/
theorem C11_configuration_failure_starts_nothing (env : Env) (ld : Loader) (dir : String)
    (code : ModuleCode) (prtcl addr : String) (port : Int) (is_client : Int)
    (h : ∀ fn, code.set_param fn prtcl addr port = Except.ok false) :
    (iscRunFromStart env ld dir code prtcl addr port is_client).g.trace.filter
        (fun e => e.isStart || e.isWait4Done) = [] := by
  unfold iscRunFromStart
  rw [isc_run_split]
  generalize hr1 : exec (exec (exec (exec
    ({ g := Isc.start, ok := true, halted := none } : IscRun)
    (fun r => { r with ok := true })) (emit .sigaction_SIGUSR1)) (emit .atexit_cleanup))
    (iscLoadAndInit env ld dir code is_client) = r1
  have hk1 : r1.g.trace.filter (fun e => e.isStart || e.isWait4Done) = [] := by
    rw [← hr1, keepsEvents_exec _ _ (keepsEvents_iscLoadAndInit _ (fun _ => rfl)
        (fun _ _ _ _ => rfl) env ld dir code is_client),
      keepsEvents_exec _ _ (keepsEvents_emit _ _ rfl),
      keepsEvents_exec _ _ (keepsEvents_emit _ _ rfl)]
    rfl
  obtain ⟨hin, hk2⟩ := iscSetParam_false (fun e => e.isStart || e.isWait4Done)
    (fun _ _ _ _ _ => rfl) code prtcl addr port h r1
  simp only [block]
  rw [exec_iscStart_inert _ _ _ hin, exec_iscStart_inert _ _ _ hin,
    exec_iscWait4Done_inert _ _ _ _ _ hin, exec_iscWait4Done_inert _ _ _ _ _ hin, hk2, hk1]

/-- The whole trace of `isc_run` when both loads succeed and every module call
returns, the boolean ones with `true`. -/
theorem isc_run_trace_all_good (env : Env) (ld : Loader) (dir : String)
    (code : ModuleCode) (prtcl addr : String) (port : Int) (is_client : Int)
    (module_shmem module_sckt : ipc_module)
    (hshmem : (ipc_open ld dir (if is_client = 0 then "shmem_rec.so" else "shmem_xmit.so")).1
      = some module_shmem)
    (hsckt : (ipc_open ld dir (if is_client = 0 then "sckt_server.so" else "sckt_client.so")).1
      = some module_sckt)
    (hinit : ∀ fn a b, code.init fn a b = Except.ok ())
    (hparam : ∀ fn, code.set_param fn prtcl addr port = Except.ok true)
    (hstart : ∀ fn, code.start fn = Except.ok true)
    (hwait : ∀ fn, code.wait4Done fn = Except.ok true) :
    (iscRunFromStart env ld dir code prtcl addr port is_client).g.trace =
      [IscEvent.sigaction_SIGUSR1, IscEvent.atexit_cleanup] ++
      (if is_client = 0 then
        [IscEvent.ipc_open "shmem_rec.so", IscEvent.ipc_open "sckt_server.so",
         IscEvent.init_function module_shmem.name module_shmem.init_function 0 0,
         IscEvent.init_function module_sckt.name module_sckt.init_function
           module_shmem.rec_function 0]
      else
        [IscEvent.ipc_open "shmem_xmit.so", IscEvent.ipc_open "sckt_client.so",
         IscEvent.init_function module_sckt.name module_sckt.init_function 0 0,
         IscEvent.init_function module_shmem.name module_shmem.init_function 0
           module_sckt.xmit_function]) ++
      [IscEvent.set_param_function module_sckt.name module_sckt.set_param_function prtcl addr
         port,
       IscEvent.start_function module_shmem.name module_shmem.start_function,
       IscEvent.start_function module_sckt.name module_sckt.start_function,
       IscEvent.wait4Done_function module_sckt.name module_sckt.wait4Done_function,
       IscEvent.wait4Done_function module_shmem.name module_shmem.wait4Done_function] := by
  unfold iscRunFromStart isc_run
  by_cases hc : is_client = 0
  · simp only [hc, if_true] at hshmem hsckt ⊢
    have e1 : ipc_name_shmem_rec ++ ".so" = "shmem_rec.so" := by decide
    have e2 : ipc_name_sckt_server ++ ".so" = "sckt_server.so" := by decide
    simp [iscLoadAndInit, iscSetParam, iscStart, iscWait4Done, block, exec, emit,
      load_ipc_module, withModules, callInit, callVoid, callBool,
      e1, e2, hshmem, hsckt, hinit, hparam, hstart, hwait, Isc.start, setModuleShmem,
      setModuleSckt]
  · simp only [hc, if_false] at hshmem hsckt ⊢
    have e1 : ipc_name_shmem_xmit ++ ".so" = "shmem_xmit.so" := by decide
    have e2 : ipc_name_sckt_client ++ ".so" = "sckt_client.so" := by decide
    simp [iscLoadAndInit, iscSetParam, iscStart, iscWait4Done, block, exec, emit,
      load_ipc_module, withModules, callInit, callVoid, callBool,
      hc, e1, e2, hshmem, hsckt, hinit, hparam, hstart, hwait, Isc.start, setModuleShmem,
      setModuleSckt]

theorem C11_configuration_failure_starts_nothing_witness :
    (∀ fn, demoCodeRejecting.set_param fn "sctp" "127.0.0.1" 8080 = Except.ok false) ∧
    (iscRunFromStart demoEnv demoLoaderAll "/opt/isc" demoCodeRejecting "sctp" "127.0.0.1"
        8080 1).g.trace.filter (fun e => e.isStart || e.isWait4Done) = [] :=
  ⟨fun _ => rfl,
   C11_configuration_failure_starts_nothing demoEnv demoLoaderAll "/opt/isc"
     demoCodeRejecting "sctp" "127.0.0.1" 8080 1 (fun _ => rfl)⟩

/-- C12 (evaluation at the failing input): server role, all modules load, and
`ipc_set_param` of `sckt_server.c` rejects the protocol `sctp`. `isc_run` returns
without an exit, having recorded no call after the `set_param_function` call, and the
process ends with status 0. The same happens when the socket module's
`start_function` returns `false`. A failed load, in contrast, ends with status 1. -/
theorem C12_failed_set_param_or_start_exits_0 :
    (iscRunFromStart demoEnv demoLoaderAll "/opt/isc" demoCodeSetParam "sctp" "127.0.0.1" 8080
      0).halted = none ∧
    (isc_process demoEnv demoLoaderAll "/opt/isc" demoCodeSetParam "sctp" "127.0.0.1" 8080
      0).1 = 0 ∧
    (isc_process demoEnv demoLoaderAll "/opt/isc"
      { demoCode with start := fun fn => pure (fn != 403) } "tcp" "127.0.0.1" 8080 0).1 = 0 ∧
    (isc_process demoEnv (demoLoader []) "/opt/isc" demoCode "tcp" "127.0.0.1" 8080 0).1
      = 1 := by
  decide

/-- C13 (as amended): in both roles, in a run in which both loads succeed and
every module call returns (the boolean ones with `true`), the `start_function` calls
of `isc_run` are the shared-memory module's first and the socket module's
second. -/
theorem C13_shared_memory_starts_first (env : Env) (ld : Loader) (dir : String)
    (code : ModuleCode) (prtcl addr : String) (port : Int) (is_client : Int)
    (module_shmem module_sckt : ipc_module)
    (hshmem : (ipc_open ld dir (if is_client = 0 then "shmem_rec.so" else "shmem_xmit.so")).1
      = some module_shmem)
    (hsckt : (ipc_open ld dir (if is_client = 0 then "sckt_server.so" else "sckt_client.so")).1
      = some module_sckt)
    (hinit : ∀ fn a b, code.init fn a b = Except.ok ())
    (hparam : ∀ fn, code.set_param fn prtcl addr port = Except.ok true)
    (hstart : ∀ fn, code.start fn = Except.ok true)
    (hwait : ∀ fn, code.wait4Done fn = Except.ok true) :
    (iscRunFromStart env ld dir code prtcl addr port is_client).g.trace.filter
        IscEvent.isStart =
      [IscEvent.start_function module_shmem.name module_shmem.start_function,
       IscEvent.start_function module_sckt.name module_sckt.start_function] := by
  rw [isc_run_trace_all_good env ld dir code prtcl addr port is_client module_shmem module_sckt
    hshmem hsckt hinit hparam hstart hwait]
  split_ifs <;> simp [IscEvent.isStart, List.filter]

theorem C13_shared_memory_starts_first_witness :
    (ipc_open demoLoaderAll "/opt/isc" "shmem_xmit.so").1 = some demoModuleShmemXmit ∧
    (ipc_open demoLoaderAll "/opt/isc" "sckt_client.so").1 = some demoModuleScktClient ∧
    (iscRunFromStart demoEnv demoLoaderAll "/opt/isc" demoCode "tcp" "127.0.0.1" 8080
        1).g.trace.filter IscEvent.isStart =
      [IscEvent.start_function "shmem_xmit.so" 203,
       IscEvent.start_function "sckt_client.so" 303] :=
  ⟨by decide, by decide,
   C13_shared_memory_starts_first demoEnv demoLoaderAll "/opt/isc" demoCode "tcp" "127.0.0.1"
     8080 1 demoModuleShmemXmit demoModuleScktClient (by decide) (by decide)
     (fun _ _ _ => rfl) (fun _ => rfl) (fun _ => rfl) (fun _ => rfl)⟩

/-- C13 (counterexample): in server role the first `start_function` called is that of
the shared-memory module `shmem_rec.so`, the socket module `sckt_server.so`
comes second. -/
theorem C13_server_starts_shared_memory_first :
    (iscRunFromStart demoEnv demoLoaderAll "/opt/isc" demoCode "tcp" "127.0.0.1" 8080
        0).g.trace.filter IscEvent.isStart =
      [IscEvent.start_function "shmem_rec.so" 103,
       IscEvent.start_function "sckt_server.so" 403] := by
  decide

/-- C14 (as amended): in a run in which both loads succeed and every module
call returns (the boolean ones with `true`), `isc_run` joins the socket module
first and the shared-memory module second in both roles. The `init_function` calls
are shared memory then socket in server role, so the joins reverse them
there; they are socket then shared memory in client role, so the joins
repeat their order there. -/
theorem C14_socket_joined_first (env : Env) (ld : Loader) (dir : String)
    (code : ModuleCode) (prtcl addr : String) (port : Int) (is_client : Int)
    (module_shmem module_sckt : ipc_module)
    (hshmem : (ipc_open ld dir (if is_client = 0 then "shmem_rec.so" else "shmem_xmit.so")).1
      = some module_shmem)
    (hsckt : (ipc_open ld dir (if is_client = 0 then "sckt_server.so" else "sckt_client.so")).1
      = some module_sckt)
    (hinit : ∀ fn a b, code.init fn a b = Except.ok ())
    (hparam : ∀ fn, code.set_param fn prtcl addr port = Except.ok true)
    (hstart : ∀ fn, code.start fn = Except.ok true)
    (hwait : ∀ fn, code.wait4Done fn = Except.ok true) :
    (iscRunFromStart env ld dir code prtcl addr port is_client).g.trace.filter
        IscEvent.isWait4Done =
      [IscEvent.wait4Done_function module_sckt.name module_sckt.wait4Done_function,
       IscEvent.wait4Done_function module_shmem.name module_shmem.wait4Done_function] ∧
    ((iscRunFromStart env ld dir code prtcl addr port is_client).g.trace.filter
        IscEvent.isInit).filterMap IscEvent.module? =
      if is_client = 0 then [module_shmem.name, module_sckt.name]
      else [module_sckt.name, module_shmem.name] := by
  rw [isc_run_trace_all_good env ld dir code prtcl addr port is_client module_shmem module_sckt
    hshmem hsckt hinit hparam hstart hwait]
  split_ifs <;> simp [IscEvent.isWait4Done, IscEvent.isInit, IscEvent.module?, List.filter]

theorem C14_socket_joined_first_witness :
    (ipc_open demoLoaderAll "/opt/isc" "shmem_rec.so").1 = some demoModuleShmemRec ∧
    (ipc_open demoLoaderAll "/opt/isc" "sckt_server.so").1 = some demoModuleScktServer ∧
    (iscRunFromStart demoEnv demoLoaderAll "/opt/isc" demoCode "tcp" "127.0.0.1" 8080
        0).g.trace.filter IscEvent.isWait4Done =
      [IscEvent.wait4Done_function "sckt_server.so" 404,
       IscEvent.wait4Done_function "shmem_rec.so" 104] ∧
    ((iscRunFromStart demoEnv demoLoaderAll "/opt/isc" demoCode "tcp" "127.0.0.1" 8080
        0).g.trace.filter IscEvent.isInit).filterMap IscEvent.module? =
      ["shmem_rec.so", "sckt_server.so"] :=
  ⟨by decide, by decide,
   C14_socket_joined_first demoEnv demoLoaderAll "/opt/isc" demoCode "tcp" "127.0.0.1"
     8080 0 demoModuleShmemRec demoModuleScktServer (by decide) (by decide)
     (fun _ _ _ => rfl) (fun _ => rfl) (fun _ => rfl) (fun _ => rfl)⟩

/-- C14 (counterexample): in client role the modules are initialised in the
order `sckt_client.so`, `shmem_xmit.so` and joined in the same order, not in
the reverse one. -/
theorem C14_client_joins_in_init_order :
    ((iscRunFromStart demoEnv demoLoaderAll "/opt/isc" demoCode "tcp" "127.0.0.1" 8080
        1).g.trace.filter IscEvent.isInit).filterMap IscEvent.module? =
      ["sckt_client.so", "shmem_xmit.so"] ∧
    ((iscRunFromStart demoEnv demoLoaderAll "/opt/isc" demoCode "tcp" "127.0.0.1" 8080
        1).g.trace.filter IscEvent.isWait4Done).filterMap IscEvent.module? =
      ["sckt_client.so", "shmem_xmit.so"] := by
  decide

/-- C15 (as amended): whatever the two module pointers hold, `cleanup` leaves them
as they are and touches no module whose pointer is `NULL`. When every
`cleanup_function` it calls returns, it adds to the events exactly these: for the
socket module, if loaded, its `cleanup_function` then its `ipc_close`; after them, for the
shared-memory module, if loaded, its `cleanup_function` then its `ipc_close`. When the
`cleanup_function` of the socket module ends the process, that call is the last event:
no `ipc_close` follows and the shared-memory module is not touched. When that of
the shared-memory module ends the process, the events of the socket module
are followed by that call alone, without the `ipc_close` of the shared-memory
module. -/
theorem C15_cleanup_then_close_per_loaded_module (code : ModuleCode) (s : Isc) :
    (cleanup code s).1.module_shmem = s.module_shmem ∧
    (cleanup code s).1.module_sckt = s.module_sckt ∧
    ((∀ m, s.module_sckt = some m → code.cleanup m.cleanup_function = Except.ok ()) →
      (∀ m, s.module_shmem = some m → code.cleanup m.cleanup_function = Except.ok ()) →
      (cleanup code s).2 = none ∧
      (cleanup code s).1.trace = s.trace ++
        (match s.module_sckt with
          | some m => [IscEvent.cleanup_function m.name m.cleanup_function,
                       IscEvent.ipc_close m.name]
          | none => []) ++
        (match s.module_shmem with
          | some m => [IscEvent.cleanup_function m.name m.cleanup_function,
                       IscEvent.ipc_close m.name]
          | none => [])) ∧
    (∀ m h, s.module_sckt = some m → code.cleanup m.cleanup_function = Except.error h →
      (cleanup code s).2 = some h ∧
      (cleanup code s).1.trace = s.trace ++
        [IscEvent.cleanup_function m.name m.cleanup_function]) ∧
    (∀ m h, s.module_shmem = some m → code.cleanup m.cleanup_function = Except.error h →
      (∀ m2, s.module_sckt = some m2 → code.cleanup m2.cleanup_function = Except.ok ()) →
      (cleanup code s).2 = some h ∧
      (cleanup code s).1.trace = s.trace ++
        (match s.module_sckt with
          | some m2 => [IscEvent.cleanup_function m2.name m2.cleanup_function,
                        IscEvent.ipc_close m2.name]
          | none => []) ++
        [IscEvent.cleanup_function m.name m.cleanup_function]) := by
  refine ⟨?_, ?_, ?_, ?_, ?_⟩
  · unfold cleanup cleanupModule
    cases hk : s.module_sckt with
    | none => cases hs : s.module_shmem <;> simp [hs] <;> split <;> rfl
    | some m1 =>
      cases hc1 : code.cleanup m1.cleanup_function with
      | error h => simp [hc1]
      | ok u =>
        cases hs : s.module_shmem <;> simp [hc1, hs] <;> split <;> rfl
  · unfold cleanup cleanupModule
    cases hk : s.module_sckt with
    | none => cases hs : s.module_shmem <;> simp [hs, hk] <;> split <;> simp [hk]
    | some m1 =>
      cases hc1 : code.cleanup m1.cleanup_function with
      | error h => simp [hc1, hk]
      | ok u =>
        cases hs : s.module_shmem <;> simp [hc1, hs, hk] <;> split <;> simp [hk]
  · intro h1 h2
    unfold cleanup cleanupModule
    cases hk : s.module_sckt with
    | none =>
      cases hs : s.module_shmem with
      | none => simp [hs]
      | some m2 => simp [hs, h2 m2 hs]
    | some m1 =>
      cases hs : s.module_shmem with
      | none => simp [h1 m1 hk, hs]
      | some m2 => simp [h1 m1 hk, hs, h2 m2 hs]
  · intro m h hk hc
    unfold cleanup cleanupModule
    simp [hk, hc]
  · intro m h hs hc h1
    unfold cleanup cleanupModule
    cases hk : s.module_sckt with
    | none => simp [hs, hc]
    | some m1 => simp [h1 m1 hk, hs, hc]

/-- C15 at three inputs, both modules of the server role loaded: every `cleanup_function`
returns; that of the socket module ends the process; that of the
shared-memory module ends the process. -/
theorem C15_cleanup_then_close_per_loaded_module_witness :
    (cleanup demoCode
        { Isc.start with module_shmem := some demoModuleShmemRec,
                         module_sckt := some demoModuleScktServer }).1.trace =
      [IscEvent.cleanup_function "sckt_server.so" 401, IscEvent.ipc_close "sckt_server.so",
       IscEvent.cleanup_function "shmem_rec.so" 101, IscEvent.ipc_close "shmem_rec.so"] ∧
    (cleanup { demoCode with cleanup := fun _ => Except.error { status := 1, stderr := "" } }
        { Isc.start with module_shmem := some demoModuleShmemRec,
                         module_sckt := some demoModuleScktServer }).1.trace =
      [IscEvent.cleanup_function "sckt_server.so" 401] ∧
    (cleanup demoCodeCleanup
        { Isc.start with module_shmem := some demoModuleShmemRec,
                         module_sckt := some demoModuleScktServer }).1.trace =
      [IscEvent.cleanup_function "sckt_server.so" 401, IscEvent.ipc_close "sckt_server.so",
       IscEvent.cleanup_function "shmem_rec.so" 101] :=
  ⟨((C15_cleanup_then_close_per_loaded_module demoCode
        { Isc.start with module_shmem := some demoModuleShmemRec,
                         module_sckt := some demoModuleScktServer }).2.2.1
      (fun _ _ => rfl) (fun _ _ => rfl)).2,
   ((C15_cleanup_then_close_per_loaded_module
        { demoCode with cleanup := fun _ => Except.error { status := 1, stderr := "" } }
        { Isc.start with module_shmem := some demoModuleShmemRec,
                         module_sckt := some demoModuleScktServer }).2.2.2.1
      demoModuleScktServer { status := 1, stderr := "" } rfl rfl).2,
   ((C15_cleanup_then_close_per_loaded_module demoCodeCleanup
        { Isc.start with module_shmem := some demoModuleShmemRec,
                         module_sckt := some demoModuleScktServer }).2.2.2.2
      demoModuleShmemRec { status := 1, stderr := "isc: error: (ipc_cleanup - cons shmdt) error\n" }
      rfl rfl (fun m2 h => by cases h; rfl)).2⟩

/-- C15 (counterexample): the module `shmem_rec.so` is loaded and was never initialised
(the load of the socket module failed). `cleanup` calls its `cleanup_function`, which is
`ipc_cleanup` of `shmem_rec.c`: `shmdt` of the pointer never assigned fails, `system_error` ends the
process with status 1, and `ipc_close` is not called for the loaded module. -/
theorem C15_failed_cleanup_skips_close :
    ShmemRec.ipc_cleanup demoEnv ShmemRec.zero Kernel.empty =
      Except.error { status := 1, stderr := "isc: error: (ipc_cleanup - cons shmdt) error\n" } ∧
    cleanup demoCodeCleanup { Isc.start with module_shmem := some demoModuleShmemRec } =
      ({ module_shmem := some demoModuleShmemRec, module_sckt := none, errno := 0,
         trace := [IscEvent.cleanup_function "shmem_rec.so" 101] },
       some { status := 1, stderr := "isc: error: (ipc_cleanup - cons shmdt) error\n" }) ∧
    (isc_process demoEnv (demoLoaderWithout "sckt_server.so") "/opt/isc" demoCodeCleanup
        "tcp" "127.0.0.1" 8080 0).2.trace =
      [IscEvent.sigaction_SIGUSR1, IscEvent.atexit_cleanup, IscEvent.ipc_open "shmem_rec.so",
       IscEvent.ipc_open "sckt_server.so", IscEvent.cleanup_function "shmem_rec.so" 101] := by
  refine ⟨rfl, rfl, ?_⟩
  decide

/-! ## The transmit worker: one pass of `xmitProc` -/

theorem binary_semaphore_wait_shms (k : Kernel) (semid : Int) (pid : Nat) :
    (binary_semaphore_wait k semid pid).2.shms = k.shms := by
  unfold binary_semaphore_wait semtimedop trySemop commitSemop
  cases findSem k semid with
  | none => rfl
  | some s =>
    simp only []
    cases s.semval.get? 0 with
    | none => rfl
    | some v =>
      simp only []
      split_ifs <;> rfl

/-- C16: in one pass of the loop of `xmitProc`, with the channel attached: when
`binary_semaphore_wait` returns something other than -1 the callback is invoked
exactly once, with the 512 bytes the channel holds at that moment and the
length 512; when it returns -1 (timeout or any other error) the callback is
not invoked. The pass does not write the statics, so after a failed wait the
loop goes on to its next test with `stop` as the other threads left it. -/
theorem C16_transmit_worker_pass (m : ShmemXmit) (k : Kernel) (seg : ShmSeg)
    (hshm : findShm k m.prod_shm = some seg) :
    ((binary_semaphore_wait k m.prod_semid).1 ≠ -1 →
      ShmemXmit.xmitProcBody m k =
        some ([{ fn := m.xmitCallbackFunction,
                 buf := readBytes seg.bytes PROD_TEST_REGION_SIZE,
                 bufSize := 512 }], (binary_semaphore_wait k m.prod_semid).2)) ∧
    ((binary_semaphore_wait k m.prod_semid).1 = -1 →
      ShmemXmit.xmitProcBody m k = some ([], (binary_semaphore_wait k m.prod_semid).2)) ∧
    (∀ (others : Nat → ShmemXmit × Kernel → ShmemXmit × Kernel) (fuel n : Nat),
      m.stop = false → others n (m, k) = (m, k) →
      (binary_semaphore_wait k m.prod_semid).1 = -1 →
      ShmemXmit.xmitProc others (fuel + 1) n m k =
        ShmemXmit.xmitProc others fuel (n + 1) m (binary_semaphore_wait k m.prod_semid).2) := by
  have hr : readShm (binary_semaphore_wait k m.prod_semid).2 m.prod_shm = some seg.bytes := by
    unfold readShm
    rw [findShm_congr k _ _ (binary_semaphore_wait_shms k m.prod_semid 0), hshm]
    rfl
  have hfail : (binary_semaphore_wait k m.prod_semid).1 = -1 →
      ShmemXmit.xmitProcBody m k = some ([], (binary_semaphore_wait k m.prod_semid).2) := by
    intro h
    unfold ShmemXmit.xmitProcBody
    simp [h]
  refine ⟨?_, hfail, ?_⟩
  · intro h
    unfold ShmemXmit.xmitProcBody
    simp [h, hr, PROD_TEST_REGION_SIZE, PROD_SHM_SIZE]
  · intro others fuel n hstop hothers h
    rw [ShmemXmit.xmitProc]
    simp only [hstop, hothers, hfail h, Bool.false_eq_true, if_false]
    cases ShmemXmit.xmitProc others fuel (n + 1) m (binary_semaphore_wait k m.prod_semid).2 with
    | none => rfl
    | some r => simp

theorem C16_transmit_worker_pass_witness :
    findShm (kernelWithChannel 1) demoShmemXmit.prod_shm = some demoSegment ∧
    (((binary_semaphore_wait (kernelWithChannel 1) demoShmemXmit.prod_semid).1 ≠ -1 →
      ShmemXmit.xmitProcBody demoShmemXmit (kernelWithChannel 1) =
        some ([{ fn := demoShmemXmit.xmitCallbackFunction,
                 buf := readBytes demoSegment.bytes PROD_TEST_REGION_SIZE,
                 bufSize := 512 }],
          (binary_semaphore_wait (kernelWithChannel 1) demoShmemXmit.prod_semid).2)) ∧
    ((binary_semaphore_wait (kernelWithChannel 1) demoShmemXmit.prod_semid).1 = -1 →
      ShmemXmit.xmitProcBody demoShmemXmit (kernelWithChannel 1) =
        some ([], (binary_semaphore_wait (kernelWithChannel 1) demoShmemXmit.prod_semid).2)) ∧
    (∀ (others : Nat → ShmemXmit × Kernel → ShmemXmit × Kernel) (fuel n : Nat),
      demoShmemXmit.stop = false →
      others n (demoShmemXmit, kernelWithChannel 1) = (demoShmemXmit, kernelWithChannel 1) →
      (binary_semaphore_wait (kernelWithChannel 1) demoShmemXmit.prod_semid).1 = -1 →
      ShmemXmit.xmitProc others (fuel + 1) n demoShmemXmit (kernelWithChannel 1) =
        ShmemXmit.xmitProc others fuel (n + 1) demoShmemXmit
          (binary_semaphore_wait (kernelWithChannel 1) demoShmemXmit.prod_semid).2)) :=
  ⟨rfl, C16_transmit_worker_pass demoShmemXmit (kernelWithChannel 1) demoSegment rfl⟩

/-! ## The listener worker: one readiness event on a data socket -/

theorem sysRead_length_le (avail : ReadResult) (count : Nat) (bytes : List UInt8)
    (h : sysRead avail count = .data bytes) : bytes.length ≤ count := by
  cases avail with
  | error e => simp [sysRead] at h
  | data b =>
    simp only [sysRead, ReadResult.data.injEq] at h
    rw [← h]
    simp [List.length_take]

/-- The listener handling the event at index `i`, on a data socket (not
the listening socket, descriptor not negative). If the event has `EPOLLIN`,
one `read` of at most 2048 bytes is made: when it returns `n > 0` bytes the
callback is invoked once with exactly those bytes and the length `n`, and the
socket is not closed; when it returns 0 bytes or fails with `ECONNRESET` the
socket is closed and no callback is invoked; on any other error nothing more
is done. If the event has no `EPOLLIN`, no read is made and no callback is
invoked. -/
theorem handleEvent_data_socket (net : ListenerNet) (s : Listener) (ev : EpollEvent)
    (hev : s.events.get? s.i = some ev) (hdata : ev.fd ≠ s.listenfd) (hfd : 0 ≤ ev.fd) :
    (ev.events &&& EPOLLIN ≠ 0 →
      (∀ bytes, sysRead (net.read s.reads ev.fd) IOBUFFSIZE = .data bytes → bytes ≠ [] →
        bytes.length ≤ IOBUFFSIZE ∧
        (handleEvent net s).log = s.log ++
          [.read ev.fd,
           .callback { fn := s.m.recCallbackFunctionType, buf := bytes,
                       bufSize := bytes.length }]) ∧
      (sysRead (net.read s.reads ev.fd) IOBUFFSIZE = .data [] ∨
        sysRead (net.read s.reads ev.fd) IOBUFFSIZE = .error ECONNRESET →
        (handleEvent net s).log = s.log ++ [.read ev.fd, .closed ev.fd]) ∧
      (∀ e, sysRead (net.read s.reads ev.fd) IOBUFFSIZE = .error e → e ≠ ECONNRESET →
        (handleEvent net s).log = s.log ++ [.read ev.fd])) ∧
    (ev.events &&& EPOLLIN = 0 →
      (handleEvent net s).log = s.log ∨ (handleEvent net s).log = s.log ++ [.epoll_mod ev.fd]) := by
  have hneg : ¬ ev.fd < 0 := by omega
  rw [List.get?_eq_getElem?] at hev
  constructor
  · intro hin
    refine ⟨?_, ?_, ?_⟩
    · intro bytes hr hne
      refine ⟨sysRead_length_le _ _ _ hr, ?_⟩
      have hlen : bytes.length ≠ 0 := by
        intro h0; exact hne (List.length_eq_zero.mp h0)
      unfold handleEvent
      simp [hev, hdata, hin, hneg, hr, hlen]
    · intro hr
      unfold handleEvent
      rcases hr with hr | hr <;> simp [hev, hdata, hin, hneg, hr]
    · intro e hr hne
      unfold handleEvent
      simp [hev, hdata, hin, hneg, hr, hne]
  · intro hin
    unfold handleEvent
    by_cases hout : ev.events &&& EPOLLOUT ≠ 0
    · right; simp [hev, hdata, hin, hout]
    · left; simp [hev, hdata, hin, hout]

/-- C17 (evaluation at the failing input): the listener of `sckt_server.c` with the
callback at address 107, in the network `demoNetPending`, `ipc_stop` being called during
the first pass of its loop. The batch reports the data sockets 5, 6 and 7
readable. `scktListenerProc` returns, having read from socket 5 and twice from socket 7
and having invoked the callback with the bytes of each of these reads; for
the readiness event of socket 6, on which two bytes wait, it has made no `read`
and invoked no callback. -/
theorem C17_ready_data_socket_gets_no_callback :
    (scktListenerProc demoNetPending (stopListenerAt 0) 20 3
        (ScktServer.ipc_init ScktServer.zero 107 0)).map (fun s => s.log) =
      some [.epoll_add 3,
            .read 5, .callback { fn := 107, buf := [0x41], bufSize := 1 },
            .read 7, .callback { fn := 107, buf := [0x44], bufSize := 1 },
            .read 7, .callback { fn := 107, buf := [0x45, 0x46, 0x47], bufSize := 3 },
            .closed 3] ∧
    demoNetPending.epoll_wait 0 = [⟨EPOLLIN, 5⟩, ⟨EPOLLIN, 6⟩, ⟨EPOLLIN, 7⟩] ∧
    (∀ n, sysRead (demoNetPending.read n 6) IOBUFFSIZE = .data [0x42, 0x43]) := by
  refine ⟨rfl, rfl, fun _ => rfl⟩

/-! ## The client's transmit capability -/

/-- C18 (as amended): `ipc_xmit` of `sckt_client.c` called while the module is not
connected (`Connected` false or `client_sockfd <= 0`) does not call `send`, writes the line
`Client Not Connected!` to the main log and returns 0; called while connected, it
calls `send` once on the socket with the buffer and the length, and returns
the number of bytes `send` reports when that number is positive, and ends the
process through `system_error` (status 1, after the error line in the main log)
when `send` returns 0 or less. -/
theorem C18_client_transmit (env : Env) (m : ScktClient) (send : Int × Nat)
    (buf : List UInt8) (bufSize : Int) :
    (m.Connected = false ∨ m.client_sockfd ≤ 0 →
      ScktClient.ipc_xmit env m send buf bufSize = Except.ok 0 ∧
      ScktClient.ipc_xmit_events env m send buf bufSize =
        [.log "INFO - sckt_client - ipc_xmit",
         .log "INFO - sckt_client - ipc_xmit - Client Not Connected!"]) ∧
    (m.Connected = true → 0 < m.client_sockfd → 0 < send.1 →
      ScktClient.ipc_xmit env m send buf bufSize = Except.ok send.1.toNat ∧
      ScktClient.ipc_xmit_events env m send buf bufSize =
        [.log "INFO - sckt_client - ipc_xmit", .send m.client_sockfd buf bufSize,
         .log_sent send.1.toNat]) ∧
    (m.Connected = true → 0 < m.client_sockfd → send.1 ≤ 0 →
      (∃ h, ScktClient.ipc_xmit env m send buf bufSize = Except.error h ∧ h.status = 1) ∧
      ScktClient.ipc_xmit_events env m send buf bufSize =
        [.log "INFO - sckt_client - ipc_xmit", .send m.client_sockfd buf bufSize,
         .log (if send.1 = -1 ∧ send.2 ≠ EINTR then
             "ERROR - sckt_client - ipc_xmit - socket write error, aborting send - " ++
               env.strerror send.2
           else
             "ERROR - sckt_client - ipc_xmit - socket write error, num of written is less than zero - "
               ++ env.strerror send.2)]) := by
  refine ⟨?_, ?_, ?_⟩
  · intro h
    unfold ScktClient.ipc_xmit ScktClient.ipc_xmit_events
    rcases h with h | h
    · simp [h]; rfl
    · simp [h]; rfl
  · intro hc hs hn
    unfold ScktClient.ipc_xmit ScktClient.ipc_xmit_events
    have h1 : ¬ m.client_sockfd ≤ 0 := by omega
    have h2 : ¬ send.1 ≤ 0 := by omega
    simp [hc, h1, h2]; rfl
  · intro hc hs hn
    unfold ScktClient.ipc_xmit ScktClient.ipc_xmit_events
    have h1 : ¬ m.client_sockfd ≤ 0 := by omega
    by_cases h3 : send.1 = -1 ∧ send.2 ≠ EINTR
    · simp [hc, h1, hn, h3, system_error, error, bind, Except.bind]
    · simp [hc, h1, hn, h3, system_error, error, bind, Except.bind, pure, Except.pure]

/-- C18 at three inputs: right after `ipc_init` (not connected); connected with
`send` returning 512; connected with `send` returning -1 and `errno = EPIPE`. -/
theorem C18_client_transmit_witness :
    (ScktClient.ipc_xmit demoEnv (ScktClient.ipc_init ScktClient.zero 0 0) (512, 0)
        (demoBytes 512) 512 = Except.ok 0 ∧
      ScktClient.ipc_xmit_events demoEnv (ScktClient.ipc_init ScktClient.zero 0 0) (512, 0)
        (demoBytes 512) 512 =
        [.log "INFO - sckt_client - ipc_xmit",
         .log "INFO - sckt_client - ipc_xmit - Client Not Connected!"]) ∧
    (ScktClient.ipc_xmit demoEnv demoScktClientConnected (512, 0) (demoBytes 512) 512
        = Except.ok ((512, 0) : Int × Nat).1.toNat ∧
      ScktClient.ipc_xmit_events demoEnv demoScktClientConnected (512, 0) (demoBytes 512) 512 =
        [.log "INFO - sckt_client - ipc_xmit",
         .send demoScktClientConnected.client_sockfd (demoBytes 512) 512,
         .log_sent ((512, 0) : Int × Nat).1.toNat]) ∧
    ((∃ h, ScktClient.ipc_xmit demoEnv demoScktClientConnected (-1, EPIPE) (demoBytes 512) 512
        = Except.error h ∧ h.status = 1) ∧
      ScktClient.ipc_xmit_events demoEnv demoScktClientConnected (-1, EPIPE)
          (demoBytes 512) 512 =
        [.log "INFO - sckt_client - ipc_xmit",
         .send demoScktClientConnected.client_sockfd (demoBytes 512) 512,
         .log (if ((-1, EPIPE) : Int × Nat).1 = -1 ∧ ((-1, EPIPE) : Int × Nat).2 ≠ EINTR then
             "ERROR - sckt_client - ipc_xmit - socket write error, aborting send - " ++
               demoEnv.strerror ((-1, EPIPE) : Int × Nat).2
           else
             "ERROR - sckt_client - ipc_xmit - socket write error, num of written is less than zero - "
               ++ demoEnv.strerror ((-1, EPIPE) : Int × Nat).2)]) :=
  ⟨(C18_client_transmit demoEnv (ScktClient.ipc_init ScktClient.zero 0 0) (512, 0)
      (demoBytes 512) 512).1 (Or.inl rfl),
   (C18_client_transmit demoEnv demoScktClientConnected (512, 0) (demoBytes 512) 512).2.1
      rfl (by decide) (by decide),
   (C18_client_transmit demoEnv demoScktClientConnected (-1, EPIPE) (demoBytes 512) 512).2.2
      rfl (by decide) (by decide)⟩

/-- C18 (counterexample): right after `ipc_init` the client is not connected, and
`ipc_xmit` returns 0 to its caller instead of ending with an error. -/
theorem C18_not_connected_returns_0 :
    (ScktClient.ipc_init ScktClient.zero 0 0).Connected = false ∧
    ScktClient.ipc_xmit demoEnv (ScktClient.ipc_init ScktClient.zero 0 0) (512, 0)
      (List.replicate 512 0) 512 = Except.ok 0 :=
  ⟨rfl, rfl⟩

/-! ## The worker loops and the stop request -/

/-- A stop request that arrives during a pass of `xmitProc` ends the loop at the
next test: that pass is the last one. -/
theorem xmitProc_stop_during_pass (others : Nat → ShmemXmit × Kernel → ShmemXmit × Kernel)
    (fuel n : Nat) (m : ShmemXmit) (k : Kernel) (hrun : m.stop = false)
    (hstop : (others n (m, k)).1.stop = true) :
    ShmemXmit.xmitProc others (fuel + 2) n m k =
      (ShmemXmit.xmitProcBody (others n (m, k)).1 (others n (m, k)).2).map
        (fun r => (r.1, (others n (m, k)).1, r.2)) := by
  rw [ShmemXmit.xmitProc]
  simp only [hrun, Bool.false_eq_true, if_false]
  cases hb : ShmemXmit.xmitProcBody (others n (m, k)).1 (others n (m, k)).2 with
  | none => rfl
  | some r =>
    obtain ⟨calls, k1⟩ := r
    simp only [Option.map_some']
    rw [ShmemXmit.xmitProc]
    simp [hstop]

theorem clientLoopBody_keeps_disconnected (net : Nat → ClientWait) (s : ClientLoop)
    (h : s.m.Connected = false) : (clientLoopBody net s).m.Connected = false := by
  unfold clientLoopBody
  simp only []
  split_ifs <;> simp [h]

/-- A stop request that arrives during a pass of the client's data loop ends
the loop at the next test: that pass is the last one. -/
theorem clientDataLoop_stop_during_pass (net : Nat → ClientWait)
    (others : Nat → ScktClient → ScktClient) (fuel n : Nat) (s : ClientLoop)
    (hrun : s.m.Connected = true) (hstop : (others n s.m).Connected = false) :
    clientDataLoop net others (fuel + 2) n s =
      some (clientLoopBody net { s with m := others n s.m }) := by
  rw [clientDataLoop]
  simp only [hrun, Bool.not_true, Bool.false_eq_true, if_false]
  rw [clientDataLoop]
  simp [clientLoopBody_keeps_disconnected net { s with m := others n s.m } hstop]

theorem handleEvent_statics (net : ListenerNet) (s : Listener) : (handleEvent net s).m = s.m := by
  unfold handleEvent
  split
  · rfl
  · simp only []
    split_ifs
    any_goals rfl
    split
    · split_ifs <;> rfl
    · split_ifs <;> rfl

theorem forEvents_statics (net : ListenerNet) (fuel : Nat) :
    ∀ s s', forEvents net fuel s = some s' → s'.m = s.m := by
  induction fuel with
  | zero => intro s s' h; simp [forEvents] at h
  | succ f ih =>
    intro s s' h
    rw [forEvents] at h
    split_ifs at h with h1 h2
    · cases h; rfl
    · rw [ih _ _ h]
      exact handleEvent_statics net s
    · cases h; rfl

/-- A stop request that arrives during a pass of the listener's loop ends the
loop at the next test, provided the `for` loop over the batch of that pass
comes to an end. -/
theorem listenerLoop_stop_during_pass (net : ListenerNet)
    (others : Nat → ScktServer → ScktServer) (fuel n : Nat) (s s2 : Listener)
    (hlive : s.halted = none) (hrun : s.m.isListening = true)
    (hstop : (others n s.m).isListening = false)
    (hbatch : forEvents net (fuel + 1)
      { s with m := others n s.m, nfds := (net.epoll_wait s.waits).length,
               events := net.epoll_wait s.waits, waits := s.waits + 1, i := 0 } = some s2) :
    listenerLoop net others (fuel + 2) n s = some s2 := by
  have hm := forEvents_statics net _ _ _ hbatch
  simp only [hlive] at hbatch
  rw [listenerLoop]
  simp only [hlive, hrun, Option.isSome_none, Bool.false_eq_true, if_false, Bool.not_true,
    hbatch]
  rw [listenerLoop]
  split_ifs with h1 h2
  · rfl
  · rfl
  · rw [hm] at h2
    simp [hstop] at h2

/-- In the network `demoNetOneByte`, once the `for` loop of the listener stands at
index 2 of the batch of three it stays there: each read returns one byte, the
logging loop leaves `i = 1` and `++i` gives 2 again. -/
theorem forEvents_stuck (fuel : Nat) :
    ∀ s : Listener, s.halted = none → s.i = 2 → s.nfds = 3 →
      s.events.get? 2 = some ⟨EPOLLIN, 7⟩ → s.listenfd = 3 →
      forEvents demoNetOneByte fuel s = none := by
  induction fuel with
  | zero => intro s _ _ _ _ _; rfl
  | succ f ih =>
    intro s hh hi hn hev hl
    rw [forEvents]
    simp only [hh, hi, hn, Option.isSome_none, Bool.false_eq_true, if_false]
    rw [if_pos (by decide)]
    have hs1 : handleEvent demoNetOneByte s =
        { s with reads := s.reads + 1, i := 1,
                 log := s.log ++ [.read 7, .callback
                   { fn := s.m.recCallbackFunctionType, buf := [0x41], bufSize := 1 }] } := by
      rw [List.get?_eq_getElem?] at hev
      unfold handleEvent
      simp [hi, hev, hl, demoNetOneByte, sysRead, EPOLLIN, IOBUFFSIZE]
    rw [hs1]
    exact ih _ hh rfl hn hev hl

/-- C19 (evaluation at the failing input): the listener of `sckt_server.c` in the
network `demoNetOneByte`, with `ipc_stop` called during the first pass of its loop.
The stop request clears `isListening`, yet `scktListenerProc` returns for no amount of
fuel: the `for` loop over the first batch never ends, so the loop test is never
reached again. -/
theorem C19_listener_never_returns_after_stop (fuel : Nat) (m : ScktServer) :
    (stopListenerAt 0 0 { m with isListening := true }).isListening = false ∧
    scktListenerProc demoNetOneByte (stopListenerAt 0) fuel 3 m = none := by
  refine ⟨rfl, ?_⟩
  have hbatch : ∀ f (s : Listener), s.halted = none → s.i = 0 → s.nfds = 3 →
      s.events = [⟨EPOLLIN, 5⟩, ⟨EPOLLIN, 6⟩, ⟨EPOLLIN, 7⟩] → s.listenfd = 3 →
      forEvents demoNetOneByte f s = none := by
    intro f s hh hi hn hev hl
    cases f with
    | zero => rfl
    | succ f =>
      rw [forEvents]
      simp only [hh, hi, hn, Option.isSome_none, Bool.false_eq_true, if_false]
      rw [if_pos (by decide)]
      have hs1 : handleEvent demoNetOneByte s =
          { s with reads := s.reads + 1, i := 1,
                   log := s.log ++ [.read 5, .callback
                     { fn := s.m.recCallbackFunctionType, buf := [0x41], bufSize := 1 }] } := by
        unfold handleEvent
        simp [hi, hev, hl, demoNetOneByte, sysRead, EPOLLIN, IOBUFFSIZE]
      rw [hs1]
      exact forEvents_stuck f _ hh rfl hn (by simp [hev]) hl
  unfold scktListenerProc
  cases fuel with
  | zero => rfl
  | succ f =>
    simp only [listenerLoop, Option.isSome_none, Bool.false_eq_true, if_false, Bool.not_true]
    rw [hbatch f _ rfl rfl rfl rfl rfl]

/-! ## A stop request between `ipc_init` and `ipc_start` -/

/-- In `sckt_server.c`, `sckt_client.c` and `shmem_rec.c` a stop request right after
`ipc_init` changes nothing: the flag it clears is already clear. -/
theorem stop_after_init_changes_nothing (ms : ScktServer) (mc : ScktClient) (mr : ShmemRec)
    (a b : Nat) :
    ScktServer.ipc_stop (ScktServer.ipc_init ms a b) = ScktServer.ipc_init ms a b ∧
    ScktClient.ipc_stop (ScktClient.ipc_init mc a b) = ScktClient.ipc_init mc a b ∧
    ShmemRec.ipc_stop mr = mr :=
  ⟨rfl, rfl, rfl⟩

set_option maxRecDepth 20000 in
/-- C20 (evaluation at the failing input): `shmem_xmit.c`, `ipc_stop` called after
`ipc_init` and before `ipc_start`. `ipc_start` writes none of the statics, so `stop` is
still set when the worker begins: for every behaviour of the other threads
the worker leaves its loop at the first test, without a wait and without a
callback. In the example the producer posts once; the worker started after
the stop request invokes nothing, the worker started without it invokes the
callback twice (for the value 1 left by `ipc_init` and for the post). -/
theorem C20_stop_before_start_disables_xmit_worker :
    (∀ (env : Env) (errno : Nat) (m : ShmemXmit),
      ShmemXmit.ipc_start env errno 0 (ShmemXmit.ipc_stop m)
        = Except.ok (true, ShmemXmit.ipc_stop m)) ∧
    (∀ (others : Nat → ShmemXmit × Kernel → ShmemXmit × Kernel) (fuel : Nat)
        (m : ShmemXmit) (k : Kernel),
      ShmemXmit.xmitThread others (fuel + 1) (ShmemXmit.ipc_stop m) k =
        some ([], { ShmemXmit.ipc_stop m with XmitProcActive := false }, k)) ∧
    (match ShmemXmit.ipc_init demoEnv ShmemXmit.zero Kernel.empty 0 306 with
      | Except.ok (m, k) =>
        some
          (callSummary (ShmemXmit.xmitThread (demoOthersXmit m.prod_semid) 10
            (ShmemXmit.ipc_stop m) k),
           callSummary (ShmemXmit.xmitThread (demoOthersXmit m.prod_semid) 10 m k))
      | Except.error _ => none)
      = some (some [], some [(306, 512), (306, 512)]) := by
  refine ⟨?_, ?_, ?_⟩
  · intro env errno m
    rfl
  · intro others fuel m k
    unfold ShmemXmit.xmitThread
    rw [ShmemXmit.xmitProc]
    simp [ShmemXmit.ipc_stop]
  · rfl

/-! ## The start functions: does the caller wait for the created thread -/

/-- When the flag is clear as the thread is created, the polling loop ends
exactly when the created thread has set it: after `delay + 1` tests at most,
and with the thread's first statement executed. -/
theorem waitForThread_clear {σ : Type} (active : σ → Bool) (setActive : σ → σ)
    (hset : ∀ m, active (setActive m) = true) (fuel : Nat) :
    ∀ (delay : Nat) (m : σ), active m = false →
      waitForThread active setActive fuel delay (m, false) =
        if delay < fuel then some (setActive m, true) else none := by
  induction fuel with
  | zero => intro delay m _; simp [waitForThread]
  | succ f ih =>
    intro delay m hm
    rw [waitForThread]
    cases delay with
    | zero => simp [hset]
    | succ d =>
      simp only [Bool.not_false, Bool.true_and, Nat.add_one_ne_zero, decide_False,
        Bool.false_eq_true, if_false, hm, Nat.add_sub_cancel]
      rw [ih d m hm]
      simp

/-- In `shmem_xmit.c` and `sckt_client.c`, started on the statics `ipc_init` leaves, the
start function returns (given `delay + 1` tests) and it returns `true` with the
created thread having executed its first statement. -/
theorem start_waits_in_shmem_xmit_and_sckt_client (env : Env) (errno : Nat) (fuel delay : Nat)
    (mx : ShmemXmit) (mc : ScktClient) (a b : Nat) :
    ShmemXmit.ipc_start_polling env errno 0 (delay + 1 + fuel) delay
        { mx with XmitProcActive := false }
      = some (Except.ok { rval := true, m := { mx with XmitProcActive := true },
                          workerRan := true }) ∧
    ScktClient.ipc_start_polling env errno 0 (delay + 1 + fuel) delay (ScktClient.ipc_init mc a b)
      = some (Except.ok { rval := true,
                          m := { ScktClient.ipc_init mc a b with ClientProcActive := true },
                          workerRan := true }) := by
  constructor
  · unfold ShmemXmit.ipc_start_polling
    rw [if_neg (by decide), waitForThread_clear _ _ (fun _ => rfl) _ _ _ rfl,
      if_pos (by omega)]
    rfl
  · unfold ScktClient.ipc_start_polling
    rw [if_neg (by decide), waitForThread_clear _ _ (fun _ => rfl) _ _ _ rfl,
      if_pos (by omega)]
    rfl

/-- C21 (evaluation at the failing inputs): `ipc_start` of `sckt_server.c`, `pthread_create`
succeeding, the created thread not yet scheduled when the caller tests the
flag (`delay + 1`). The flag the caller polls was set by the caller itself
before `pthread_create`, so the first test ends the loop: `ipc_start` returns `true`
although the created thread has executed nothing. -/
theorem C21_server_start_returns_before_worker_runs (env : Env) (errno : Nat)
    (fuel delay : Nat) (m : ScktServer) :
    (ScktServer.beforeCreate m).bListenerProcActive = true ∧
    ScktServer.ipc_start_polling env errno 0 (fuel + 1) (delay + 1) m
      = some (Except.ok { rval := true, m := ScktServer.beforeCreate m, workerRan := false }) := by
  refine ⟨rfl, ?_⟩
  unfold ScktServer.ipc_start_polling
  rw [if_neg (by decide), waitForThread]
  simp [ScktServer.beforeCreate]
  rfl

/-! ## The socket modules: validation of the connection parameters -/

/-- C22: `ipc_set_param` of `sckt_client.c` returns `true` exactly when the address is not
`NULL` and the protocol string is `"tcp"` or `"udp"`; `ipc_set_param` of `sckt_server.c` returns
`true` exactly when the protocol string is `"tcp"` or `"udp"`; whenever either returns
`true`, the stored `ConnPort` is the port argument. -/
theorem C22_set_param_validates_parameters (mc : ScktClient) (ms : ScktServer)
    (prtcl : String) (addr : Option String) (port : Int) :
    ((ScktClient.ipc_set_param mc prtcl addr port).1 = true ↔
      addr ≠ none ∧ (prtcl = "tcp" ∨ prtcl = "udp")) ∧
    ((ScktServer.ipc_set_param ms prtcl addr port).1 = true ↔
      (prtcl = "tcp" ∨ prtcl = "udp")) ∧
    ((ScktClient.ipc_set_param mc prtcl addr port).1 = true →
      (ScktClient.ipc_set_param mc prtcl addr port).2.ConnPort = port) ∧
    ((ScktServer.ipc_set_param ms prtcl addr port).1 = true →
      (ScktServer.ipc_set_param ms prtcl addr port).2.ConnPort = port) := by
  unfold ScktClient.ipc_set_param ScktServer.ipc_set_param
  cases addr with
  | none =>
    by_cases h1 : prtcl = "tcp"
    · simp [h1]
    · by_cases h2 : prtcl = "udp"
      · simp [h2]
      · simp [h1, h2]
  | some a =>
    by_cases h1 : prtcl = "tcp"
    · simp [h1]
    · by_cases h2 : prtcl = "udp"
      · simp [h2]
      · simp [h1, h2]

/-- C22 at an accepted triple: protocol `"tcp"`, address `"10.0.0.1"`, port 8080, on the
statics at program start; both modules store port 8080. -/
theorem C22_set_param_validates_parameters_witness :
    (ScktClient.ipc_set_param ScktClient.zero "tcp" (some "10.0.0.1") 8080).2.ConnPort = 8080 ∧
    (ScktServer.ipc_set_param ScktServer.zero "tcp" (some "10.0.0.1") 8080).2.ConnPort = 8080 :=
  ⟨(C22_set_param_validates_parameters ScktClient.zero ScktServer.zero "tcp"
      (some "10.0.0.1") 8080).2.2.1
      ((C22_set_param_validates_parameters ScktClient.zero ScktServer.zero "tcp"
        (some "10.0.0.1") 8080).1.mpr ⟨by simp, Or.inl rfl⟩),
   (C22_set_param_validates_parameters ScktClient.zero ScktServer.zero "tcp"
      (some "10.0.0.1") 8080).2.2.2
      ((C22_set_param_validates_parameters ScktClient.zero ScktServer.zero "tcp"
        (some "10.0.0.1") 8080).2.1.mpr (Or.inl rfl))⟩

/-! ## The socket modules: what a rejected `ipc_set_param` leaves behind -/

/-- A rejected `ipc_set_param` of `sckt_server.c` changes none of the statics. -/
theorem ScktServer.set_param_rejected_keeps_statics (ms : ScktServer) (prtcl : String)
    (addr : Option String) (port : Int)
    (h : (ScktServer.ipc_set_param ms prtcl addr port).1 = false) :
    (ScktServer.ipc_set_param ms prtcl addr port).2 = ms := by
  unfold ScktServer.ipc_set_param at h ⊢
  by_cases h1 : prtcl = "tcp"
  · simp [h1] at h
  · by_cases h2 : prtcl = "udp"
    · simp [h2] at h
    · simp [h1, h2]

/-- A rejected `ipc_set_param` of `sckt_client.c` leaves `ConnPort` and `AddrFamily` as they were,
yet it stores the address when one is given and the protocol when it is
`"tcp"` or `"udp"`. -/
theorem ScktClient.set_param_rejected_statics (mc : ScktClient) (prtcl : String)
    (addr : Option String) (port : Int)
    (h : (ScktClient.ipc_set_param mc prtcl addr port).1 = false) :
    (ScktClient.ipc_set_param mc prtcl addr port).2 =
      { mc with
        ServerAddr := match addr with
          | some a => some a
          | none => mc.ServerAddr
        Protocol := if prtcl = "tcp" then IPPROTO_TCP
          else if prtcl = "udp" then IPPROTO_UDP else mc.Protocol } := by
  unfold ScktClient.ipc_set_param at h ⊢
  cases addr with
  | none =>
    by_cases h1 : prtcl = "tcp"
    · simp [h1]
    · by_cases h2 : prtcl = "udp"
      · simp [h1, h2]
      · simp [h1, h2]
  | some a =>
    by_cases h1 : prtcl = "tcp"
    · simp [h1] at h
    · by_cases h2 : prtcl = "udp"
      · simp [h2] at h
      · simp [h1, h2]

/-- C29 (evaluation at the failing inputs): `ipc_set_param` of `sckt_client.c` on the statics
`ipc_init` leaves. Called with protocol `"sctp"` and address `"10.0.0.1"` it returns `false`
and has stored the address; called with protocol `"udp"` and a `NULL` address it
returns `false` and has stored the protocol. -/
theorem C29_rejected_client_set_param_stores_address_or_protocol :
    ScktClient.ipc_set_param (ScktClient.ipc_init ScktClient.zero 0 0) "sctp" (some "10.0.0.1") 8080
      = (false, { ScktClient.ipc_init ScktClient.zero 0 0 with ServerAddr := some "10.0.0.1" }) ∧
    (ScktClient.ipc_init ScktClient.zero 0 0).ServerAddr = none ∧
    ScktClient.ipc_set_param (ScktClient.ipc_init ScktClient.zero 0 0) "udp" none 8080
      = (false, { ScktClient.ipc_init ScktClient.zero 0 0 with Protocol := IPPROTO_UDP }) ∧
    (ScktClient.ipc_init ScktClient.zero 0 0).Protocol = 0 ∧ IPPROTO_UDP = 17 := by
  refine ⟨?_, rfl, ?_, rfl, rfl⟩
  · simp [ScktClient.ipc_set_param]
  · simp [ScktClient.ipc_set_param]

/-! ## The receive-side copy and the end of the channel -/

theorem memcpy_above (d : Mem) (B : List UInt8) (n i : Nat) (h : n ≤ i) :
    memcpy d B n i = d i := by
  unfold memcpy
  rw [if_neg (by omega)]

/-- A receive call with at most `CONS_SHM_SIZE` bytes leaves every offset from
`CONS_SHM_SIZE` on as it was. -/
theorem ipc_rec_short_stays_inside (m : ShmemRec) (k : Kernel) (B : List UInt8) (v : Nat)
    (seg : ShmSeg) (hsem : semValue k m.cons_semid 0 = some v)
    (hshm : findShm k m.cons_shm = some seg) (hlen : B.length ≤ CONS_SHM_SIZE) :
    ∃ k2 seg2, ShmemRec.ipc_rec m k B B.length = some k2 ∧
      findShm k2 m.cons_shm = some seg2 ∧ ∀ i, CONS_SHM_SIZE ≤ i → seg2.bytes i = seg.bytes i := by
  obtain ⟨k2, h1, _, h3⟩ := ipc_rec_spec m k B v seg hsem hshm
  exact ⟨k2, _, h1, h3, fun i hi => memcpy_above _ _ _ _ (by omega)⟩

theorem length_demoBytes (n : Nat) : (demoBytes n).length = n := by
  simp [demoBytes]

theorem take_demoBytes (a b : Nat) (h : a ≤ b) : (demoBytes b).take a = demoBytes a := by
  simp [demoBytes, List.take_replicate, min_eq_left h]

theorem getD_demoBytes (i n : Nat) (h : i < n) : (demoBytes n).getD i 0 = 0x41 := by
  simp [demoBytes, List.getD_eq_getElem?_getD, h]

/-- C23 (evaluation at the failing input): a peer has 3000 bytes `0x41` waiting on
a data socket of the listener of `sckt_server.c`, whose callback is `ipc_rec` of
`shmem_rec.c`. The `read` fills the whole buffer and the callback is called with
length `IOBUFFSIZE = 2048`; `ipc_rec` then copies 2048 bytes to the channel of
`CONS_SHM_SIZE = 512` bytes: the offsets 512 and 2047, which held 0, hold `0x41`. -/
theorem C23_receive_copy_runs_past_channel_end :
    (handleEvent demoNetFull (listenerAtBatch [⟨EPOLLIN, 5⟩])).log =
      [.read 5, .callback { fn := 107, buf := demoBytes 2048, bufSize := 2048 }] ∧
    (∃ k2 seg2, ShmemRec.ipc_rec demoShmemRec (kernelWithChannel 0) (demoBytes 2048) 2048
        = some k2 ∧
      findShm k2 demoShmemRec.cons_shm = some seg2 ∧ seg2.size = CONS_SHM_SIZE ∧
      seg2.bytes 512 = 0x41 ∧ seg2.bytes 2047 = 0x41) ∧
    demoSegment.bytes 512 = 0 ∧ demoSegment.bytes 2047 = 0 ∧
    findShm (kernelWithChannel 0) demoShmemRec.cons_shm = some demoSegment := by
  refine ⟨?_, ?_, rfl, rfl, rfl⟩
  · have ht := take_demoBytes 2048 3000 (by norm_num)
    simp [handleEvent, listenerAtBatch, demoNetFull, sysRead, EPOLLIN, IOBUFFSIZE,
      ScktServer.ipc_init, ScktServer.zero, ht, length_demoBytes]
  · obtain ⟨k2, h1, _, h3⟩ := ipc_rec_spec demoShmemRec (kernelWithChannel 0)
      (demoBytes 2048) 0 demoSegment rfl rfl
    rw [length_demoBytes] at h1 h3
    refine ⟨k2, _, h1, h3, rfl, ?_, ?_⟩
    · simp only [memcpy]
      rw [if_pos (by norm_num), getD_demoBytes _ _ (by norm_num)]
    · simp only [memcpy]
      rw [if_pos (by norm_num), getD_demoBytes _ _ (by norm_num)]

/-! ## The listener worker: which events of a batch are handled -/

/-- C24 (evaluation at the failing input): the listener of `sckt_server.c` with a batch
of three readable data sockets (descriptors 5, 6, 7 at indices 0, 1, 2), the
reads finding 1, 1 and 3 bytes. The logging loop reuses the index `i` of the
loop over the batch: after the read at index 0 it leaves `i = 1`, and `++i` moves
on to index 2, so index 1 is never handled; after the first read at index 2
it leaves `i = 1` again, so index 2 is handled a second time. The loop over the
batch ends with `i = 4`, having read from the descriptors 5, 7, 7. -/
theorem C24_batch_event_skipped_and_repeated :
    (forEvents demoNetUneven 10
        (listenerAtBatch [⟨EPOLLIN, 5⟩, ⟨EPOLLIN, 6⟩, ⟨EPOLLIN, 7⟩])).map
      (fun s => (readsOf s.log, s.i)) = some ([5, 7, 7], 4) := by
  rfl

/-! ## The producer's copy into the channel -/

set_option maxRecDepth 100000 in
/-- C25 (evaluation at the failing input): `main` of `producer.c` on a machine with the
key files present and no IPC object yet. The test pattern has a zero byte
at offset 255 (`BUFFER_INIT1 + 255 = 256`, low eight bits 0) and `strncpy` stops there:
the channel holds the first 255 pattern bytes followed by 257 zero bytes.
At offset 256 the pattern holds 1 and the channel holds 0. -/
theorem C25_producer_copy_stops_at_offset_255 :
    Producer.channelAfterMain demoEnv Kernel.empty =
      some (Producer.pattern.take 255 ++ List.replicate 257 0) ∧
    Producer.pattern.length = 512 ∧
    Producer.pattern.get? 255 = some 0 ∧
    Producer.pattern.get? 256 = some 1 ∧
    (Producer.channelAfterMain demoEnv Kernel.empty).bind (fun c => c.get? 256) = some 0 := by
  refine ⟨?_, ?_, ?_, ?_, ?_⟩ <;> rfl

/-! ## The client's connect block -/

/-- Whenever the connect block returns, it has set `Connected`. -/
theorem connectBlock_sets_Connected (env : Env) (net : ConnectNet) (errno : Nat)
    (m : ScktClient) (r : ScktClient × List ConnectEvent)
    (h : ScktClient.connectBlock env net errno m = Except.ok r) : r.1.Connected = true := by
  unfold ScktClient.connectBlock at h
  simp only [] at h
  split_ifs at h
  all_goals (cases h; rfl)

/-- C26 (evaluation at the failing inputs): the connect block of `sckt_client.c` on the
statics `ipc_init` leaves. When `connect` is refused at once, and when the attempt is
in progress and the socket error read afterwards is `ECONNREFUSED`, the block logs
that the connection did not go through and then sets `Connected`. A transmit
call after the refused attempt passes the not-connected guard and hands the
buffer to `send`: it returns what `send` returns (512), and ends the process with
status 1 when `send` fails. -/
theorem C26_failed_connect_still_marks_connected :
    ScktClient.connectBlock demoEnv demoConnectRefused 0 (ScktClient.ipc_init ScktClient.zero 0 0)
      = Except.ok
          ({ ScktClient.ipc_init ScktClient.zero 0 0 with client_sockfd := 4, Connected := true },
           [.log "ERROR - sckt_client - connect did not go through for other non-recoverable reasons"]) ∧
    ScktClient.connectBlock demoEnv demoConnectFailsLater 0
        (ScktClient.ipc_init ScktClient.zero 0 0)
      = Except.ok
          ({ ScktClient.ipc_init ScktClient.zero 0 0 with client_sockfd := 4, Connected := true },
           [.epoll_create, .epoll_ctl, .epoll_wait, .getsockopt,
            .log "ERROR - sckt_client - connect did not go through"]) ∧
    ScktClient.ipc_xmit demoEnv
        { ScktClient.ipc_init ScktClient.zero 0 0 with client_sockfd := 4, Connected := true }
        (512, 0) (demoBytes 512) 512 = Except.ok 512 ∧
    ScktClient.ipc_xmit demoEnv
        { ScktClient.ipc_init ScktClient.zero 0 0 with client_sockfd := 4, Connected := true }
        (-1, EPIPE) (demoBytes 512) 512
      = Except.error
          { status := 1,
            stderr := "isc: error: (sckt_client - ipc_xmit - socket write error, aborting send) error\n" } := by
  refine ⟨rfl, rfl, rfl, rfl⟩

/-- The test `numEvents < 0` on the `unsigned int` variable fails for every value `epoll_wait`
returns; -1 becomes 4294967295. -/
theorem numEvents_never_negative (w : Int) :
    ¬ ((toUnsignedInt w : Int) < 0) ∧ toUnsignedInt (-1) = 4294967295 := by
  constructor
  · exact not_lt.mpr (Int.ofNat_nonneg _)
  · rfl

/-- C30 (evaluation at the failing input): the connect block of `sckt_client.c` with the
connection attempt in progress and `epoll_wait` returning -1, for every descriptor,
every outcome of `getsockopt`, every `errno` before the block and all statics. The
value -1 is stored in the `unsigned int` variable `numEvents`, the test `numEvents < 0` fails,
and the block goes on to `getsockopt` and returns with `Connected` set: the process does
not end with status 2. -/
theorem C30_failed_wait_goes_undetected (env : Env) (socket : Int) (g : Int × Int)
    (errno : Nat) (m : ScktClient) :
    ScktClient.connectBlock env (demoConnectWaitFails socket g) errno m
      = Except.ok
          ({ m with client_sockfd := socket, Connected := true },
           [.epoll_create, .epoll_ctl, .epoll_wait, .getsockopt] ++
            (if g.1 < 0 then [.log "ERROR - sckt_client - fail somehow, close socket"] else []) ++
            (if (if g.1 < 0 then -1 else g.2) ≠ 0 then
              [.log "ERROR - sckt_client - connect did not go through"] else [])) := by
  have hn : ¬ ((toUnsignedInt (-1) : Int) < 0) := not_lt.mpr (Int.ofNat_nonneg _)
  unfold ScktClient.connectBlock
  simp [demoConnectWaitFails, hn]

/-! ## Teardown after a failed load -/

/-- C27 (evaluation at the failing inputs): `isc` with the file of the socket
module absent from the module directory, in server role and in client role.
The first load succeeds and sets `module_shmem`, the second ends the process with
status 1 before any `init_function` is called; the function registered with `atexit`
then calls the `cleanup_function` of the shared-memory module. -/
theorem C27_cleanup_runs_on_uninitialised_module :
    isc_process demoEnv (demoLoaderWithout "sckt_server.so") "/opt/isc" demoCode
        "tcp" "127.0.0.1" 8080 0
      = (1, { module_shmem := some demoModuleShmemRec, module_sckt := none, errno := 0,
              trace := [.sigaction_SIGUSR1, .atexit_cleanup, .ipc_open "shmem_rec.so",
                        .ipc_open "sckt_server.so", .cleanup_function "shmem_rec.so" 101,
                        .ipc_close "shmem_rec.so"] }) ∧
    isc_process demoEnv (demoLoaderWithout "sckt_client.so") "/opt/isc" demoCode
        "tcp" "127.0.0.1" 8080 1
      = (1, { module_shmem := some demoModuleShmemXmit, module_sckt := none, errno := 0,
              trace := [.sigaction_SIGUSR1, .atexit_cleanup, .ipc_open "shmem_xmit.so",
                        .ipc_open "sckt_client.so", .cleanup_function "shmem_xmit.so" 201,
                        .ipc_close "shmem_xmit.so"] }) := by
  constructor <;> decide

/-! ## The event arrays of the socket workers -/

/-- Batches that fit the array are handled inside it: `epoll_wait` never returns more
events than it is allowed to. -/
theorem epoll_wait_length_le (ready : List EpollEvent) (maxevents : Nat) :
    (epoll_wait ready maxevents).length ≤ maxevents := by
  simp [epoll_wait]

/-- C28 (evaluation at the failing input): the listener of `sckt_server.c` with 21
connected sockets readable at once (their peers have closed). `scktListenerProc` allows
`epoll_wait` 128 events for an array of 20, so the call returns all 21 and the loop
over the batch handles index 20, outside the array: it reads from descriptor
25. `scktClientProc` likewise allows 128 events for an array of 64. -/
theorem C28_event_count_exceeds_array :
    ScktServer.events_capacity < EPOLL_MAXEVENTS ∧
    ScktClient.processableEvents_capacity < MAXEVENTS ∧
    (ScktServer.epoll_wait_call demoReady21).length = 21 ∧
    ScktServer.events_capacity < (ScktServer.epoll_wait_call demoReady21).length ∧
    (forEvents demoNet21 30 (listenerAtBatch (demoNet21.epoll_wait 0))).map
        (fun s => readsOf s.log)
      = some [5, 6, 7, 8, 9, 10, 11, 12, 13, 14, 15, 16, 17, 18, 19, 20, 21, 22, 23, 24, 25] ∧
    (demoNet21.epoll_wait 0).get? ScktServer.events_capacity = some ⟨EPOLLIN, 25⟩ := by
  refine ⟨by decide, by decide, rfl, by decide, rfl, rfl⟩

end ProducerConsumer
